import Mathlib

/-!
Shallow embedding of src/architectures/g_unet.py.

The module builds a static Keras graph for a U-Net.  We embed the graph as a
list of nodes, each node holding a layer configuration and the indices of its
input nodes (the Keras functional API assigns nodes in construction order).
Shape inference is a separate executable evaluator over the node list,
mirroring what the Keras layers compute for output shapes.

The source supports two Keras major versions (selected by the KERAS_2 flag)
and two image dimension orderings (the global configuration read through
K.image_dim_ordering).  Both are explicit parameters here.
-/

namespace GUnet

/-- Layer configurations appearing in g_unet.py.  Convolution2D is the same
layer class under Keras 1 and Keras 2 (only the argument spelling differs in
the source), so it has a single constructor; the Keras 2 Conv2DTranspose and
the Keras 1 Deconvolution2D differ (the latter stores an output_shape), as do
Concatenate (Keras 2) and merge (Keras 1). -/
inductive Layer where
  | inputL (shape : List Nat)
  | conv2D (filters k1 k2 : Nat) (padding : String) (s1 s2 : Nat)
  | conv2DTranspose (filters k1 k2 s1 s2 : Nat) (dataFormat : String)
  | deconv2D (filters k1 k2 : Nat) (outputShape : List Nat) (s1 s2 : Nat)
  | batchNorm (mode : Option Nat) (axis : Nat)
  | leakyReLU (alpha : ℚ)
  | dropout (rate : ℚ)
  | concatL (axis : Nat)
  | mergeL (axis : Nat) (mode : String)
  | activation (act : String)
  deriving Repr, DecidableEq

/-- One node of the built graph: a layer applied to earlier nodes. -/
structure BuiltNode where
  layer : Layer
  inputs : List Nat
  deriving Repr, DecidableEq

/-- The graph under construction: nodes in construction order. -/
abbrev Graph := List BuiltNode

/-- Calling a layer on tensors in the functional API appends a node and
returns the index of the new node (the resulting tensor). -/
def applyL (g : Graph) (l : Layer) (ins : List Nat) : Nat × Graph :=
  (g.length, g ++ [⟨l, ins⟩])

/-- K.image_data_format() as a function of the dimension ordering
(th corresponds to channels_first, tf to channels_last). -/
def image_data_format (ordering : String) : String :=
  if ordering = "tf" then "channels_last" else "channels_first"

/-- Convenience method for Convolutions (source lines 35-46).  Keras 1 and
Keras 2 spell the arguments differently but configure the same layer. -/
def Convolution (keras2 : Bool) (f : Nat) (k : Nat := 3) (s : Nat := 2)
    (border_mode : String := "same") : Layer :=
  if keras2 then .conv2D f k k border_mode s s
  else .conv2D f k k border_mode s s

/-- Convenience method for Transposed Convolutions (source lines 49-59).
Keras 2 ignores the output_shape argument; Keras 1 stores it. -/
def Deconvolution (keras2 : Bool) (ordering : String) (f : Nat)
    (output_shape : List Nat) (k : Nat := 2) (s : Nat := 2) : Layer :=
  if keras2 then .conv2DTranspose f k k s s (image_data_format ordering)
  else .deconv2D f k k output_shape s s

/-- Convenience method for BatchNormalization layers (source lines 62-67). -/
def BatchNorm (keras2 : Bool) (mode : Nat := 2) (axis : Nat := 1) : Layer :=
  if keras2 then .batchNorm none axis else .batchNorm (some mode) axis

/-- concatenate_layers (source lines 27-32); every call site passes
mode = concat, which is what the Keras 2 wrapper asserts. -/
def concatenate_layers (keras2 : Bool) (g : Graph) (inputs : List Nat)
    (concat_axis : Nat) (mode : String) : Nat × Graph :=
  if keras2 then applyL g (.concatL concat_axis) inputs
  else applyL g (.mergeL concat_axis mode) inputs

/-- padded_conv (source lines 108-113): num_padded_conv repetitions of a
stride-1 same-padding Convolution, BatchNorm and LeakyReLU block. -/
def padded_conv (keras2 : Bool) (num : Nat) (nf : Nat) (x : Nat) (g : Graph) :
    Nat × Graph :=
  match num with
  | 0 => (x, g)
  | m + 1 =>
    let a := applyL g (Convolution keras2 nf 3 1) [x]
    let b := applyL a.2 (BatchNorm keras2) [a.1]
    let c := applyL b.2 (.leakyReLU 0.2) [b.1]
    padded_conv keras2 m nf c.1 c.2

/-- The returned model: the finished graph together with the input node
index, the output node index, the model name and the diagnostic text the
builder prints for the selected dimension ordering. -/
structure UNet where
  graph : Graph
  input : Nat
  output : Nat
  name : String
  diag : String
  deriving Repr, DecidableEq

/-- Body of g_unet after the dimension-ordering dispatch (source lines
108-256).  input_shape, get_deconv_shape and concat_axis are fixed by the
branch taken on the ordering, exactly as in the source. -/
def g_unet_body (keras2 : Bool) (ordering : String) (input_shape : List Nat)
    (get_deconv_shape : Nat → Nat → Nat → Nat → List Nat) (concat_axis : Nat)
    (diag : String) (out_ch nf batch_size : Nat) (is_binary : Bool)
    (num_padded_conv : Nat) (name : String) : UNet :=
  let r0 := applyL [] (.inputL input_shape) []
  let i := r0.1
  -- in_ch x 512 x 512
  let a1 := applyL r0.2 (Convolution keras2 nf) [i]
  let b1 := applyL a1.2 (BatchNorm keras2) [a1.1]
  let c1 := applyL b1.2 (.leakyReLU 0.2) [b1.1]
  -- nf x 256 x 256
  let p1 := padded_conv keras2 num_padded_conv nf c1.1 c1.2
  let conv1 := p1.1
  let a2 := applyL p1.2 (Convolution keras2 (nf * 2)) [conv1]
  let b2 := applyL a2.2 (BatchNorm keras2) [a2.1]
  let c2 := applyL b2.2 (.leakyReLU 0.2) [b2.1]
  -- nf*2 x 128 x 128
  let p2 := padded_conv keras2 num_padded_conv (nf * 2) c2.1 c2.2
  let conv2 := p2.1
  let a3 := applyL p2.2 (Convolution keras2 (nf * 4)) [conv2]
  let b3 := applyL a3.2 (BatchNorm keras2) [a3.1]
  let c3 := applyL b3.2 (.leakyReLU 0.2) [b3.1]
  -- nf*4 x 64 x 64
  let p3 := padded_conv keras2 num_padded_conv (nf * 4) c3.1 c3.2
  let conv3 := p3.1
  let a4 := applyL p3.2 (Convolution keras2 (nf * 8)) [conv3]
  let b4 := applyL a4.2 (BatchNorm keras2) [a4.1]
  let c4 := applyL b4.2 (.leakyReLU 0.2) [b4.1]
  -- nf*8 x 32 x 32
  let p4 := padded_conv keras2 num_padded_conv (nf * 8) c4.1 c4.2
  let conv4 := p4.1
  let a5 := applyL p4.2 (Convolution keras2 (nf * 8)) [conv4]
  let b5 := applyL a5.2 (BatchNorm keras2) [a5.1]
  let c5 := applyL b5.2 (.leakyReLU 0.2) [b5.1]
  -- nf*8 x 16 x 16
  let p5 := padded_conv keras2 num_padded_conv (nf * 8) c5.1 c5.2
  let conv5 := p5.1
  let a6 := applyL p5.2 (Convolution keras2 (nf * 8)) [conv5]
  let b6 := applyL a6.2 (BatchNorm keras2) [a6.1]
  let c6 := applyL b6.2 (.leakyReLU 0.2) [b6.1]
  -- nf*8 x 8 x 8
  let p6 := padded_conv keras2 num_padded_conv (nf * 8) c6.1 c6.2
  let conv6 := p6.1
  let a7 := applyL p6.2 (Convolution keras2 (nf * 8)) [conv6]
  let b7 := applyL a7.2 (BatchNorm keras2) [a7.1]
  let c7 := applyL b7.2 (.leakyReLU 0.2) [b7.1]
  -- nf*8 x 4 x 4
  let p7 := padded_conv keras2 num_padded_conv (nf * 8) c7.1 c7.2
  let conv7 := p7.1
  let a8 := applyL p7.2 (Convolution keras2 (nf * 8)) [conv7]
  let b8 := applyL a8.2 (BatchNorm keras2) [a8.1]
  let c8 := applyL b8.2 (.leakyReLU 0.2) [b8.1]
  -- nf*8 x 2 x 2
  let p8 := padded_conv keras2 num_padded_conv (nf * 8) c8.1 c8.2
  let conv8 := p8.1
  let a9 := applyL p8.2 (Convolution keras2 (nf * 8) 2 1 "valid") [conv8]
  let b9 := applyL a9.2 (BatchNorm keras2) [a9.1]
  let x9 := applyL b9.2 (.leakyReLU 0.2) [b9.1]
  -- nf*8 x 1 x 1
  let d1 := applyL x9.2
    (Deconvolution keras2 ordering (nf * 8)
      (get_deconv_shape batch_size (nf * 8) 2 2) 2 1) [x9.1]
  let e1 := applyL d1.2 (BatchNorm keras2) [d1.1]
  let f1 := applyL e1.2 (.dropout 0.5) [e1.1]
  let m1 := concatenate_layers keras2 f1.2 [f1.1, conv8] concat_axis "concat"
  let g1 := applyL m1.2 (.leakyReLU 0.2) [m1.1]
  -- nf*(8 + 8) x 2 x 2
  let q1 := padded_conv keras2 num_padded_conv (nf * 8) g1.1 g1.2
  let d2 := applyL q1.2
    (Deconvolution keras2 ordering (nf * 8)
      (get_deconv_shape batch_size (nf * 8) 4 4)) [q1.1]
  let e2 := applyL d2.2 (BatchNorm keras2) [d2.1]
  let f2 := applyL e2.2 (.dropout 0.5) [e2.1]
  let m2 := concatenate_layers keras2 f2.2 [f2.1, conv7] concat_axis "concat"
  let g2 := applyL m2.2 (.leakyReLU 0.2) [m2.1]
  -- nf*(8 + 8) x 4 x 4
  let q2 := padded_conv keras2 num_padded_conv (nf * 8) g2.1 g2.2
  let d3 := applyL q2.2
    (Deconvolution keras2 ordering (nf * 8)
      (get_deconv_shape batch_size (nf * 8) 8 8)) [q2.1]
  let e3 := applyL d3.2 (BatchNorm keras2) [d3.1]
  let f3 := applyL e3.2 (.dropout 0.5) [e3.1]
  let m3 := concatenate_layers keras2 f3.2 [f3.1, conv6] concat_axis "concat"
  let g3 := applyL m3.2 (.leakyReLU 0.2) [m3.1]
  -- nf*(8 + 8) x 8 x 8
  let q3 := padded_conv keras2 num_padded_conv (nf * 8) g3.1 g3.2
  let d4 := applyL q3.2
    (Deconvolution keras2 ordering (nf * 8)
      (get_deconv_shape batch_size (nf * 8) 16 16)) [q3.1]
  let e4 := applyL d4.2 (BatchNorm keras2) [d4.1]
  let m4 := concatenate_layers keras2 e4.2 [e4.1, conv5] concat_axis "concat"
  let g4 := applyL m4.2 (.leakyReLU 0.2) [m4.1]
  -- nf*(8 + 8) x 16 x 16
  let q4 := padded_conv keras2 num_padded_conv (nf * 8) g4.1 g4.2
  let d5 := applyL q4.2
    (Deconvolution keras2 ordering (nf * 8)
      (get_deconv_shape batch_size (nf * 8) 32 32)) [q4.1]
  let e5 := applyL d5.2 (BatchNorm keras2) [d5.1]
  let m5 := concatenate_layers keras2 e5.2 [e5.1, conv4] concat_axis "concat"
  let g5 := applyL m5.2 (.leakyReLU 0.2) [m5.1]
  -- nf*(8 + 8) x 32 x 32
  let q5 := padded_conv keras2 num_padded_conv (nf * 8) g5.1 g5.2
  let d6 := applyL q5.2
    (Deconvolution keras2 ordering (nf * 4)
      (get_deconv_shape batch_size (nf * 4) 64 64)) [q5.1]
  let e6 := applyL d6.2 (BatchNorm keras2) [d6.1]
  let m6 := concatenate_layers keras2 e6.2 [e6.1, conv3] concat_axis "concat"
  let g6 := applyL m6.2 (.leakyReLU 0.2) [m6.1]
  -- nf*(4 + 4) x 64 x 64
  let q6 := padded_conv keras2 num_padded_conv (nf * 4) g6.1 g6.2
  let d7 := applyL q6.2
    (Deconvolution keras2 ordering (nf * 2)
      (get_deconv_shape batch_size (nf * 2) 128 128)) [q6.1]
  let e7 := applyL d7.2 (BatchNorm keras2) [d7.1]
  let m7 := concatenate_layers keras2 e7.2 [e7.1, conv2] concat_axis "concat"
  let g7 := applyL m7.2 (.leakyReLU 0.2) [m7.1]
  -- nf*(2 + 2) x 128 x 128
  let q7 := padded_conv keras2 num_padded_conv (nf * 2) g7.1 g7.2
  let d8 := applyL q7.2
    (Deconvolution keras2 ordering nf
      (get_deconv_shape batch_size nf 256 256)) [q7.1]
  let e8 := applyL d8.2 (BatchNorm keras2) [d8.1]
  let m8 := concatenate_layers keras2 e8.2 [e8.1, conv1] concat_axis "concat"
  let g8 := applyL m8.2 (.leakyReLU 0.2) [m8.1]
  -- nf*(1 + 1) x 256 x 256
  let q8 := padded_conv keras2 num_padded_conv nf g8.1 g8.2
  let d9 := applyL q8.2
    (Deconvolution keras2 ordering out_ch
      (get_deconv_shape batch_size out_ch 512 512)) [q8.1]
  -- out_ch x 512 x 512
  let act := if is_binary then "sigmoid" else "tanh"
  let o := applyL d9.2 (.activation act) [d9.1]
  ⟨o.2, i, o.1, name, diag⟩

/-- g_unet (source lines 70-256): dispatch on the image dimension ordering,
then build the graph.  An unsupported ordering raises before any layer is
constructed, which is the error branch here. -/
def g_unet (keras2 : Bool) (ordering : String) (in_ch out_ch nf : Nat)
    (batch_size : Nat := 1) (is_binary : Bool := false)
    (num_padded_conv : Nat := 0) (name : String := "unet") :
    Except String UNet :=
  if ordering = "th" then
    .ok (g_unet_body keras2 ordering [in_ch, 512, 512]
      (fun samples channels x_dim y_dim => [samples, channels, x_dim, y_dim])
      1 "TheanoShapedU-NET" out_ch nf batch_size is_binary num_padded_conv
      name)
  else if ordering = "tf" then
    .ok (g_unet_body keras2 ordering [512, 512, in_ch]
      (fun samples channels x_dim y_dim => [samples, x_dim, y_dim, channels])
      3 "TensorflowShapedU-NET" out_ch nf batch_size is_binary num_padded_conv
      name)
  else
    .error ("Keras dimension ordering not supported: " ++ ordering)

/-- The module sets the global Keras image dimension ordering to th at import
time (source line 24). -/
def module_image_dim_ordering : String := "th"

/-! ### Shape inference

Executable shape semantics of the layers, mirroring what Keras computes.
Shapes are full tensor shapes including the batch dimension; the batch entry
of the network input is supplied when the evaluator is run. -/

/-- Output spatial extent of a 2D convolution along one axis. -/
def convOutDim (d k s : Nat) (padding : String) : Option Nat :=
  if padding = "same" then some ((d + s - 1) / s)
  else if padding = "valid" then
    (if k ≤ d then some ((d - k) / s + 1) else none)
  else none

/-- Output shape of Convolution2D under the ambient dimension ordering. -/
def convShape (ord : String) (f k1 k2 : Nat) (pad : String) (s1 s2 : Nat)
    (sh : List Nat) : Option (List Nat) :=
  match sh with
  | [b, d1, d2, d3] =>
    if ord = "tf" then
      match convOutDim d1 k1 s1 pad, convOutDim d2 k2 s2 pad with
      | some h, some w => some [b, h, w, f]
      | _, _ => none
    else
      match convOutDim d2 k1 s1 pad, convOutDim d3 k2 s2 pad with
      | some h, some w => some [b, f, h, w]
      | _, _ => none
  | _ => none

/-- Output shape of Conv2DTranspose (valid padding, the Keras default used
here): each spatial extent d becomes (d - 1) * s + k. -/
def convTransposeShape (df : String) (f k1 k2 s1 s2 : Nat) (sh : List Nat) :
    Option (List Nat) :=
  match sh with
  | [b, d1, d2, d3] =>
    if df = "channels_last" then
      some [b, (d1 - 1) * s1 + k1, (d2 - 1) * s2 + k2, f]
    else
      some [b, f, (d2 - 1) * s1 + k1, (d3 - 1) * s2 + k2]
  | _ => none

/-- Componentwise agreement of two shapes away from the concatenation axis
(and agreement in length). -/
def eqExceptAt (axis : Nat) : Nat → List Nat → List Nat → Bool
  | _, [], [] => true
  | i, a :: as, b :: bs => (i == axis || a == b) && eqExceptAt axis (i + 1) as bs
  | _, _, _ => false

/-- Concatenation of two shapes along an axis: all other entries must agree
and the axis entries add. -/
def concat2 (axis : Nat) (a b : List Nat) : Option (List Nat) :=
  if axis < a.length ∧ eqExceptAt axis 0 a b = true then
    some (a.set axis (a.getD axis 0 + b.getD axis 0))
  else none

/-- Concatenation of a list of inferred shapes along an axis. -/
def concatShapeList (axis : Nat) (ins : List (Option (List Nat))) :
    Option (List Nat) :=
  match ins with
  | [] => none
  | none :: _ => none
  | some s :: rest =>
    rest.foldl
      (fun acc o =>
        match acc, o with
        | some a, some b => concat2 axis a b
        | _, _ => none)
      (some s)

/-- Inferred output shape of one layer, given the full shape fed to the
network input and the inferred shapes of the node inputs.  The Keras 1
Deconvolution2D reports the output_shape it was constructed with, with the
batch entry taken from its input. -/
def layerOutShape (ord : String) (inp : List Nat) (l : Layer)
    (ins : List (Option (List Nat))) : Option (List Nat) :=
  match l, ins with
  | .inputL decl, [] =>
    match inp with
    | [] => none
    | b :: rest => if rest = decl then some (b :: rest) else none
  | .conv2D f k1 k2 pad s1 s2, [some sh] => convShape ord f k1 k2 pad s1 s2 sh
  | .conv2DTranspose f k1 k2 s1 s2 df, [some sh] =>
    convTransposeShape df f k1 k2 s1 s2 sh
  | .deconv2D _ _ _ os _ _, [some sh] =>
    match sh with
    | [b, _, _, _] => some (b :: os.drop 1)
    | _ => none
  | .batchNorm _ axis, [some sh] => if axis < sh.length then some sh else none
  | .leakyReLU _, [some sh] => some sh
  | .dropout _, [some sh] => some sh
  | .activation _, [some sh] => some sh
  | .concatL axis, ins' => concatShapeList axis ins'
  | .mergeL axis mode, ins' =>
    if mode = "concat" then concatShapeList axis ins' else none
  | _, _ => none

/-- One evaluation step: append the inferred shape of the next node. -/
def stepAcc (ord : String) (inp : List Nat)
    (acc : List (Option (List Nat))) (nd : BuiltNode) :
    List (Option (List Nat)) :=
  acc ++ [layerOutShape ord inp nd.layer (nd.inputs.map fun j => acc.getD j none)]

/-- Fold the evaluator over a node list starting from given shapes. -/
def foldAcc (ord : String) (inp : List Nat)
    (acc : List (Option (List Nat))) (nodes : List BuiltNode) :
    List (Option (List Nat)) :=
  nodes.foldl (stepAcc ord inp) acc

/-- Inferred shapes of every node of a graph, for a network input of full
shape inp (batch included). -/
def evalShapes (ord : String) (inp : List Nat) (nodes : List BuiltNode) :
    List (Option (List Nat)) :=
  foldAcc ord inp [] nodes

/-- Full 4-entry tensor shape under an ordering: channels sit at axis 1 for
th and at axis 3 for tf. -/
def sh4 (ord : String) (b c h w : Nat) : List Nat :=
  if ord = "tf" then [b, h, w, c] else [b, c, h, w]

/-- The shape tuple passed to Input for a given ordering (batch excluded). -/
def inDecl (ord : String) (c : Nat) : List Nat :=
  if ord = "tf" then [512, 512, c] else [c, 512, 512]

/-! ### Closed form of the built graph

The builder is straight-line code; the node list it produces decomposes into
one segment per stage.  The segment definitions below give that closed form,
proved equal to the builder output further down.  Each segment is
parameterized by x, the index of the node feeding it (the node list built so
far has length x + 1 when the segment starts). -/

/-- The channel axis used for the skip concatenations under an ordering. -/
def caxOf (ord : String) : Nat := if ord = "tf" then 3 else 1

/-- The node the concatenation call adds (Concatenate under Keras 2, merge
under Keras 1). -/
def concatNode (keras2 : Bool) (axis : Nat) (ins : List Nat) : BuiltNode :=
  match keras2 with
  | true => ⟨.concatL axis, ins⟩
  | false => ⟨.mergeL axis "concat", ins⟩

/-- Nodes appended by padded_conv when the graph has length base and the
running tensor is node x. -/
def pcSeg (keras2 : Bool) (num nf x base : Nat) : List BuiltNode :=
  match num with
  | 0 => []
  | m + 1 =>
    ⟨Convolution keras2 nf 3 1, [x]⟩ :: ⟨BatchNorm keras2, [base]⟩ ::
    ⟨Layer.leakyReLU 0.2, [base + 1]⟩ :: pcSeg keras2 m nf (base + 2) (base + 3)

/-- An encoder stage fed by node x: strided (or valid, for the bottleneck)
convolution, batch norm, leaky ReLU, then npc refinement blocks. -/
def encSeg (keras2 : Bool) (npc f k s : Nat) (pad : String) (x : Nat) :
    List BuiltNode :=
  ⟨Convolution keras2 f k s pad, [x]⟩ :: ⟨BatchNorm keras2, [x + 1]⟩ ::
  ⟨Layer.leakyReLU 0.2, [x + 2]⟩ :: pcSeg keras2 npc f (x + 3) (x + 4)

/-- A decoder stage with dropout (the first three), fed by node x: transposed
convolution, batch norm, dropout, skip concatenation, leaky ReLU, refinement
blocks. -/
def decSegA (keras2 : Bool) (ord : String) (npc f : Nat) (os : List Nat)
    (k s cax skip x : Nat) : List BuiltNode :=
  ⟨Deconvolution keras2 ord f os k s, [x]⟩ :: ⟨BatchNorm keras2, [x + 1]⟩ ::
  ⟨Layer.dropout 0.5, [x + 2]⟩ :: concatNode keras2 cax [x + 3, skip] ::
  ⟨Layer.leakyReLU 0.2, [x + 4]⟩ :: pcSeg keras2 npc f (x + 5) (x + 6)

/-- A decoder stage without dropout (stages four to eight), fed by node x. -/
def decSegB (keras2 : Bool) (ord : String) (npc f : Nat) (os : List Nat)
    (k s cax skip x : Nat) : List BuiltNode :=
  ⟨Deconvolution keras2 ord f os k s, [x]⟩ :: ⟨BatchNorm keras2, [x + 1]⟩ ::
  concatNode keras2 cax [x + 2, skip] :: ⟨Layer.leakyReLU 0.2, [x + 3]⟩ ::
  pcSeg keras2 npc f (x + 4) (x + 5)

/-- The final stage, fed by node x: transposed convolution to out_ch
channels followed by the output activation. -/
def finSeg (keras2 : Bool) (ord : String) (out_ch : Nat) (os : List Nat)
    (act : String) (x : Nat) : List BuiltNode :=
  [⟨Deconvolution keras2 ord out_ch os 2 2, [x]⟩,
   ⟨Layer.activation act, [x + 1]⟩]

/-- The 19 segments of the graph built by g_unet: the input node, nine
encoder stages, eight decoder stages, and the ninth decoder stage together
with the final activation.  decl is the shape handed to Input by the branch
taken on the ordering. -/
def unetSegments (keras2 : Bool) (ord : String) (decl : List Nat)
    (out_ch nf bs : Nat) (ib : Bool) (n : Nat) : List (List BuiltNode) :=
  [[⟨Layer.inputL decl, []⟩],
   encSeg keras2 n nf 3 2 "same" 0,
   encSeg keras2 n (nf * 2) 3 2 "same" (3 + 3 * n),
   encSeg keras2 n (nf * 4) 3 2 "same" (6 + 6 * n),
   encSeg keras2 n (nf * 8) 3 2 "same" (9 + 9 * n),
   encSeg keras2 n (nf * 8) 3 2 "same" (12 + 12 * n),
   encSeg keras2 n (nf * 8) 3 2 "same" (15 + 15 * n),
   encSeg keras2 n (nf * 8) 3 2 "same" (18 + 18 * n),
   encSeg keras2 n (nf * 8) 3 2 "same" (21 + 21 * n),
   encSeg keras2 0 (nf * 8) 2 1 "valid" (24 + 24 * n),
   decSegA keras2 ord n (nf * 8) (sh4 ord bs (nf * 8) 2 2) 2 1 (caxOf ord)
     (24 + 24 * n) (27 + 24 * n),
   decSegA keras2 ord n (nf * 8) (sh4 ord bs (nf * 8) 4 4) 2 2 (caxOf ord)
     (21 + 21 * n) (32 + 27 * n),
   decSegA keras2 ord n (nf * 8) (sh4 ord bs (nf * 8) 8 8) 2 2 (caxOf ord)
     (18 + 18 * n) (37 + 30 * n),
   decSegB keras2 ord n (nf * 8) (sh4 ord bs (nf * 8) 16 16) 2 2 (caxOf ord)
     (15 + 15 * n) (42 + 33 * n),
   decSegB keras2 ord n (nf * 8) (sh4 ord bs (nf * 8) 32 32) 2 2 (caxOf ord)
     (12 + 12 * n) (46 + 36 * n),
   decSegB keras2 ord n (nf * 4) (sh4 ord bs (nf * 4) 64 64) 2 2 (caxOf ord)
     (9 + 9 * n) (50 + 39 * n),
   decSegB keras2 ord n (nf * 2) (sh4 ord bs (nf * 2) 128 128) 2 2 (caxOf ord)
     (6 + 6 * n) (54 + 42 * n),
   decSegB keras2 ord n nf (sh4 ord bs nf 256 256) 2 2 (caxOf ord)
     (3 + 3 * n) (58 + 45 * n),
   finSeg keras2 ord out_ch (sh4 ord bs out_ch 512 512)
     (if ib then "sigmoid" else "tanh") (62 + 48 * n)]

/-- The closed-form node list of the graph built by g_unet. -/
def unetNodes (keras2 : Bool) (ord : String) (decl : List Nat)
    (out_ch nf bs : Nat) (ib : Bool) (n : Nat) : List BuiltNode :=
  (unetSegments keras2 ord decl out_ch nf bs ib n).flatten

theorem pcSeg_zero (k2 : Bool) (nf x base : Nat) :
    pcSeg k2 0 nf x base = [] := rfl

theorem pcSeg_length (k2 : Bool) (num nf x base : Nat) :
    (pcSeg k2 num nf x base).length = 3 * num := by
  induction num generalizing x base with
  | zero => rfl
  | succ m ih => simp only [pcSeg, List.length_cons, ih]; omega

/-- Closed form of padded_conv in the shape it occurs in the builder: the
running tensor is the last node of the graph built so far. -/
theorem padded_conv_applyL (k2 : Bool) (num nf : Nat) :
    ∀ (G : Graph) (nd : BuiltNode),
      padded_conv k2 num nf G.length (G ++ [nd]) =
        (G.length + 3 * num,
          (G ++ [nd]) ++ pcSeg k2 num nf G.length (G.length + 1)) := by
  induction num with
  | zero => intro G nd; simp [padded_conv, pcSeg]
  | succ m ih =>
    intro G nd
    simp only [padded_conv, applyL, List.length_append, List.length_cons,
      List.length_nil, Nat.add_zero, Nat.zero_add]
    rw [show List.length G + 1 + 1 + 1 =
        (G ++ [nd] ++ [(⟨Convolution k2 nf 3 1, [G.length]⟩ : BuiltNode)] ++
          [(⟨BatchNorm k2, [G.length + 1]⟩ : BuiltNode)]).length by simp]
    rw [ih]
    simp only [pcSeg, Prod.mk.injEq, List.append_assoc, List.cons_append,
      List.singleton_append, List.nil_append, List.length_append,
      List.length_cons, List.length_nil]
    constructor
    · omega
    · simp_arith

theorem concatenate_layers_eq (k2 : Bool) (g : Graph) (ins : List Nat)
    (cax : Nat) :
    concatenate_layers k2 g ins cax "concat" =
      (g.length, g ++ [concatNode k2 cax ins]) := by
  cases k2 <;> simp [concatenate_layers, applyL, concatNode]

set_option maxRecDepth 8000 in
/-- The builder produces exactly the closed-form node list, with input node
0 and output node 64 + 48 * num_padded_conv. -/
theorem g_unet_body_eq (k2 : Bool) (ord : String) (decl : List Nat)
    (gds : Nat → Nat → Nat → Nat → List Nat) (cax : Nat) (diag : String)
    (out_ch nf bs : Nat) (ib : Bool) (n : Nat) (nm : String)
    (hgds : ∀ s c x y, gds s c x y = sh4 ord s c x y)
    (hcax : cax = caxOf ord) :
    g_unet_body k2 ord decl gds cax diag out_ch nf bs ib n nm =
      ⟨unetNodes k2 ord decl out_ch nf bs ib n, 0, 64 + 48 * n, nm, diag⟩ := by
  subst hcax
  simp only [g_unet_body, applyL, concatenate_layers_eq, padded_conv_applyL,
    hgds]
  simp only [UNet.mk.injEq, and_true, true_and]
  refine ⟨?_, ?_⟩
  · simp only [List.length_append, List.length_cons, List.length_nil,
      pcSeg_length, Nat.add_zero, Nat.zero_add]
    simp only [unetNodes, unetSegments, encSeg, decSegA, decSegB, finSeg,
      List.flatten_cons, List.flatten_nil, pcSeg_zero]
    simp only [List.append_assoc, List.cons_append, List.singleton_append,
      List.nil_append, List.append_nil]
    ring_nf
  · simp only [List.length_append, List.length_cons, List.length_nil,
      pcSeg_length, Nat.add_zero, Nat.zero_add]
    exact ⟨trivial, by omega⟩

/-- Closed form of g_unet under the th ordering. -/
theorem g_unet_th_eq (k2 : Bool) (in_ch out_ch nf bs : Nat) (ib : Bool)
    (n : Nat) (nm : String) :
    g_unet k2 "th" in_ch out_ch nf bs ib n nm =
      .ok ⟨unetNodes k2 "th" [in_ch, 512, 512] out_ch nf bs ib n, 0,
        64 + 48 * n, nm, "TheanoShapedU-NET"⟩ := by
  unfold g_unet
  rw [if_pos rfl]
  exact congrArg Except.ok
    (g_unet_body_eq k2 "th" [in_ch, 512, 512] _ 1 "TheanoShapedU-NET"
      out_ch nf bs ib n nm (by intro s c x y; simp [sh4]) (by simp [caxOf]))

/-- Closed form of g_unet under the tf ordering. -/
theorem g_unet_tf_eq (k2 : Bool) (in_ch out_ch nf bs : Nat) (ib : Bool)
    (n : Nat) (nm : String) :
    g_unet k2 "tf" in_ch out_ch nf bs ib n nm =
      .ok ⟨unetNodes k2 "tf" [512, 512, in_ch] out_ch nf bs ib n, 0,
        64 + 48 * n, nm, "TensorflowShapedU-NET"⟩ := by
  unfold g_unet
  rw [if_neg (by decide), if_pos rfl]
  exact congrArg Except.ok
    (g_unet_body_eq k2 "tf" [512, 512, in_ch] _ 3 "TensorflowShapedU-NET"
      out_ch nf bs ib n nm (by intro s c x y; simp [sh4]) (by simp [caxOf]))

/-! ### Evaluation lemmas -/

theorem foldAcc_cons (ord : String) (inp : List Nat) (acc : List (Option (List Nat)))
    (nd : BuiltNode) (l : List BuiltNode) :
    foldAcc ord inp acc (nd :: l) = foldAcc ord inp (stepAcc ord inp acc nd) l := rfl

theorem foldAcc_append (ord : String) (inp : List Nat) (acc : List (Option (List Nat)))
    (l m : List BuiltNode) :
    foldAcc ord inp acc (l ++ m) = foldAcc ord inp (foldAcc ord inp acc l) m := by
  simp [foldAcc, List.foldl_append]

theorem sh4_length (ord : String) (b c h w : Nat) : (sh4 ord b c h w).length = 4 := by
  unfold sh4; split <;> rfl

theorem convOutDim_same_one (d k : Nat) : convOutDim d k 1 "same" = some d := by
  simp [convOutDim]

theorem getD_snoc {α : Type} (l : List α) (v d : α) :
    (l ++ [v]).getD l.length d = v := by
  rw [List.getD_append_right _ _ _ _ (le_refl _)]
  simp

theorem getD_snoc_ne {α : Type} (l : List α) (v d : α) (i : Nat)
    (h : i < l.length) : (l ++ [v]).getD i d = l.getD i d :=
  List.getD_append _ _ _ _ h

theorem stepAcc_inputL (ord : String) (hord : ord = "th" ∨ ord = "tf")
    (b c : Nat) (acc : List (Option (List Nat))) :
    stepAcc ord (sh4 ord b c 512 512) acc ⟨Layer.inputL (inDecl ord c), []⟩ =
      acc ++ [some (sh4 ord b c 512 512)] := by
  rcases hord with h | h <;> subst h <;>
    simp [stepAcc, layerOutShape, sh4, inDecl]

theorem stepAcc_conv (ord : String) (hord : ord = "th" ∨ ord = "tf")
    (inp : List Nat) (k2 : Bool) (acc : List (Option (List Nat)))
    (x b c h w f k s h2 w2 : Nat) (pad : String)
    (hx : acc.getD x none = some (sh4 ord b c h w))
    (hh : convOutDim h k s pad = some h2)
    (hw : convOutDim w k s pad = some w2) :
    stepAcc ord inp acc ⟨Convolution k2 f k s pad, [x]⟩ =
      acc ++ [some (sh4 ord b f h2 w2)] := by
  unfold stepAcc
  simp only [List.map_cons, List.map_nil]
  rw [hx]
  rcases hord with hor | hor <;> subst hor <;> cases k2 <;>
    simp [layerOutShape, Convolution, convShape, sh4, hh, hw]

theorem stepAcc_bn (ord : String) (inp : List Nat) (k2 : Bool)
    (acc : List (Option (List Nat))) (x : Nat) (sh : List Nat)
    (hx : acc.getD x none = some sh) (hlen : 1 < sh.length) :
    stepAcc ord inp acc ⟨BatchNorm k2, [x]⟩ = acc ++ [some sh] := by
  unfold stepAcc
  simp only [List.map_cons, List.map_nil]
  rw [hx]
  cases k2 <;> simp [layerOutShape, BatchNorm, hlen]

theorem stepAcc_lrelu (ord : String) (inp : List Nat) (a : ℚ)
    (acc : List (Option (List Nat))) (x : Nat) (sh : List Nat)
    (hx : acc.getD x none = some sh) :
    stepAcc ord inp acc ⟨Layer.leakyReLU a, [x]⟩ = acc ++ [some sh] := by
  unfold stepAcc
  simp only [List.map_cons, List.map_nil]
  rw [hx]
  simp [layerOutShape]

theorem stepAcc_dropout (ord : String) (inp : List Nat) (r : ℚ)
    (acc : List (Option (List Nat))) (x : Nat) (sh : List Nat)
    (hx : acc.getD x none = some sh) :
    stepAcc ord inp acc ⟨Layer.dropout r, [x]⟩ = acc ++ [some sh] := by
  unfold stepAcc
  simp only [List.map_cons, List.map_nil]
  rw [hx]
  simp [layerOutShape]

theorem stepAcc_act (ord : String) (inp : List Nat) (s : String)
    (acc : List (Option (List Nat))) (x : Nat) (sh : List Nat)
    (hx : acc.getD x none = some sh) :
    stepAcc ord inp acc ⟨Layer.activation s, [x]⟩ = acc ++ [some sh] := by
  unfold stepAcc
  simp only [List.map_cons, List.map_nil]
  rw [hx]
  simp [layerOutShape]

theorem stepAcc_deconv (ord : String) (hord : ord = "th" ∨ ord = "tf")
    (inp : List Nat) (k2 : Bool) (acc : List (Option (List Nat)))
    (x b c h w f k s bs X Y : Nat)
    (hx : acc.getD x none = some (sh4 ord b c h w))
    (hX : (h - 1) * s + k = X) (hY : (w - 1) * s + k = Y) :
    stepAcc ord inp acc ⟨Deconvolution k2 ord f (sh4 ord bs f X Y) k s, [x]⟩ =
      acc ++ [some (sh4 ord b f X Y)] := by
  subst hX; subst hY
  unfold stepAcc
  simp only [List.map_cons, List.map_nil]
  rw [hx]
  rcases hord with hor | hor <;> subst hor <;> cases k2 <;>
    simp [layerOutShape, Deconvolution, image_data_format,
      convTransposeShape, sh4]

theorem stepAcc_concat (ord : String) (hord : ord = "th" ∨ ord = "tf")
    (inp : List Nat) (k2 : Bool) (acc : List (Option (List Nat)))
    (x1 x2 b c1 c2 h w : Nat)
    (h1 : acc.getD x1 none = some (sh4 ord b c1 h w))
    (h2 : acc.getD x2 none = some (sh4 ord b c2 h w)) :
    stepAcc ord inp acc (concatNode k2 (caxOf ord) [x1, x2]) =
      acc ++ [some (sh4 ord b (c1 + c2) h w)] := by
  rcases hord with hor | hor <;> subst hor <;> cases k2 <;>
    · unfold stepAcc
      simp only [concatNode, List.map_cons, List.map_nil]
      rw [h1, h2]
      simp [layerOutShape, caxOf, concatShapeList, concat2, eqExceptAt, sh4]

/-- Evaluating the nodes a padded_conv call appends: each refinement block
keeps the spatial extent and sets the channel count to f. -/
theorem pcSeg_eval (ord : String) (hord : ord = "th" ∨ ord = "tf")
    (inp : List Nat) (k2 : Bool) (num f : Nat) :
    ∀ (acc : List (Option (List Nat))) (x b c h w : Nat),
      acc.getD x none = some (sh4 ord b c h w) →
      foldAcc ord inp acc (pcSeg k2 num f x acc.length) =
        acc ++ List.replicate (3 * num) (some (sh4 ord b f h w)) := by
  induction num with
  | zero => intro acc x b c h w hx; simp [pcSeg, foldAcc]
  | succ m ih =>
    intro acc x b c h w hx
    have e1 : stepAcc ord inp acc ⟨Convolution k2 f 3 1, [x]⟩ =
        acc ++ [some (sh4 ord b f h w)] :=
      stepAcc_conv ord hord inp k2 acc x b c h w f 3 1 h w "same" hx
        (convOutDim_same_one h 3) (convOutDim_same_one w 3)
    have h1 : (acc ++ [some (sh4 ord b f h w)]).getD acc.length none =
        some (sh4 ord b f h w) := getD_snoc _ _ _
    have e2 : stepAcc ord inp (acc ++ [some (sh4 ord b f h w)])
        ⟨BatchNorm k2, [acc.length]⟩ =
        acc ++ [some (sh4 ord b f h w)] ++ [some (sh4 ord b f h w)] :=
      stepAcc_bn ord inp k2 _ acc.length _ h1 (by rw [sh4_length]; omega)
    have h2 : (acc ++ [some (sh4 ord b f h w)] ++ [some (sh4 ord b f h w)]).getD
        (acc.length + 1) none = some (sh4 ord b f h w) := by
      have hl : (acc ++ [some (sh4 ord b f h w)]).length = acc.length + 1 := by
        simp
      rw [← hl]
      exact getD_snoc _ _ _
    have e3 : stepAcc ord inp
        (acc ++ [some (sh4 ord b f h w)] ++ [some (sh4 ord b f h w)])
        ⟨Layer.leakyReLU 0.2, [acc.length + 1]⟩ =
        acc ++ [some (sh4 ord b f h w)] ++ [some (sh4 ord b f h w)] ++
          [some (sh4 ord b f h w)] :=
      stepAcc_lrelu ord inp _ _ _ _ h2
    have h3 : (acc ++ [some (sh4 ord b f h w)] ++ [some (sh4 ord b f h w)] ++
        [some (sh4 ord b f h w)]).getD (acc.length + 2) none =
        some (sh4 ord b f h w) := by
      have hl : (acc ++ [some (sh4 ord b f h w)] ++
          [some (sh4 ord b f h w)]).length = acc.length + 2 := by simp
      rw [← hl]
      exact getD_snoc _ _ _
    have hlen3 : (acc ++ [some (sh4 ord b f h w)] ++ [some (sh4 ord b f h w)] ++
        [some (sh4 ord b f h w)]).length = acc.length + 3 := by simp
    rw [pcSeg, foldAcc_cons, e1, foldAcc_cons, e2, foldAcc_cons, e3]
    rw [show pcSeg k2 m f (acc.length + 2) (acc.length + 3) =
      pcSeg k2 m f (acc.length + 2)
        ((acc ++ [some (sh4 ord b f h w)] ++ [some (sh4 ord b f h w)] ++
          [some (sh4 ord b f h w)]).length) from by rw [hlen3]]
    rw [ih _ (acc.length + 2) b f h w h3]
    rw [show 3 * (m + 1) = 3 + 3 * m from by omega, List.replicate_add]
    simp [List.replicate_succ]

theorem getD_replicate {α : Type} (v d : α) (n i : Nat) (h : i < n) :
    (List.replicate n v).getD i d = v := by
  rw [List.getD_eq_getElem _ _ (by simpa using h)]
  simp

/-- Evaluating an encoder stage: the strided convolution fixes the channel
count to f and the spatial extents to the convolution output extents; batch
norm, leaky ReLU and the refinement blocks keep that shape. -/
theorem encSeg_eval (ord : String) (hord : ord = "th" ∨ ord = "tf")
    (inp : List Nat) (k2 : Bool) (npc f k s : Nat) (pad : String)
    (acc : List (Option (List Nat))) (x b c h w h2 w2 : Nat)
    (hlen : acc.length = x + 1)
    (hx : acc.getD x none = some (sh4 ord b c h w))
    (hh : convOutDim h k s pad = some h2)
    (hw : convOutDim w k s pad = some w2) :
    foldAcc ord inp acc (encSeg k2 npc f k s pad x) =
      acc ++ [some (sh4 ord b f h2 w2), some (sh4 ord b f h2 w2),
        some (sh4 ord b f h2 w2)] ++
        List.replicate (3 * npc) (some (sh4 ord b f h2 w2)) := by
  have q1 : (acc ++ [some (sh4 ord b f h2 w2)]).getD (x + 1) none =
      some (sh4 ord b f h2 w2) := by
    rw [← hlen]; exact getD_snoc _ _ _
  have q2 : (acc ++ [some (sh4 ord b f h2 w2)] ++
      [some (sh4 ord b f h2 w2)]).getD (x + 2) none =
      some (sh4 ord b f h2 w2) := by
    have hl : (acc ++ [some (sh4 ord b f h2 w2)]).length = x + 2 := by
      simp [hlen]
    rw [← hl]; exact getD_snoc _ _ _
  have q3 : (acc ++ [some (sh4 ord b f h2 w2)] ++ [some (sh4 ord b f h2 w2)] ++
      [some (sh4 ord b f h2 w2)]).getD (x + 3) none =
      some (sh4 ord b f h2 w2) := by
    have hl : (acc ++ [some (sh4 ord b f h2 w2)] ++
        [some (sh4 ord b f h2 w2)]).length = x + 3 := by simp [hlen]
    rw [← hl]; exact getD_snoc _ _ _
  have hl3 : (acc ++ [some (sh4 ord b f h2 w2)] ++ [some (sh4 ord b f h2 w2)] ++
      [some (sh4 ord b f h2 w2)]).length = x + 4 := by simp [hlen]
  rw [encSeg, foldAcc_cons,
    stepAcc_conv ord hord inp k2 acc x b c h w f k s h2 w2 pad hx hh hw,
    foldAcc_cons, stepAcc_bn ord inp k2 _ (x + 1) _ q1 (by rw [sh4_length]; omega),
    foldAcc_cons, stepAcc_lrelu ord inp _ _ _ _ q2]
  rw [show pcSeg k2 npc f (x + 3) (x + 4) = pcSeg k2 npc f (x + 3)
    ((acc ++ [some (sh4 ord b f h2 w2)] ++ [some (sh4 ord b f h2 w2)] ++
      [some (sh4 ord b f h2 w2)]).length) from by rw [hl3]]
  rw [pcSeg_eval ord hord inp k2 npc f _ (x + 3) b f h2 w2 q3]
  simp [List.append_assoc]

/-- Evaluating a decoder stage with dropout: the transposed convolution sets
channels to f and spatial extents to X and Y; the skip concatenation then
adds the skip channels c2, and the refinement blocks (when present) set the
channel count back to f. -/
theorem decSegA_eval (ord : String) (hord : ord = "th" ∨ ord = "tf")
    (inp : List Nat) (k2 : Bool) (npc f k s : Nat)
    (acc : List (Option (List Nat))) (x skip b c c2 h w X Y bs : Nat)
    (hlen : acc.length = x + 1)
    (hx : acc.getD x none = some (sh4 ord b c h w))
    (hsk : skip < x + 1)
    (hskip : acc.getD skip none = some (sh4 ord b c2 X Y))
    (hX : (h - 1) * s + k = X) (hY : (w - 1) * s + k = Y) :
    foldAcc ord inp acc
      (decSegA k2 ord npc f (sh4 ord bs f X Y) k s (caxOf ord) skip x) =
      acc ++ [some (sh4 ord b f X Y), some (sh4 ord b f X Y),
        some (sh4 ord b f X Y), some (sh4 ord b (f + c2) X Y),
        some (sh4 ord b (f + c2) X Y)] ++
        List.replicate (3 * npc) (some (sh4 ord b f X Y)) := by
  have h1 : (acc ++ [some (sh4 ord b f X Y)]).getD (x + 1) none =
      some (sh4 ord b f X Y) := by
    rw [← hlen]; exact getD_snoc _ _ _
  have h2 : (acc ++ [some (sh4 ord b f X Y)] ++
      [some (sh4 ord b f X Y)]).getD (x + 2) none = some (sh4 ord b f X Y) := by
    have hl : (acc ++ [some (sh4 ord b f X Y)]).length = x + 2 := by simp [hlen]
    rw [← hl]; exact getD_snoc _ _ _
  have h3 : (acc ++ [some (sh4 ord b f X Y)] ++ [some (sh4 ord b f X Y)] ++
      [some (sh4 ord b f X Y)]).getD (x + 3) none = some (sh4 ord b f X Y) := by
    have hl : (acc ++ [some (sh4 ord b f X Y)] ++
        [some (sh4 ord b f X Y)]).length = x + 3 := by simp [hlen]
    rw [← hl]; exact getD_snoc _ _ _
  have hskip3 : (acc ++ [some (sh4 ord b f X Y)] ++ [some (sh4 ord b f X Y)] ++
      [some (sh4 ord b f X Y)]).getD skip none = some (sh4 ord b c2 X Y) := by
    rw [getD_snoc_ne _ _ _ _ (by simp [hlen]; omega),
      getD_snoc_ne _ _ _ _ (by simp [hlen]; omega),
      getD_snoc_ne _ _ _ _ (by omega)]
    exact hskip
  have h4 : (acc ++ [some (sh4 ord b f X Y)] ++ [some (sh4 ord b f X Y)] ++
      [some (sh4 ord b f X Y)] ++ [some (sh4 ord b (f + c2) X Y)]).getD
      (x + 4) none = some (sh4 ord b (f + c2) X Y) := by
    have hl : (acc ++ [some (sh4 ord b f X Y)] ++ [some (sh4 ord b f X Y)] ++
        [some (sh4 ord b f X Y)]).length = x + 4 := by simp [hlen]
    rw [← hl]; exact getD_snoc _ _ _
  have h5 : (acc ++ [some (sh4 ord b f X Y)] ++ [some (sh4 ord b f X Y)] ++
      [some (sh4 ord b f X Y)] ++ [some (sh4 ord b (f + c2) X Y)] ++
      [some (sh4 ord b (f + c2) X Y)]).getD (x + 5) none =
      some (sh4 ord b (f + c2) X Y) := by
    have hl : (acc ++ [some (sh4 ord b f X Y)] ++ [some (sh4 ord b f X Y)] ++
        [some (sh4 ord b f X Y)] ++ [some (sh4 ord b (f + c2) X Y)]).length =
        x + 5 := by simp [hlen]
    rw [← hl]; exact getD_snoc _ _ _
  have hl5 : (acc ++ [some (sh4 ord b f X Y)] ++ [some (sh4 ord b f X Y)] ++
      [some (sh4 ord b f X Y)] ++ [some (sh4 ord b (f + c2) X Y)] ++
      [some (sh4 ord b (f + c2) X Y)]).length = x + 6 := by simp [hlen]
  rw [decSegA, foldAcc_cons,
    stepAcc_deconv ord hord inp k2 acc x b c h w f k s bs X Y hx hX hY,
    foldAcc_cons, stepAcc_bn ord inp k2 _ (x + 1) _ h1 (by rw [sh4_length]; omega),
    foldAcc_cons, stepAcc_dropout ord inp _ _ _ _ h2,
    foldAcc_cons, stepAcc_concat ord hord inp k2 _ (x + 3) skip b f c2 X Y h3 hskip3,
    foldAcc_cons, stepAcc_lrelu ord inp _ _ _ _ h4]
  rw [show pcSeg k2 npc f (x + 5) (x + 6) = pcSeg k2 npc f (x + 5)
    ((acc ++ [some (sh4 ord b f X Y)] ++ [some (sh4 ord b f X Y)] ++
      [some (sh4 ord b f X Y)] ++ [some (sh4 ord b (f + c2) X Y)] ++
      [some (sh4 ord b (f + c2) X Y)]).length) from by rw [hl5]]
  rw [pcSeg_eval ord hord inp k2 npc f _ (x + 5) b (f + c2) X Y h5]
  simp [List.append_assoc]

/-- Evaluating a decoder stage without dropout. -/
theorem decSegB_eval (ord : String) (hord : ord = "th" ∨ ord = "tf")
    (inp : List Nat) (k2 : Bool) (npc f k s : Nat)
    (acc : List (Option (List Nat))) (x skip b c c2 h w X Y bs : Nat)
    (hlen : acc.length = x + 1)
    (hx : acc.getD x none = some (sh4 ord b c h w))
    (hsk : skip < x + 1)
    (hskip : acc.getD skip none = some (sh4 ord b c2 X Y))
    (hX : (h - 1) * s + k = X) (hY : (w - 1) * s + k = Y) :
    foldAcc ord inp acc
      (decSegB k2 ord npc f (sh4 ord bs f X Y) k s (caxOf ord) skip x) =
      acc ++ [some (sh4 ord b f X Y), some (sh4 ord b f X Y),
        some (sh4 ord b (f + c2) X Y), some (sh4 ord b (f + c2) X Y)] ++
        List.replicate (3 * npc) (some (sh4 ord b f X Y)) := by
  have h1 : (acc ++ [some (sh4 ord b f X Y)]).getD (x + 1) none =
      some (sh4 ord b f X Y) := by
    rw [← hlen]; exact getD_snoc _ _ _
  have h2 : (acc ++ [some (sh4 ord b f X Y)] ++
      [some (sh4 ord b f X Y)]).getD (x + 2) none = some (sh4 ord b f X Y) := by
    have hl : (acc ++ [some (sh4 ord b f X Y)]).length = x + 2 := by simp [hlen]
    rw [← hl]; exact getD_snoc _ _ _
  have hskip2 : (acc ++ [some (sh4 ord b f X Y)] ++
      [some (sh4 ord b f X Y)]).getD skip none = some (sh4 ord b c2 X Y) := by
    rw [getD_snoc_ne _ _ _ _ (by simp [hlen]; omega),
      getD_snoc_ne _ _ _ _ (by omega)]
    exact hskip
  have h3 : (acc ++ [some (sh4 ord b f X Y)] ++ [some (sh4 ord b f X Y)] ++
      [some (sh4 ord b (f + c2) X Y)]).getD (x + 3) none =
      some (sh4 ord b (f + c2) X Y) := by
    have hl : (acc ++ [some (sh4 ord b f X Y)] ++
        [some (sh4 ord b f X Y)]).length = x + 3 := by simp [hlen]
    rw [← hl]; exact getD_snoc _ _ _
  have h4 : (acc ++ [some (sh4 ord b f X Y)] ++ [some (sh4 ord b f X Y)] ++
      [some (sh4 ord b (f + c2) X Y)] ++
      [some (sh4 ord b (f + c2) X Y)]).getD (x + 4) none =
      some (sh4 ord b (f + c2) X Y) := by
    have hl : (acc ++ [some (sh4 ord b f X Y)] ++ [some (sh4 ord b f X Y)] ++
        [some (sh4 ord b (f + c2) X Y)]).length = x + 4 := by simp [hlen]
    rw [← hl]; exact getD_snoc _ _ _
  have hl4 : (acc ++ [some (sh4 ord b f X Y)] ++ [some (sh4 ord b f X Y)] ++
      [some (sh4 ord b (f + c2) X Y)] ++
      [some (sh4 ord b (f + c2) X Y)]).length = x + 5 := by simp [hlen]
  rw [decSegB, foldAcc_cons,
    stepAcc_deconv ord hord inp k2 acc x b c h w f k s bs X Y hx hX hY,
    foldAcc_cons, stepAcc_bn ord inp k2 _ (x + 1) _ h1 (by rw [sh4_length]; omega),
    foldAcc_cons, stepAcc_concat ord hord inp k2 _ (x + 2) skip b f c2 X Y h2 hskip2,
    foldAcc_cons, stepAcc_lrelu ord inp _ _ _ _ h3]
  rw [show pcSeg k2 npc f (x + 4) (x + 5) = pcSeg k2 npc f (x + 4)
    ((acc ++ [some (sh4 ord b f X Y)] ++ [some (sh4 ord b f X Y)] ++
      [some (sh4 ord b (f + c2) X Y)] ++
      [some (sh4 ord b (f + c2) X Y)]).length) from by rw [hl4]]
  rw [pcSeg_eval ord hord inp k2 npc f _ (x + 4) b (f + c2) X Y h4]
  simp [List.append_assoc]

/-- Evaluating the final stage: the transposed convolution sets channels to
out_ch and doubles the spatial extents; the activation keeps the shape. -/
theorem finSeg_eval (ord : String) (hord : ord = "th" ∨ ord = "tf")
    (inp : List Nat) (k2 : Bool) (out_ch : Nat)
    (acc : List (Option (List Nat))) (x b c h w X Y bs : Nat) (s : String)
    (hlen : acc.length = x + 1)
    (hx : acc.getD x none = some (sh4 ord b c h w))
    (hX : (h - 1) * 2 + 2 = X) (hY : (w - 1) * 2 + 2 = Y) :
    foldAcc ord inp acc (finSeg k2 ord out_ch (sh4 ord bs out_ch X Y) s x) =
      acc ++ [some (sh4 ord b out_ch X Y), some (sh4 ord b out_ch X Y)] := by
  have h1 : (acc ++ [some (sh4 ord b out_ch X Y)]).getD (x + 1) none =
      some (sh4 ord b out_ch X Y) := by
    rw [← hlen]; exact getD_snoc _ _ _
  rw [finSeg, foldAcc_cons,
    stepAcc_deconv ord hord inp k2 acc x b c h w out_ch 2 2 bs X Y hx hX hY,
    foldAcc_cons, stepAcc_act ord inp _ _ _ _ h1]
  simp [List.append_assoc, foldAcc]

theorem getD_encLast {α : Type} (acc : List α) (A d : α) (m : Nat) :
    (acc ++ [A, A, A] ++ List.replicate (3 * m) A).getD
      (acc.length + 2 + 3 * m) d = A := by
  cases m with
  | zero =>
    simp only [Nat.mul_zero, List.replicate_zero, List.append_nil,
      Nat.add_zero]
    rw [List.getD_append_right _ _ _ _ (by omega)]
    simp
  | succ m2 =>
    rw [List.getD_append_right _ _ _ _
      (by simp only [List.length_append, List.length_cons, List.length_nil]
          omega)]
    exact getD_replicate _ _ _ _
      (by simp only [List.length_append, List.length_cons, List.length_nil]
          omega)

theorem getD_decALast {α : Type} (acc : List α) (A C d : α) (m : Nat) :
    (acc ++ [A, A, A, C, C] ++ List.replicate (3 * m) A).getD
      (acc.length + 4 + 3 * m) d = if m = 0 then C else A := by
  cases m with
  | zero =>
    simp only [Nat.mul_zero, List.replicate_zero, List.append_nil,
      Nat.add_zero, if_pos rfl]
    rw [List.getD_append_right _ _ _ _ (by omega)]
    simp
  | succ m2 =>
    rw [if_neg (by omega)]
    rw [List.getD_append_right _ _ _ _
      (by simp only [List.length_append, List.length_cons, List.length_nil]
          omega)]
    exact getD_replicate _ _ _ _
      (by simp only [List.length_append, List.length_cons, List.length_nil]
          omega)

theorem getD_decBLast {α : Type} (acc : List α) (A C d : α) (m : Nat) :
    (acc ++ [A, A, C, C] ++ List.replicate (3 * m) A).getD
      (acc.length + 3 + 3 * m) d = if m = 0 then C else A := by
  cases m with
  | zero =>
    simp only [Nat.mul_zero, List.replicate_zero, List.append_nil,
      Nat.add_zero, if_pos rfl]
    rw [List.getD_append_right _ _ _ _ (by omega)]
    simp
  | succ m2 =>
    rw [if_neg (by omega)]
    rw [List.getD_append_right _ _ _ _
      (by simp only [List.length_append, List.length_cons, List.length_nil]
          omega)]
    exact getD_replicate _ _ _ _
      (by simp only [List.length_append, List.length_cons, List.length_nil]
          omega)

/-- Looking up an index that lies in a prefix is unaffected by two appended
blocks. -/
theorem getD_peel2 {α : Type} {acc : List α} (u v : List α) {i : Nat}
    {d val : α} (h : i < acc.length) (hv : acc.getD i d = val) :
    (acc ++ u ++ v).getD i d = val := by
  rw [List.getD_append _ _ _ _
    (by simp only [List.length_append]; omega),
    List.getD_append _ _ _ _ h, hv]

/-- Looking up an index that lies in a prefix is unaffected by one appended
block. -/
theorem getD_peel1 {α : Type} {acc : List α} (u : List α) {i : Nat}
    {d val : α} (h : i < acc.length) (hv : acc.getD i d = val) :
    (acc ++ u).getD i d = val := by
  rw [List.getD_append _ _ _ _ h, hv]

/-- Looking up an offset inside the first appended block. -/
theorem getD_blockAt {α : Type} (acc u v : List α) (o : Nat) (d : α)
    (ho : o < u.length) :
    (acc ++ u ++ v).getD (acc.length + o) d = u.getD o d := by
  rw [List.getD_append _ _ _ _
    (by simp only [List.length_append]; omega)]
  rw [List.getD_append_right _ _ _ _ (by omega)]
  congr 1
  omega

/-- Looking up an offset inside a single appended block. -/
theorem getD_appAt {α : Type} (acc u : List α) (o : Nat) (d : α)
    (ho : o < u.length) :
    (acc ++ u).getD (acc.length + o) d = u.getD o d := by
  rw [List.getD_append_right _ _ _ _ (by omega)]
  congr 1
  omega

theorem ite_some_sh4 (p : Prop) [Decidable p] (ord : String)
    (b c1 c2 h w : Nat) :
    (if p then (some (sh4 ord b c1 h w) : Option (List Nat))
      else some (sh4 ord b c2 h w)) =
      some (sh4 ord b (if p then c1 else c2) h w) := by
  split <;> rfl

/-- The closed-form list of inferred shapes for every node of the graph,
for a network input with batch entry b. -/
def unetShapes (ord : String) (b in_ch out_ch nf n : Nat) :
    List (Option (List Nat)) :=
  [some (sh4 ord b in_ch 512 512)]
  ++ [some (sh4 ord b (nf) 256 256),
      some (sh4 ord b (nf) 256 256),
      some (sh4 ord b (nf) 256 256)]
  ++ List.replicate (3 * n) (some (sh4 ord b (nf) 256 256))
  ++ [some (sh4 ord b (nf * 2) 128 128),
      some (sh4 ord b (nf * 2) 128 128),
      some (sh4 ord b (nf * 2) 128 128)]
  ++ List.replicate (3 * n) (some (sh4 ord b (nf * 2) 128 128))
  ++ [some (sh4 ord b (nf * 4) 64 64),
      some (sh4 ord b (nf * 4) 64 64),
      some (sh4 ord b (nf * 4) 64 64)]
  ++ List.replicate (3 * n) (some (sh4 ord b (nf * 4) 64 64))
  ++ [some (sh4 ord b (nf * 8) 32 32),
      some (sh4 ord b (nf * 8) 32 32),
      some (sh4 ord b (nf * 8) 32 32)]
  ++ List.replicate (3 * n) (some (sh4 ord b (nf * 8) 32 32))
  ++ [some (sh4 ord b (nf * 8) 16 16),
      some (sh4 ord b (nf * 8) 16 16),
      some (sh4 ord b (nf * 8) 16 16)]
  ++ List.replicate (3 * n) (some (sh4 ord b (nf * 8) 16 16))
  ++ [some (sh4 ord b (nf * 8) 8 8),
      some (sh4 ord b (nf * 8) 8 8),
      some (sh4 ord b (nf * 8) 8 8)]
  ++ List.replicate (3 * n) (some (sh4 ord b (nf * 8) 8 8))
  ++ [some (sh4 ord b (nf * 8) 4 4),
      some (sh4 ord b (nf * 8) 4 4),
      some (sh4 ord b (nf * 8) 4 4)]
  ++ List.replicate (3 * n) (some (sh4 ord b (nf * 8) 4 4))
  ++ [some (sh4 ord b (nf * 8) 2 2),
      some (sh4 ord b (nf * 8) 2 2),
      some (sh4 ord b (nf * 8) 2 2)]
  ++ List.replicate (3 * n) (some (sh4 ord b (nf * 8) 2 2))
  ++ [some (sh4 ord b (nf * 8) 1 1),
      some (sh4 ord b (nf * 8) 1 1),
      some (sh4 ord b (nf * 8) 1 1)]
  ++ List.replicate (3 * 0) (some (sh4 ord b (nf * 8) 1 1))
  ++ [some (sh4 ord b (nf * 8) 2 2),
      some (sh4 ord b (nf * 8) 2 2),
      some (sh4 ord b (nf * 8) 2 2),
      some (sh4 ord b (nf * 8 + nf * 8) 2 2),
      some (sh4 ord b (nf * 8 + nf * 8) 2 2)]
  ++ List.replicate (3 * n) (some (sh4 ord b (nf * 8) 2 2))
  ++ [some (sh4 ord b (nf * 8) 4 4),
      some (sh4 ord b (nf * 8) 4 4),
      some (sh4 ord b (nf * 8) 4 4),
      some (sh4 ord b (nf * 8 + nf * 8) 4 4),
      some (sh4 ord b (nf * 8 + nf * 8) 4 4)]
  ++ List.replicate (3 * n) (some (sh4 ord b (nf * 8) 4 4))
  ++ [some (sh4 ord b (nf * 8) 8 8),
      some (sh4 ord b (nf * 8) 8 8),
      some (sh4 ord b (nf * 8) 8 8),
      some (sh4 ord b (nf * 8 + nf * 8) 8 8),
      some (sh4 ord b (nf * 8 + nf * 8) 8 8)]
  ++ List.replicate (3 * n) (some (sh4 ord b (nf * 8) 8 8))
  ++ [some (sh4 ord b (nf * 8) 16 16),
      some (sh4 ord b (nf * 8) 16 16),
      some (sh4 ord b (nf * 8 + nf * 8) 16 16),
      some (sh4 ord b (nf * 8 + nf * 8) 16 16)]
  ++ List.replicate (3 * n) (some (sh4 ord b (nf * 8) 16 16))
  ++ [some (sh4 ord b (nf * 8) 32 32),
      some (sh4 ord b (nf * 8) 32 32),
      some (sh4 ord b (nf * 8 + nf * 8) 32 32),
      some (sh4 ord b (nf * 8 + nf * 8) 32 32)]
  ++ List.replicate (3 * n) (some (sh4 ord b (nf * 8) 32 32))
  ++ [some (sh4 ord b (nf * 4) 64 64),
      some (sh4 ord b (nf * 4) 64 64),
      some (sh4 ord b (nf * 4 + nf * 4) 64 64),
      some (sh4 ord b (nf * 4 + nf * 4) 64 64)]
  ++ List.replicate (3 * n) (some (sh4 ord b (nf * 4) 64 64))
  ++ [some (sh4 ord b (nf * 2) 128 128),
      some (sh4 ord b (nf * 2) 128 128),
      some (sh4 ord b (nf * 2 + nf * 2) 128 128),
      some (sh4 ord b (nf * 2 + nf * 2) 128 128)]
  ++ List.replicate (3 * n) (some (sh4 ord b (nf * 2) 128 128))
  ++ [some (sh4 ord b (nf) 256 256),
      some (sh4 ord b (nf) 256 256),
      some (sh4 ord b (nf + nf) 256 256),
      some (sh4 ord b (nf + nf) 256 256)]
  ++ List.replicate (3 * n) (some (sh4 ord b (nf) 256 256))
  ++ [some (sh4 ord b out_ch 512 512), some (sh4 ord b out_ch 512 512)]

/-- Shape inference over the closed-form graph: every node gets the shape
listed in unetShapes. -/
theorem unetNodes_eval (ord : String) (hord : ord = "th" ∨ ord = "tf")
    (k2 : Bool) (in_ch out_ch nf bs b : Nat) (ib : Bool) (n : Nat) :
    evalShapes ord (sh4 ord b in_ch 512 512)
      (unetNodes k2 ord (inDecl ord in_ch) out_ch nf bs ib n) =
      unetShapes ord b in_ch out_ch nf n := by
  have hs1 : convOutDim 512 3 2 "same" = some 256 := by norm_num [convOutDim]
  have hs2 : convOutDim 256 3 2 "same" = some 128 := by norm_num [convOutDim]
  have hs3 : convOutDim 128 3 2 "same" = some 64 := by norm_num [convOutDim]
  have hs4 : convOutDim 64 3 2 "same" = some 32 := by norm_num [convOutDim]
  have hs5 : convOutDim 32 3 2 "same" = some 16 := by norm_num [convOutDim]
  have hs6 : convOutDim 16 3 2 "same" = some 8 := by norm_num [convOutDim]
  have hs7 : convOutDim 8 3 2 "same" = some 4 := by norm_num [convOutDim]
  have hs8 : convOutDim 4 3 2 "same" = some 2 := by norm_num [convOutDim]
  have hs9 : convOutDim 2 2 1 "valid" = some 1 := by decide
  rw [show evalShapes ord (sh4 ord b in_ch 512 512)
      (unetNodes k2 ord (inDecl ord in_ch) out_ch nf bs ib n) =
    foldAcc ord (sh4 ord b in_ch 512 512) []
      (unetNodes k2 ord (inDecl ord in_ch) out_ch nf bs ib n) from rfl]
  rw [unetNodes, unetSegments]
  simp only [List.flatten_cons, List.flatten_nil, List.append_nil]
  rw [foldAcc_append]
  rw [show foldAcc ord (sh4 ord b in_ch 512 512) []
      [(⟨Layer.inputL (inDecl ord in_ch), []⟩ : BuiltNode)] =
    [] ++ [some (sh4 ord b in_ch 512 512)] from by
      rw [foldAcc_cons, stepAcc_inputL ord hord b in_ch []]
      rfl]
  simp only [List.nil_append]
  set E0 := [some (sh4 ord b in_ch 512 512)] with hE0
  have hlen0 : E0.length = 0 + 1 := by rw [hE0]; rfl
  have hlast0 : E0.getD 0 none = some (sh4 ord b in_ch 512 512) := by rw [hE0]; rfl
  -- encoder stage 1
  rw [foldAcc_append]
  rw [encSeg_eval ord hord (sh4 ord b in_ch 512 512) k2 n (nf) 3 2 "same" E0 (0) b (in_ch) 512 512 256 256 hlen0 hlast0 hs1 hs1]
  set E1 := E0 ++ [some (sh4 ord b (nf) 256 256), some (sh4 ord b (nf) 256 256), some (sh4 ord b (nf) 256 256)] ++ List.replicate (3 * n) (some (sh4 ord b (nf) 256 256)) with hE1
  have hlen1 : E1.length = 3 + 3 * n + 1 := by
    rw [hE1]
    simp only [List.length_append, List.length_cons, List.length_nil,
      List.length_replicate, hlen0]
    omega
  have hlast1 : E1.getD (3 + 3 * n) none = some (sh4 ord b (nf) 256 256) := by
    rw [hE1]
    rw [show (3 + 3 * n : Nat) = E0.length + 2 + 3 * n from by rw [hlen0]; try omega]
    exact getD_encLast _ _ _ _
  have hc1_1 : E1.getD (3 + 3 * n) none = some (sh4 ord b (nf) 256 256) := hlast1
  -- encoder stage 2
  rw [foldAcc_append]
  rw [encSeg_eval ord hord (sh4 ord b in_ch 512 512) k2 n (nf * 2) 3 2 "same" E1 (3 + 3 * n) b (nf) 256 256 128 128 hlen1 hlast1 hs2 hs2]
  set E2 := E1 ++ [some (sh4 ord b (nf * 2) 128 128), some (sh4 ord b (nf * 2) 128 128), some (sh4 ord b (nf * 2) 128 128)] ++ List.replicate (3 * n) (some (sh4 ord b (nf * 2) 128 128)) with hE2
  have hlen2 : E2.length = 6 + 6 * n + 1 := by
    rw [hE2]
    simp only [List.length_append, List.length_cons, List.length_nil,
      List.length_replicate, hlen1]
    omega
  have hlast2 : E2.getD (6 + 6 * n) none = some (sh4 ord b (nf * 2) 128 128) := by
    rw [hE2]
    rw [show (6 + 6 * n : Nat) = E1.length + 2 + 3 * n from by rw [hlen1]; try omega]
    exact getD_encLast _ _ _ _
  have hc2_2 : E2.getD (6 + 6 * n) none = some (sh4 ord b (nf * 2) 128 128) := hlast2
  have hc1_2 : E2.getD (3 + 3 * n) none = some (sh4 ord b (nf) 256 256) := by
    rw [hE2]
    exact getD_peel2 _ _ (by rw [hlen1]; omega) hc1_1
  -- encoder stage 3
  rw [foldAcc_append]
  rw [encSeg_eval ord hord (sh4 ord b in_ch 512 512) k2 n (nf * 4) 3 2 "same" E2 (6 + 6 * n) b (nf * 2) 128 128 64 64 hlen2 hlast2 hs3 hs3]
  set E3 := E2 ++ [some (sh4 ord b (nf * 4) 64 64), some (sh4 ord b (nf * 4) 64 64), some (sh4 ord b (nf * 4) 64 64)] ++ List.replicate (3 * n) (some (sh4 ord b (nf * 4) 64 64)) with hE3
  have hlen3 : E3.length = 9 + 9 * n + 1 := by
    rw [hE3]
    simp only [List.length_append, List.length_cons, List.length_nil,
      List.length_replicate, hlen2]
    omega
  have hlast3 : E3.getD (9 + 9 * n) none = some (sh4 ord b (nf * 4) 64 64) := by
    rw [hE3]
    rw [show (9 + 9 * n : Nat) = E2.length + 2 + 3 * n from by rw [hlen2]; try omega]
    exact getD_encLast _ _ _ _
  have hc3_3 : E3.getD (9 + 9 * n) none = some (sh4 ord b (nf * 4) 64 64) := hlast3
  have hc1_3 : E3.getD (3 + 3 * n) none = some (sh4 ord b (nf) 256 256) := by
    rw [hE3]
    exact getD_peel2 _ _ (by rw [hlen2]; omega) hc1_2
  have hc2_3 : E3.getD (6 + 6 * n) none = some (sh4 ord b (nf * 2) 128 128) := by
    rw [hE3]
    exact getD_peel2 _ _ (by rw [hlen2]; omega) hc2_2
  -- encoder stage 4
  rw [foldAcc_append]
  rw [encSeg_eval ord hord (sh4 ord b in_ch 512 512) k2 n (nf * 8) 3 2 "same" E3 (9 + 9 * n) b (nf * 4) 64 64 32 32 hlen3 hlast3 hs4 hs4]
  set E4 := E3 ++ [some (sh4 ord b (nf * 8) 32 32), some (sh4 ord b (nf * 8) 32 32), some (sh4 ord b (nf * 8) 32 32)] ++ List.replicate (3 * n) (some (sh4 ord b (nf * 8) 32 32)) with hE4
  have hlen4 : E4.length = 12 + 12 * n + 1 := by
    rw [hE4]
    simp only [List.length_append, List.length_cons, List.length_nil,
      List.length_replicate, hlen3]
    omega
  have hlast4 : E4.getD (12 + 12 * n) none = some (sh4 ord b (nf * 8) 32 32) := by
    rw [hE4]
    rw [show (12 + 12 * n : Nat) = E3.length + 2 + 3 * n from by rw [hlen3]; try omega]
    exact getD_encLast _ _ _ _
  have hc4_4 : E4.getD (12 + 12 * n) none = some (sh4 ord b (nf * 8) 32 32) := hlast4
  have hc1_4 : E4.getD (3 + 3 * n) none = some (sh4 ord b (nf) 256 256) := by
    rw [hE4]
    exact getD_peel2 _ _ (by rw [hlen3]; omega) hc1_3
  have hc2_4 : E4.getD (6 + 6 * n) none = some (sh4 ord b (nf * 2) 128 128) := by
    rw [hE4]
    exact getD_peel2 _ _ (by rw [hlen3]; omega) hc2_3
  have hc3_4 : E4.getD (9 + 9 * n) none = some (sh4 ord b (nf * 4) 64 64) := by
    rw [hE4]
    exact getD_peel2 _ _ (by rw [hlen3]; omega) hc3_3
  -- encoder stage 5
  rw [foldAcc_append]
  rw [encSeg_eval ord hord (sh4 ord b in_ch 512 512) k2 n (nf * 8) 3 2 "same" E4 (12 + 12 * n) b (nf * 8) 32 32 16 16 hlen4 hlast4 hs5 hs5]
  set E5 := E4 ++ [some (sh4 ord b (nf * 8) 16 16), some (sh4 ord b (nf * 8) 16 16), some (sh4 ord b (nf * 8) 16 16)] ++ List.replicate (3 * n) (some (sh4 ord b (nf * 8) 16 16)) with hE5
  have hlen5 : E5.length = 15 + 15 * n + 1 := by
    rw [hE5]
    simp only [List.length_append, List.length_cons, List.length_nil,
      List.length_replicate, hlen4]
    omega
  have hlast5 : E5.getD (15 + 15 * n) none = some (sh4 ord b (nf * 8) 16 16) := by
    rw [hE5]
    rw [show (15 + 15 * n : Nat) = E4.length + 2 + 3 * n from by rw [hlen4]; try omega]
    exact getD_encLast _ _ _ _
  have hc5_5 : E5.getD (15 + 15 * n) none = some (sh4 ord b (nf * 8) 16 16) := hlast5
  have hc1_5 : E5.getD (3 + 3 * n) none = some (sh4 ord b (nf) 256 256) := by
    rw [hE5]
    exact getD_peel2 _ _ (by rw [hlen4]; omega) hc1_4
  have hc2_5 : E5.getD (6 + 6 * n) none = some (sh4 ord b (nf * 2) 128 128) := by
    rw [hE5]
    exact getD_peel2 _ _ (by rw [hlen4]; omega) hc2_4
  have hc3_5 : E5.getD (9 + 9 * n) none = some (sh4 ord b (nf * 4) 64 64) := by
    rw [hE5]
    exact getD_peel2 _ _ (by rw [hlen4]; omega) hc3_4
  have hc4_5 : E5.getD (12 + 12 * n) none = some (sh4 ord b (nf * 8) 32 32) := by
    rw [hE5]
    exact getD_peel2 _ _ (by rw [hlen4]; omega) hc4_4
  -- encoder stage 6
  rw [foldAcc_append]
  rw [encSeg_eval ord hord (sh4 ord b in_ch 512 512) k2 n (nf * 8) 3 2 "same" E5 (15 + 15 * n) b (nf * 8) 16 16 8 8 hlen5 hlast5 hs6 hs6]
  set E6 := E5 ++ [some (sh4 ord b (nf * 8) 8 8), some (sh4 ord b (nf * 8) 8 8), some (sh4 ord b (nf * 8) 8 8)] ++ List.replicate (3 * n) (some (sh4 ord b (nf * 8) 8 8)) with hE6
  have hlen6 : E6.length = 18 + 18 * n + 1 := by
    rw [hE6]
    simp only [List.length_append, List.length_cons, List.length_nil,
      List.length_replicate, hlen5]
    omega
  have hlast6 : E6.getD (18 + 18 * n) none = some (sh4 ord b (nf * 8) 8 8) := by
    rw [hE6]
    rw [show (18 + 18 * n : Nat) = E5.length + 2 + 3 * n from by rw [hlen5]; try omega]
    exact getD_encLast _ _ _ _
  have hc6_6 : E6.getD (18 + 18 * n) none = some (sh4 ord b (nf * 8) 8 8) := hlast6
  have hc1_6 : E6.getD (3 + 3 * n) none = some (sh4 ord b (nf) 256 256) := by
    rw [hE6]
    exact getD_peel2 _ _ (by rw [hlen5]; omega) hc1_5
  have hc2_6 : E6.getD (6 + 6 * n) none = some (sh4 ord b (nf * 2) 128 128) := by
    rw [hE6]
    exact getD_peel2 _ _ (by rw [hlen5]; omega) hc2_5
  have hc3_6 : E6.getD (9 + 9 * n) none = some (sh4 ord b (nf * 4) 64 64) := by
    rw [hE6]
    exact getD_peel2 _ _ (by rw [hlen5]; omega) hc3_5
  have hc4_6 : E6.getD (12 + 12 * n) none = some (sh4 ord b (nf * 8) 32 32) := by
    rw [hE6]
    exact getD_peel2 _ _ (by rw [hlen5]; omega) hc4_5
  have hc5_6 : E6.getD (15 + 15 * n) none = some (sh4 ord b (nf * 8) 16 16) := by
    rw [hE6]
    exact getD_peel2 _ _ (by rw [hlen5]; omega) hc5_5
  -- encoder stage 7
  rw [foldAcc_append]
  rw [encSeg_eval ord hord (sh4 ord b in_ch 512 512) k2 n (nf * 8) 3 2 "same" E6 (18 + 18 * n) b (nf * 8) 8 8 4 4 hlen6 hlast6 hs7 hs7]
  set E7 := E6 ++ [some (sh4 ord b (nf * 8) 4 4), some (sh4 ord b (nf * 8) 4 4), some (sh4 ord b (nf * 8) 4 4)] ++ List.replicate (3 * n) (some (sh4 ord b (nf * 8) 4 4)) with hE7
  have hlen7 : E7.length = 21 + 21 * n + 1 := by
    rw [hE7]
    simp only [List.length_append, List.length_cons, List.length_nil,
      List.length_replicate, hlen6]
    omega
  have hlast7 : E7.getD (21 + 21 * n) none = some (sh4 ord b (nf * 8) 4 4) := by
    rw [hE7]
    rw [show (21 + 21 * n : Nat) = E6.length + 2 + 3 * n from by rw [hlen6]; try omega]
    exact getD_encLast _ _ _ _
  have hc7_7 : E7.getD (21 + 21 * n) none = some (sh4 ord b (nf * 8) 4 4) := hlast7
  have hc1_7 : E7.getD (3 + 3 * n) none = some (sh4 ord b (nf) 256 256) := by
    rw [hE7]
    exact getD_peel2 _ _ (by rw [hlen6]; omega) hc1_6
  have hc2_7 : E7.getD (6 + 6 * n) none = some (sh4 ord b (nf * 2) 128 128) := by
    rw [hE7]
    exact getD_peel2 _ _ (by rw [hlen6]; omega) hc2_6
  have hc3_7 : E7.getD (9 + 9 * n) none = some (sh4 ord b (nf * 4) 64 64) := by
    rw [hE7]
    exact getD_peel2 _ _ (by rw [hlen6]; omega) hc3_6
  have hc4_7 : E7.getD (12 + 12 * n) none = some (sh4 ord b (nf * 8) 32 32) := by
    rw [hE7]
    exact getD_peel2 _ _ (by rw [hlen6]; omega) hc4_6
  have hc5_7 : E7.getD (15 + 15 * n) none = some (sh4 ord b (nf * 8) 16 16) := by
    rw [hE7]
    exact getD_peel2 _ _ (by rw [hlen6]; omega) hc5_6
  have hc6_7 : E7.getD (18 + 18 * n) none = some (sh4 ord b (nf * 8) 8 8) := by
    rw [hE7]
    exact getD_peel2 _ _ (by rw [hlen6]; omega) hc6_6
  -- encoder stage 8
  rw [foldAcc_append]
  rw [encSeg_eval ord hord (sh4 ord b in_ch 512 512) k2 n (nf * 8) 3 2 "same" E7 (21 + 21 * n) b (nf * 8) 4 4 2 2 hlen7 hlast7 hs8 hs8]
  set E8 := E7 ++ [some (sh4 ord b (nf * 8) 2 2), some (sh4 ord b (nf * 8) 2 2), some (sh4 ord b (nf * 8) 2 2)] ++ List.replicate (3 * n) (some (sh4 ord b (nf * 8) 2 2)) with hE8
  have hlen8 : E8.length = 24 + 24 * n + 1 := by
    rw [hE8]
    simp only [List.length_append, List.length_cons, List.length_nil,
      List.length_replicate, hlen7]
    omega
  have hlast8 : E8.getD (24 + 24 * n) none = some (sh4 ord b (nf * 8) 2 2) := by
    rw [hE8]
    rw [show (24 + 24 * n : Nat) = E7.length + 2 + 3 * n from by rw [hlen7]; try omega]
    exact getD_encLast _ _ _ _
  have hc8_8 : E8.getD (24 + 24 * n) none = some (sh4 ord b (nf * 8) 2 2) := hlast8
  have hc1_8 : E8.getD (3 + 3 * n) none = some (sh4 ord b (nf) 256 256) := by
    rw [hE8]
    exact getD_peel2 _ _ (by rw [hlen7]; omega) hc1_7
  have hc2_8 : E8.getD (6 + 6 * n) none = some (sh4 ord b (nf * 2) 128 128) := by
    rw [hE8]
    exact getD_peel2 _ _ (by rw [hlen7]; omega) hc2_7
  have hc3_8 : E8.getD (9 + 9 * n) none = some (sh4 ord b (nf * 4) 64 64) := by
    rw [hE8]
    exact getD_peel2 _ _ (by rw [hlen7]; omega) hc3_7
  have hc4_8 : E8.getD (12 + 12 * n) none = some (sh4 ord b (nf * 8) 32 32) := by
    rw [hE8]
    exact getD_peel2 _ _ (by rw [hlen7]; omega) hc4_7
  have hc5_8 : E8.getD (15 + 15 * n) none = some (sh4 ord b (nf * 8) 16 16) := by
    rw [hE8]
    exact getD_peel2 _ _ (by rw [hlen7]; omega) hc5_7
  have hc6_8 : E8.getD (18 + 18 * n) none = some (sh4 ord b (nf * 8) 8 8) := by
    rw [hE8]
    exact getD_peel2 _ _ (by rw [hlen7]; omega) hc6_7
  have hc7_8 : E8.getD (21 + 21 * n) none = some (sh4 ord b (nf * 8) 4 4) := by
    rw [hE8]
    exact getD_peel2 _ _ (by rw [hlen7]; omega) hc7_7
  -- encoder stage 9
  rw [foldAcc_append]
  rw [encSeg_eval ord hord (sh4 ord b in_ch 512 512) k2 0 (nf * 8) 2 1 "valid" E8 (24 + 24 * n) b (nf * 8) 2 2 1 1 hlen8 hlast8 hs9 hs9]
  set E9 := E8 ++ [some (sh4 ord b (nf * 8) 1 1), some (sh4 ord b (nf * 8) 1 1), some (sh4 ord b (nf * 8) 1 1)] ++ List.replicate (3 * 0) (some (sh4 ord b (nf * 8) 1 1)) with hE9
  have hlen9 : E9.length = 27 + 24 * n + 1 := by
    rw [hE9]
    simp only [List.length_append, List.length_cons, List.length_nil,
      List.length_replicate, hlen8]
    omega
  have hlast9 : E9.getD (27 + 24 * n) none = some (sh4 ord b (nf * 8) 1 1) := by
    rw [hE9]
    rw [show (27 + 24 * n : Nat) = E8.length + 2 + 3 * 0 from by rw [hlen8]; try omega]
    exact getD_encLast _ _ _ _
  have hc1_9 : E9.getD (3 + 3 * n) none = some (sh4 ord b (nf) 256 256) := by
    rw [hE9]
    exact getD_peel2 _ _ (by rw [hlen8]; omega) hc1_8
  have hc2_9 : E9.getD (6 + 6 * n) none = some (sh4 ord b (nf * 2) 128 128) := by
    rw [hE9]
    exact getD_peel2 _ _ (by rw [hlen8]; omega) hc2_8
  have hc3_9 : E9.getD (9 + 9 * n) none = some (sh4 ord b (nf * 4) 64 64) := by
    rw [hE9]
    exact getD_peel2 _ _ (by rw [hlen8]; omega) hc3_8
  have hc4_9 : E9.getD (12 + 12 * n) none = some (sh4 ord b (nf * 8) 32 32) := by
    rw [hE9]
    exact getD_peel2 _ _ (by rw [hlen8]; omega) hc4_8
  have hc5_9 : E9.getD (15 + 15 * n) none = some (sh4 ord b (nf * 8) 16 16) := by
    rw [hE9]
    exact getD_peel2 _ _ (by rw [hlen8]; omega) hc5_8
  have hc6_9 : E9.getD (18 + 18 * n) none = some (sh4 ord b (nf * 8) 8 8) := by
    rw [hE9]
    exact getD_peel2 _ _ (by rw [hlen8]; omega) hc6_8
  have hc7_9 : E9.getD (21 + 21 * n) none = some (sh4 ord b (nf * 8) 4 4) := by
    rw [hE9]
    exact getD_peel2 _ _ (by rw [hlen8]; omega) hc7_8
  have hc8_9 : E9.getD (24 + 24 * n) none = some (sh4 ord b (nf * 8) 2 2) := by
    rw [hE9]
    exact getD_peel2 _ _ (by rw [hlen8]; omega) hc8_8
  -- decoder stage 1
  rw [foldAcc_append]
  rw [decSegA_eval ord hord (sh4 ord b in_ch 512 512) k2 n (nf * 8) 2 1 E9 (27 + 24 * n) (24 + 24 * n) b (nf * 8) (nf * 8) 1 1 2 2 bs hlen9 hlast9 (by omega) hc8_9 (by norm_num) (by norm_num)]
  set E10 := E9 ++ [some (sh4 ord b (nf * 8) 2 2), some (sh4 ord b (nf * 8) 2 2),
      some (sh4 ord b (nf * 8) 2 2), some (sh4 ord b (nf * 8 + nf * 8) 2 2),
      some (sh4 ord b (nf * 8 + nf * 8) 2 2)] ++ List.replicate (3 * n) (some (sh4 ord b (nf * 8) 2 2)) with hE10
  have hlen10 : E10.length = 32 + 27 * n + 1 := by
    rw [hE10]
    simp only [List.length_append, List.length_cons, List.length_nil,
      List.length_replicate, hlen9]
    omega
  have hlast10 : E10.getD (32 + 27 * n) none = some (sh4 ord b (if n = 0 then nf * 8 + nf * 8 else nf * 8) 2 2) := by
    rw [hE10]
    rw [show (32 + 27 * n : Nat) = E9.length + 4 + 3 * n from by rw [hlen9]; try omega]
    rw [getD_decALast, ite_some_sh4]
  have hc1_10 : E10.getD (3 + 3 * n) none = some (sh4 ord b (nf) 256 256) := by
    rw [hE10]
    exact getD_peel2 _ _ (by rw [hlen9]; omega) hc1_9
  have hc2_10 : E10.getD (6 + 6 * n) none = some (sh4 ord b (nf * 2) 128 128) := by
    rw [hE10]
    exact getD_peel2 _ _ (by rw [hlen9]; omega) hc2_9
  have hc3_10 : E10.getD (9 + 9 * n) none = some (sh4 ord b (nf * 4) 64 64) := by
    rw [hE10]
    exact getD_peel2 _ _ (by rw [hlen9]; omega) hc3_9
  have hc4_10 : E10.getD (12 + 12 * n) none = some (sh4 ord b (nf * 8) 32 32) := by
    rw [hE10]
    exact getD_peel2 _ _ (by rw [hlen9]; omega) hc4_9
  have hc5_10 : E10.getD (15 + 15 * n) none = some (sh4 ord b (nf * 8) 16 16) := by
    rw [hE10]
    exact getD_peel2 _ _ (by rw [hlen9]; omega) hc5_9
  have hc6_10 : E10.getD (18 + 18 * n) none = some (sh4 ord b (nf * 8) 8 8) := by
    rw [hE10]
    exact getD_peel2 _ _ (by rw [hlen9]; omega) hc6_9
  have hc7_10 : E10.getD (21 + 21 * n) none = some (sh4 ord b (nf * 8) 4 4) := by
    rw [hE10]
    exact getD_peel2 _ _ (by rw [hlen9]; omega) hc7_9
  -- decoder stage 2
  rw [foldAcc_append]
  rw [decSegA_eval ord hord (sh4 ord b in_ch 512 512) k2 n (nf * 8) 2 2 E10 (32 + 27 * n) (21 + 21 * n) b (if n = 0 then nf * 8 + nf * 8 else nf * 8) (nf * 8) 2 2 4 4 bs hlen10 hlast10 (by omega) hc7_10 (by norm_num) (by norm_num)]
  set E11 := E10 ++ [some (sh4 ord b (nf * 8) 4 4), some (sh4 ord b (nf * 8) 4 4),
      some (sh4 ord b (nf * 8) 4 4), some (sh4 ord b (nf * 8 + nf * 8) 4 4),
      some (sh4 ord b (nf * 8 + nf * 8) 4 4)] ++ List.replicate (3 * n) (some (sh4 ord b (nf * 8) 4 4)) with hE11
  have hlen11 : E11.length = 37 + 30 * n + 1 := by
    rw [hE11]
    simp only [List.length_append, List.length_cons, List.length_nil,
      List.length_replicate, hlen10]
    omega
  have hlast11 : E11.getD (37 + 30 * n) none = some (sh4 ord b (if n = 0 then nf * 8 + nf * 8 else nf * 8) 4 4) := by
    rw [hE11]
    rw [show (37 + 30 * n : Nat) = E10.length + 4 + 3 * n from by rw [hlen10]; try omega]
    rw [getD_decALast, ite_some_sh4]
  have hc1_11 : E11.getD (3 + 3 * n) none = some (sh4 ord b (nf) 256 256) := by
    rw [hE11]
    exact getD_peel2 _ _ (by rw [hlen10]; omega) hc1_10
  have hc2_11 : E11.getD (6 + 6 * n) none = some (sh4 ord b (nf * 2) 128 128) := by
    rw [hE11]
    exact getD_peel2 _ _ (by rw [hlen10]; omega) hc2_10
  have hc3_11 : E11.getD (9 + 9 * n) none = some (sh4 ord b (nf * 4) 64 64) := by
    rw [hE11]
    exact getD_peel2 _ _ (by rw [hlen10]; omega) hc3_10
  have hc4_11 : E11.getD (12 + 12 * n) none = some (sh4 ord b (nf * 8) 32 32) := by
    rw [hE11]
    exact getD_peel2 _ _ (by rw [hlen10]; omega) hc4_10
  have hc5_11 : E11.getD (15 + 15 * n) none = some (sh4 ord b (nf * 8) 16 16) := by
    rw [hE11]
    exact getD_peel2 _ _ (by rw [hlen10]; omega) hc5_10
  have hc6_11 : E11.getD (18 + 18 * n) none = some (sh4 ord b (nf * 8) 8 8) := by
    rw [hE11]
    exact getD_peel2 _ _ (by rw [hlen10]; omega) hc6_10
  -- decoder stage 3
  rw [foldAcc_append]
  rw [decSegA_eval ord hord (sh4 ord b in_ch 512 512) k2 n (nf * 8) 2 2 E11 (37 + 30 * n) (18 + 18 * n) b (if n = 0 then nf * 8 + nf * 8 else nf * 8) (nf * 8) 4 4 8 8 bs hlen11 hlast11 (by omega) hc6_11 (by norm_num) (by norm_num)]
  set E12 := E11 ++ [some (sh4 ord b (nf * 8) 8 8), some (sh4 ord b (nf * 8) 8 8),
      some (sh4 ord b (nf * 8) 8 8), some (sh4 ord b (nf * 8 + nf * 8) 8 8),
      some (sh4 ord b (nf * 8 + nf * 8) 8 8)] ++ List.replicate (3 * n) (some (sh4 ord b (nf * 8) 8 8)) with hE12
  have hlen12 : E12.length = 42 + 33 * n + 1 := by
    rw [hE12]
    simp only [List.length_append, List.length_cons, List.length_nil,
      List.length_replicate, hlen11]
    omega
  have hlast12 : E12.getD (42 + 33 * n) none = some (sh4 ord b (if n = 0 then nf * 8 + nf * 8 else nf * 8) 8 8) := by
    rw [hE12]
    rw [show (42 + 33 * n : Nat) = E11.length + 4 + 3 * n from by rw [hlen11]; try omega]
    rw [getD_decALast, ite_some_sh4]
  have hc1_12 : E12.getD (3 + 3 * n) none = some (sh4 ord b (nf) 256 256) := by
    rw [hE12]
    exact getD_peel2 _ _ (by rw [hlen11]; omega) hc1_11
  have hc2_12 : E12.getD (6 + 6 * n) none = some (sh4 ord b (nf * 2) 128 128) := by
    rw [hE12]
    exact getD_peel2 _ _ (by rw [hlen11]; omega) hc2_11
  have hc3_12 : E12.getD (9 + 9 * n) none = some (sh4 ord b (nf * 4) 64 64) := by
    rw [hE12]
    exact getD_peel2 _ _ (by rw [hlen11]; omega) hc3_11
  have hc4_12 : E12.getD (12 + 12 * n) none = some (sh4 ord b (nf * 8) 32 32) := by
    rw [hE12]
    exact getD_peel2 _ _ (by rw [hlen11]; omega) hc4_11
  have hc5_12 : E12.getD (15 + 15 * n) none = some (sh4 ord b (nf * 8) 16 16) := by
    rw [hE12]
    exact getD_peel2 _ _ (by rw [hlen11]; omega) hc5_11
  -- decoder stage 4
  rw [foldAcc_append]
  rw [decSegB_eval ord hord (sh4 ord b in_ch 512 512) k2 n (nf * 8) 2 2 E12 (42 + 33 * n) (15 + 15 * n) b (if n = 0 then nf * 8 + nf * 8 else nf * 8) (nf * 8) 8 8 16 16 bs hlen12 hlast12 (by omega) hc5_12 (by norm_num) (by norm_num)]
  set E13 := E12 ++ [some (sh4 ord b (nf * 8) 16 16), some (sh4 ord b (nf * 8) 16 16),
      some (sh4 ord b (nf * 8 + nf * 8) 16 16), some (sh4 ord b (nf * 8 + nf * 8) 16 16)] ++ List.replicate (3 * n) (some (sh4 ord b (nf * 8) 16 16)) with hE13
  have hlen13 : E13.length = 46 + 36 * n + 1 := by
    rw [hE13]
    simp only [List.length_append, List.length_cons, List.length_nil,
      List.length_replicate, hlen12]
    omega
  have hlast13 : E13.getD (46 + 36 * n) none = some (sh4 ord b (if n = 0 then nf * 8 + nf * 8 else nf * 8) 16 16) := by
    rw [hE13]
    rw [show (46 + 36 * n : Nat) = E12.length + 3 + 3 * n from by rw [hlen12]; try omega]
    rw [getD_decBLast, ite_some_sh4]
  have hc1_13 : E13.getD (3 + 3 * n) none = some (sh4 ord b (nf) 256 256) := by
    rw [hE13]
    exact getD_peel2 _ _ (by rw [hlen12]; omega) hc1_12
  have hc2_13 : E13.getD (6 + 6 * n) none = some (sh4 ord b (nf * 2) 128 128) := by
    rw [hE13]
    exact getD_peel2 _ _ (by rw [hlen12]; omega) hc2_12
  have hc3_13 : E13.getD (9 + 9 * n) none = some (sh4 ord b (nf * 4) 64 64) := by
    rw [hE13]
    exact getD_peel2 _ _ (by rw [hlen12]; omega) hc3_12
  have hc4_13 : E13.getD (12 + 12 * n) none = some (sh4 ord b (nf * 8) 32 32) := by
    rw [hE13]
    exact getD_peel2 _ _ (by rw [hlen12]; omega) hc4_12
  -- decoder stage 5
  rw [foldAcc_append]
  rw [decSegB_eval ord hord (sh4 ord b in_ch 512 512) k2 n (nf * 8) 2 2 E13 (46 + 36 * n) (12 + 12 * n) b (if n = 0 then nf * 8 + nf * 8 else nf * 8) (nf * 8) 16 16 32 32 bs hlen13 hlast13 (by omega) hc4_13 (by norm_num) (by norm_num)]
  set E14 := E13 ++ [some (sh4 ord b (nf * 8) 32 32), some (sh4 ord b (nf * 8) 32 32),
      some (sh4 ord b (nf * 8 + nf * 8) 32 32), some (sh4 ord b (nf * 8 + nf * 8) 32 32)] ++ List.replicate (3 * n) (some (sh4 ord b (nf * 8) 32 32)) with hE14
  have hlen14 : E14.length = 50 + 39 * n + 1 := by
    rw [hE14]
    simp only [List.length_append, List.length_cons, List.length_nil,
      List.length_replicate, hlen13]
    omega
  have hlast14 : E14.getD (50 + 39 * n) none = some (sh4 ord b (if n = 0 then nf * 8 + nf * 8 else nf * 8) 32 32) := by
    rw [hE14]
    rw [show (50 + 39 * n : Nat) = E13.length + 3 + 3 * n from by rw [hlen13]; try omega]
    rw [getD_decBLast, ite_some_sh4]
  have hc1_14 : E14.getD (3 + 3 * n) none = some (sh4 ord b (nf) 256 256) := by
    rw [hE14]
    exact getD_peel2 _ _ (by rw [hlen13]; omega) hc1_13
  have hc2_14 : E14.getD (6 + 6 * n) none = some (sh4 ord b (nf * 2) 128 128) := by
    rw [hE14]
    exact getD_peel2 _ _ (by rw [hlen13]; omega) hc2_13
  have hc3_14 : E14.getD (9 + 9 * n) none = some (sh4 ord b (nf * 4) 64 64) := by
    rw [hE14]
    exact getD_peel2 _ _ (by rw [hlen13]; omega) hc3_13
  -- decoder stage 6
  rw [foldAcc_append]
  rw [decSegB_eval ord hord (sh4 ord b in_ch 512 512) k2 n (nf * 4) 2 2 E14 (50 + 39 * n) (9 + 9 * n) b (if n = 0 then nf * 8 + nf * 8 else nf * 8) (nf * 4) 32 32 64 64 bs hlen14 hlast14 (by omega) hc3_14 (by norm_num) (by norm_num)]
  set E15 := E14 ++ [some (sh4 ord b (nf * 4) 64 64), some (sh4 ord b (nf * 4) 64 64),
      some (sh4 ord b (nf * 4 + nf * 4) 64 64), some (sh4 ord b (nf * 4 + nf * 4) 64 64)] ++ List.replicate (3 * n) (some (sh4 ord b (nf * 4) 64 64)) with hE15
  have hlen15 : E15.length = 54 + 42 * n + 1 := by
    rw [hE15]
    simp only [List.length_append, List.length_cons, List.length_nil,
      List.length_replicate, hlen14]
    omega
  have hlast15 : E15.getD (54 + 42 * n) none = some (sh4 ord b (if n = 0 then nf * 4 + nf * 4 else nf * 4) 64 64) := by
    rw [hE15]
    rw [show (54 + 42 * n : Nat) = E14.length + 3 + 3 * n from by rw [hlen14]; try omega]
    rw [getD_decBLast, ite_some_sh4]
  have hc1_15 : E15.getD (3 + 3 * n) none = some (sh4 ord b (nf) 256 256) := by
    rw [hE15]
    exact getD_peel2 _ _ (by rw [hlen14]; omega) hc1_14
  have hc2_15 : E15.getD (6 + 6 * n) none = some (sh4 ord b (nf * 2) 128 128) := by
    rw [hE15]
    exact getD_peel2 _ _ (by rw [hlen14]; omega) hc2_14
  -- decoder stage 7
  rw [foldAcc_append]
  rw [decSegB_eval ord hord (sh4 ord b in_ch 512 512) k2 n (nf * 2) 2 2 E15 (54 + 42 * n) (6 + 6 * n) b (if n = 0 then nf * 4 + nf * 4 else nf * 4) (nf * 2) 64 64 128 128 bs hlen15 hlast15 (by omega) hc2_15 (by norm_num) (by norm_num)]
  set E16 := E15 ++ [some (sh4 ord b (nf * 2) 128 128), some (sh4 ord b (nf * 2) 128 128),
      some (sh4 ord b (nf * 2 + nf * 2) 128 128), some (sh4 ord b (nf * 2 + nf * 2) 128 128)] ++ List.replicate (3 * n) (some (sh4 ord b (nf * 2) 128 128)) with hE16
  have hlen16 : E16.length = 58 + 45 * n + 1 := by
    rw [hE16]
    simp only [List.length_append, List.length_cons, List.length_nil,
      List.length_replicate, hlen15]
    omega
  have hlast16 : E16.getD (58 + 45 * n) none = some (sh4 ord b (if n = 0 then nf * 2 + nf * 2 else nf * 2) 128 128) := by
    rw [hE16]
    rw [show (58 + 45 * n : Nat) = E15.length + 3 + 3 * n from by rw [hlen15]; try omega]
    rw [getD_decBLast, ite_some_sh4]
  have hc1_16 : E16.getD (3 + 3 * n) none = some (sh4 ord b (nf) 256 256) := by
    rw [hE16]
    exact getD_peel2 _ _ (by rw [hlen15]; omega) hc1_15
  -- decoder stage 8
  rw [foldAcc_append]
  rw [decSegB_eval ord hord (sh4 ord b in_ch 512 512) k2 n (nf) 2 2 E16 (58 + 45 * n) (3 + 3 * n) b (if n = 0 then nf * 2 + nf * 2 else nf * 2) (nf) 128 128 256 256 bs hlen16 hlast16 (by omega) hc1_16 (by norm_num) (by norm_num)]
  set E17 := E16 ++ [some (sh4 ord b (nf) 256 256), some (sh4 ord b (nf) 256 256),
      some (sh4 ord b (nf + nf) 256 256), some (sh4 ord b (nf + nf) 256 256)] ++ List.replicate (3 * n) (some (sh4 ord b (nf) 256 256)) with hE17
  have hlen17 : E17.length = 62 + 48 * n + 1 := by
    rw [hE17]
    simp only [List.length_append, List.length_cons, List.length_nil,
      List.length_replicate, hlen16]
    omega
  have hlast17 : E17.getD (62 + 48 * n) none = some (sh4 ord b (if n = 0 then nf + nf else nf) 256 256) := by
    rw [hE17]
    rw [show (62 + 48 * n : Nat) = E16.length + 3 + 3 * n from by rw [hlen16]; try omega]
    rw [getD_decBLast, ite_some_sh4]
  -- final stage
  rw [finSeg_eval ord hord (sh4 ord b in_ch 512 512) k2 out_ch E17 (62 + 48 * n) b (if n = 0 then nf + nf else nf) 256 256 512 512 bs (if ib = true then "sigmoid" else "tanh") hlen17 hlast17 (by norm_num) (by norm_num)]
  rw [hE17, hE16, hE15, hE14, hE13, hE12, hE11, hE10, hE9, hE8, hE7, hE6, hE5, hE4, hE3, hE2, hE1, hE0]
  simp [unetShapes, List.append_assoc]

/-- Shape inference over the closed-form graph at the key nodes: the
network input, the nine encoder stage outputs, the nine transposed
convolutions, the eight skip concatenations and the network output. -/
theorem unetNodes_eval_facts (ord : String) (hord : ord = "th" ∨ ord = "tf")
    (k2 : Bool) (in_ch out_ch nf bs b : Nat) (ib : Bool) (n : Nat) :
    ((evalShapes ord (sh4 ord b in_ch 512 512)
      (unetNodes k2 ord (inDecl ord in_ch) out_ch nf bs ib n)).getD
      (0) none = some (sh4 ord b in_ch 512 512))
    ∧ ((evalShapes ord (sh4 ord b in_ch 512 512)
      (unetNodes k2 ord (inDecl ord in_ch) out_ch nf bs ib n)).getD
      (3 + 3 * n) none = some (sh4 ord b (nf) 256 256))
    ∧ ((evalShapes ord (sh4 ord b in_ch 512 512)
      (unetNodes k2 ord (inDecl ord in_ch) out_ch nf bs ib n)).getD
      (6 + 6 * n) none = some (sh4 ord b (nf * 2) 128 128))
    ∧ ((evalShapes ord (sh4 ord b in_ch 512 512)
      (unetNodes k2 ord (inDecl ord in_ch) out_ch nf bs ib n)).getD
      (9 + 9 * n) none = some (sh4 ord b (nf * 4) 64 64))
    ∧ ((evalShapes ord (sh4 ord b in_ch 512 512)
      (unetNodes k2 ord (inDecl ord in_ch) out_ch nf bs ib n)).getD
      (12 + 12 * n) none = some (sh4 ord b (nf * 8) 32 32))
    ∧ ((evalShapes ord (sh4 ord b in_ch 512 512)
      (unetNodes k2 ord (inDecl ord in_ch) out_ch nf bs ib n)).getD
      (15 + 15 * n) none = some (sh4 ord b (nf * 8) 16 16))
    ∧ ((evalShapes ord (sh4 ord b in_ch 512 512)
      (unetNodes k2 ord (inDecl ord in_ch) out_ch nf bs ib n)).getD
      (18 + 18 * n) none = some (sh4 ord b (nf * 8) 8 8))
    ∧ ((evalShapes ord (sh4 ord b in_ch 512 512)
      (unetNodes k2 ord (inDecl ord in_ch) out_ch nf bs ib n)).getD
      (21 + 21 * n) none = some (sh4 ord b (nf * 8) 4 4))
    ∧ ((evalShapes ord (sh4 ord b in_ch 512 512)
      (unetNodes k2 ord (inDecl ord in_ch) out_ch nf bs ib n)).getD
      (24 + 24 * n) none = some (sh4 ord b (nf * 8) 2 2))
    ∧ ((evalShapes ord (sh4 ord b in_ch 512 512)
      (unetNodes k2 ord (inDecl ord in_ch) out_ch nf bs ib n)).getD
      (27 + 24 * n) none = some (sh4 ord b (nf * 8) 1 1))
    ∧ ((evalShapes ord (sh4 ord b in_ch 512 512)
      (unetNodes k2 ord (inDecl ord in_ch) out_ch nf bs ib n)).getD
      (28 + 24 * n) none = some (sh4 ord b (nf * 8) 2 2))
    ∧ ((evalShapes ord (sh4 ord b in_ch 512 512)
      (unetNodes k2 ord (inDecl ord in_ch) out_ch nf bs ib n)).getD
      (33 + 27 * n) none = some (sh4 ord b (nf * 8) 4 4))
    ∧ ((evalShapes ord (sh4 ord b in_ch 512 512)
      (unetNodes k2 ord (inDecl ord in_ch) out_ch nf bs ib n)).getD
      (38 + 30 * n) none = some (sh4 ord b (nf * 8) 8 8))
    ∧ ((evalShapes ord (sh4 ord b in_ch 512 512)
      (unetNodes k2 ord (inDecl ord in_ch) out_ch nf bs ib n)).getD
      (43 + 33 * n) none = some (sh4 ord b (nf * 8) 16 16))
    ∧ ((evalShapes ord (sh4 ord b in_ch 512 512)
      (unetNodes k2 ord (inDecl ord in_ch) out_ch nf bs ib n)).getD
      (47 + 36 * n) none = some (sh4 ord b (nf * 8) 32 32))
    ∧ ((evalShapes ord (sh4 ord b in_ch 512 512)
      (unetNodes k2 ord (inDecl ord in_ch) out_ch nf bs ib n)).getD
      (51 + 39 * n) none = some (sh4 ord b (nf * 4) 64 64))
    ∧ ((evalShapes ord (sh4 ord b in_ch 512 512)
      (unetNodes k2 ord (inDecl ord in_ch) out_ch nf bs ib n)).getD
      (55 + 42 * n) none = some (sh4 ord b (nf * 2) 128 128))
    ∧ ((evalShapes ord (sh4 ord b in_ch 512 512)
      (unetNodes k2 ord (inDecl ord in_ch) out_ch nf bs ib n)).getD
      (59 + 45 * n) none = some (sh4 ord b (nf) 256 256))
    ∧ ((evalShapes ord (sh4 ord b in_ch 512 512)
      (unetNodes k2 ord (inDecl ord in_ch) out_ch nf bs ib n)).getD
      (63 + 48 * n) none = some (sh4 ord b out_ch 512 512))
    ∧ ((evalShapes ord (sh4 ord b in_ch 512 512)
      (unetNodes k2 ord (inDecl ord in_ch) out_ch nf bs ib n)).getD
      (31 + 24 * n) none = some (sh4 ord b (nf * 8 + nf * 8) 2 2))
    ∧ ((evalShapes ord (sh4 ord b in_ch 512 512)
      (unetNodes k2 ord (inDecl ord in_ch) out_ch nf bs ib n)).getD
      (36 + 27 * n) none = some (sh4 ord b (nf * 8 + nf * 8) 4 4))
    ∧ ((evalShapes ord (sh4 ord b in_ch 512 512)
      (unetNodes k2 ord (inDecl ord in_ch) out_ch nf bs ib n)).getD
      (41 + 30 * n) none = some (sh4 ord b (nf * 8 + nf * 8) 8 8))
    ∧ ((evalShapes ord (sh4 ord b in_ch 512 512)
      (unetNodes k2 ord (inDecl ord in_ch) out_ch nf bs ib n)).getD
      (45 + 33 * n) none = some (sh4 ord b (nf * 8 + nf * 8) 16 16))
    ∧ ((evalShapes ord (sh4 ord b in_ch 512 512)
      (unetNodes k2 ord (inDecl ord in_ch) out_ch nf bs ib n)).getD
      (49 + 36 * n) none = some (sh4 ord b (nf * 8 + nf * 8) 32 32))
    ∧ ((evalShapes ord (sh4 ord b in_ch 512 512)
      (unetNodes k2 ord (inDecl ord in_ch) out_ch nf bs ib n)).getD
      (53 + 39 * n) none = some (sh4 ord b (nf * 4 + nf * 4) 64 64))
    ∧ ((evalShapes ord (sh4 ord b in_ch 512 512)
      (unetNodes k2 ord (inDecl ord in_ch) out_ch nf bs ib n)).getD
      (57 + 42 * n) none = some (sh4 ord b (nf * 2 + nf * 2) 128 128))
    ∧ ((evalShapes ord (sh4 ord b in_ch 512 512)
      (unetNodes k2 ord (inDecl ord in_ch) out_ch nf bs ib n)).getD
      (61 + 45 * n) none = some (sh4 ord b (nf + nf) 256 256))
    ∧ ((evalShapes ord (sh4 ord b in_ch 512 512)
      (unetNodes k2 ord (inDecl ord in_ch) out_ch nf bs ib n)).getD
      (64 + 48 * n) none = some (sh4 ord b out_ch 512 512))
    := by
  have hs1 : convOutDim 512 3 2 "same" = some 256 := by norm_num [convOutDim]
  have hs2 : convOutDim 256 3 2 "same" = some 128 := by norm_num [convOutDim]
  have hs3 : convOutDim 128 3 2 "same" = some 64 := by norm_num [convOutDim]
  have hs4 : convOutDim 64 3 2 "same" = some 32 := by norm_num [convOutDim]
  have hs5 : convOutDim 32 3 2 "same" = some 16 := by norm_num [convOutDim]
  have hs6 : convOutDim 16 3 2 "same" = some 8 := by norm_num [convOutDim]
  have hs7 : convOutDim 8 3 2 "same" = some 4 := by norm_num [convOutDim]
  have hs8 : convOutDim 4 3 2 "same" = some 2 := by norm_num [convOutDim]
  have hs9 : convOutDim 2 2 1 "valid" = some 1 := by decide
  have hev : evalShapes ord (sh4 ord b in_ch 512 512)
      (unetNodes k2 ord (inDecl ord in_ch) out_ch nf bs ib n) =
    foldAcc ord (sh4 ord b in_ch 512 512) []
      (unetNodes k2 ord (inDecl ord in_ch) out_ch nf bs ib n) := rfl
  rw [unetNodes, unetSegments] at hev
  simp only [List.flatten_cons, List.flatten_nil, List.append_nil] at hev
  rw [foldAcc_append] at hev
  rw [show foldAcc ord (sh4 ord b in_ch 512 512) []
      [(⟨Layer.inputL (inDecl ord in_ch), []⟩ : BuiltNode)] =
    [] ++ [some (sh4 ord b in_ch 512 512)] from by
      rw [foldAcc_cons, stepAcc_inputL ord hord b in_ch []]
      rfl] at hev
  simp only [List.nil_append] at hev
  set E0 := [some (sh4 ord b in_ch 512 512)] with hE0
  have hlen0 : E0.length = 0 + 1 := by rw [hE0]; rfl
  have f0_0 : E0.getD 0 none = some (sh4 ord b in_ch 512 512) := by rw [hE0]; rfl
  -- encoder stage 1
  rw [foldAcc_append] at hev
  rw [encSeg_eval ord hord (sh4 ord b in_ch 512 512) k2 n (nf) 3 2 "same" E0 (0) b (in_ch) 512 512 256 256 hlen0 f0_0 hs1 hs1] at hev
  set E1 := E0 ++ [some (sh4 ord b (nf) 256 256), some (sh4 ord b (nf) 256 256), some (sh4 ord b (nf) 256 256)] ++ List.replicate (3 * n) (some (sh4 ord b (nf) 256 256)) with hE1
  have hlen1 : E1.length = 3 + 3 * n + 1 := by
    rw [hE1]
    simp only [List.length_append, List.length_cons, List.length_nil,
      List.length_replicate, hlen0]
    omega
  have f0_1 : E1.getD (0) none = some (sh4 ord b in_ch 512 512) := by
    rw [hE1]
    exact getD_peel2 _ _ (by rw [hlen0]; try omega) f0_0
  have fe1_1 : E1.getD (3 + 3 * n) none = some (sh4 ord b (nf) 256 256) := by
    rw [hE1]
    rw [show (3 + 3 * n : Nat) = E0.length + 2 + 3 * n from by rw [hlen0]; try omega]
    exact getD_encLast _ _ _ _
  -- encoder stage 2
  rw [foldAcc_append] at hev
  rw [encSeg_eval ord hord (sh4 ord b in_ch 512 512) k2 n (nf * 2) 3 2 "same" E1 (3 + 3 * n) b (nf) 256 256 128 128 hlen1 fe1_1 hs2 hs2] at hev
  set E2 := E1 ++ [some (sh4 ord b (nf * 2) 128 128), some (sh4 ord b (nf * 2) 128 128), some (sh4 ord b (nf * 2) 128 128)] ++ List.replicate (3 * n) (some (sh4 ord b (nf * 2) 128 128)) with hE2
  have hlen2 : E2.length = 6 + 6 * n + 1 := by
    rw [hE2]
    simp only [List.length_append, List.length_cons, List.length_nil,
      List.length_replicate, hlen1]
    omega
  have f0_2 : E2.getD (0) none = some (sh4 ord b in_ch 512 512) := by
    rw [hE2]
    exact getD_peel2 _ _ (by rw [hlen1]; try omega) f0_1
  have fe1_2 : E2.getD (3 + 3 * n) none = some (sh4 ord b (nf) 256 256) := by
    rw [hE2]
    exact getD_peel2 _ _ (by rw [hlen1]; try omega) fe1_1
  have fe2_2 : E2.getD (6 + 6 * n) none = some (sh4 ord b (nf * 2) 128 128) := by
    rw [hE2]
    rw [show (6 + 6 * n : Nat) = E1.length + 2 + 3 * n from by rw [hlen1]; try omega]
    exact getD_encLast _ _ _ _
  -- encoder stage 3
  rw [foldAcc_append] at hev
  rw [encSeg_eval ord hord (sh4 ord b in_ch 512 512) k2 n (nf * 4) 3 2 "same" E2 (6 + 6 * n) b (nf * 2) 128 128 64 64 hlen2 fe2_2 hs3 hs3] at hev
  set E3 := E2 ++ [some (sh4 ord b (nf * 4) 64 64), some (sh4 ord b (nf * 4) 64 64), some (sh4 ord b (nf * 4) 64 64)] ++ List.replicate (3 * n) (some (sh4 ord b (nf * 4) 64 64)) with hE3
  have hlen3 : E3.length = 9 + 9 * n + 1 := by
    rw [hE3]
    simp only [List.length_append, List.length_cons, List.length_nil,
      List.length_replicate, hlen2]
    omega
  have f0_3 : E3.getD (0) none = some (sh4 ord b in_ch 512 512) := by
    rw [hE3]
    exact getD_peel2 _ _ (by rw [hlen2]; try omega) f0_2
  have fe1_3 : E3.getD (3 + 3 * n) none = some (sh4 ord b (nf) 256 256) := by
    rw [hE3]
    exact getD_peel2 _ _ (by rw [hlen2]; try omega) fe1_2
  have fe2_3 : E3.getD (6 + 6 * n) none = some (sh4 ord b (nf * 2) 128 128) := by
    rw [hE3]
    exact getD_peel2 _ _ (by rw [hlen2]; try omega) fe2_2
  have fe3_3 : E3.getD (9 + 9 * n) none = some (sh4 ord b (nf * 4) 64 64) := by
    rw [hE3]
    rw [show (9 + 9 * n : Nat) = E2.length + 2 + 3 * n from by rw [hlen2]; try omega]
    exact getD_encLast _ _ _ _
  -- encoder stage 4
  rw [foldAcc_append] at hev
  rw [encSeg_eval ord hord (sh4 ord b in_ch 512 512) k2 n (nf * 8) 3 2 "same" E3 (9 + 9 * n) b (nf * 4) 64 64 32 32 hlen3 fe3_3 hs4 hs4] at hev
  set E4 := E3 ++ [some (sh4 ord b (nf * 8) 32 32), some (sh4 ord b (nf * 8) 32 32), some (sh4 ord b (nf * 8) 32 32)] ++ List.replicate (3 * n) (some (sh4 ord b (nf * 8) 32 32)) with hE4
  have hlen4 : E4.length = 12 + 12 * n + 1 := by
    rw [hE4]
    simp only [List.length_append, List.length_cons, List.length_nil,
      List.length_replicate, hlen3]
    omega
  have f0_4 : E4.getD (0) none = some (sh4 ord b in_ch 512 512) := by
    rw [hE4]
    exact getD_peel2 _ _ (by rw [hlen3]; try omega) f0_3
  have fe1_4 : E4.getD (3 + 3 * n) none = some (sh4 ord b (nf) 256 256) := by
    rw [hE4]
    exact getD_peel2 _ _ (by rw [hlen3]; try omega) fe1_3
  have fe2_4 : E4.getD (6 + 6 * n) none = some (sh4 ord b (nf * 2) 128 128) := by
    rw [hE4]
    exact getD_peel2 _ _ (by rw [hlen3]; try omega) fe2_3
  have fe3_4 : E4.getD (9 + 9 * n) none = some (sh4 ord b (nf * 4) 64 64) := by
    rw [hE4]
    exact getD_peel2 _ _ (by rw [hlen3]; try omega) fe3_3
  have fe4_4 : E4.getD (12 + 12 * n) none = some (sh4 ord b (nf * 8) 32 32) := by
    rw [hE4]
    rw [show (12 + 12 * n : Nat) = E3.length + 2 + 3 * n from by rw [hlen3]; try omega]
    exact getD_encLast _ _ _ _
  -- encoder stage 5
  rw [foldAcc_append] at hev
  rw [encSeg_eval ord hord (sh4 ord b in_ch 512 512) k2 n (nf * 8) 3 2 "same" E4 (12 + 12 * n) b (nf * 8) 32 32 16 16 hlen4 fe4_4 hs5 hs5] at hev
  set E5 := E4 ++ [some (sh4 ord b (nf * 8) 16 16), some (sh4 ord b (nf * 8) 16 16), some (sh4 ord b (nf * 8) 16 16)] ++ List.replicate (3 * n) (some (sh4 ord b (nf * 8) 16 16)) with hE5
  have hlen5 : E5.length = 15 + 15 * n + 1 := by
    rw [hE5]
    simp only [List.length_append, List.length_cons, List.length_nil,
      List.length_replicate, hlen4]
    omega
  have f0_5 : E5.getD (0) none = some (sh4 ord b in_ch 512 512) := by
    rw [hE5]
    exact getD_peel2 _ _ (by rw [hlen4]; try omega) f0_4
  have fe1_5 : E5.getD (3 + 3 * n) none = some (sh4 ord b (nf) 256 256) := by
    rw [hE5]
    exact getD_peel2 _ _ (by rw [hlen4]; try omega) fe1_4
  have fe2_5 : E5.getD (6 + 6 * n) none = some (sh4 ord b (nf * 2) 128 128) := by
    rw [hE5]
    exact getD_peel2 _ _ (by rw [hlen4]; try omega) fe2_4
  have fe3_5 : E5.getD (9 + 9 * n) none = some (sh4 ord b (nf * 4) 64 64) := by
    rw [hE5]
    exact getD_peel2 _ _ (by rw [hlen4]; try omega) fe3_4
  have fe4_5 : E5.getD (12 + 12 * n) none = some (sh4 ord b (nf * 8) 32 32) := by
    rw [hE5]
    exact getD_peel2 _ _ (by rw [hlen4]; try omega) fe4_4
  have fe5_5 : E5.getD (15 + 15 * n) none = some (sh4 ord b (nf * 8) 16 16) := by
    rw [hE5]
    rw [show (15 + 15 * n : Nat) = E4.length + 2 + 3 * n from by rw [hlen4]; try omega]
    exact getD_encLast _ _ _ _
  -- encoder stage 6
  rw [foldAcc_append] at hev
  rw [encSeg_eval ord hord (sh4 ord b in_ch 512 512) k2 n (nf * 8) 3 2 "same" E5 (15 + 15 * n) b (nf * 8) 16 16 8 8 hlen5 fe5_5 hs6 hs6] at hev
  set E6 := E5 ++ [some (sh4 ord b (nf * 8) 8 8), some (sh4 ord b (nf * 8) 8 8), some (sh4 ord b (nf * 8) 8 8)] ++ List.replicate (3 * n) (some (sh4 ord b (nf * 8) 8 8)) with hE6
  have hlen6 : E6.length = 18 + 18 * n + 1 := by
    rw [hE6]
    simp only [List.length_append, List.length_cons, List.length_nil,
      List.length_replicate, hlen5]
    omega
  have f0_6 : E6.getD (0) none = some (sh4 ord b in_ch 512 512) := by
    rw [hE6]
    exact getD_peel2 _ _ (by rw [hlen5]; try omega) f0_5
  have fe1_6 : E6.getD (3 + 3 * n) none = some (sh4 ord b (nf) 256 256) := by
    rw [hE6]
    exact getD_peel2 _ _ (by rw [hlen5]; try omega) fe1_5
  have fe2_6 : E6.getD (6 + 6 * n) none = some (sh4 ord b (nf * 2) 128 128) := by
    rw [hE6]
    exact getD_peel2 _ _ (by rw [hlen5]; try omega) fe2_5
  have fe3_6 : E6.getD (9 + 9 * n) none = some (sh4 ord b (nf * 4) 64 64) := by
    rw [hE6]
    exact getD_peel2 _ _ (by rw [hlen5]; try omega) fe3_5
  have fe4_6 : E6.getD (12 + 12 * n) none = some (sh4 ord b (nf * 8) 32 32) := by
    rw [hE6]
    exact getD_peel2 _ _ (by rw [hlen5]; try omega) fe4_5
  have fe5_6 : E6.getD (15 + 15 * n) none = some (sh4 ord b (nf * 8) 16 16) := by
    rw [hE6]
    exact getD_peel2 _ _ (by rw [hlen5]; try omega) fe5_5
  have fe6_6 : E6.getD (18 + 18 * n) none = some (sh4 ord b (nf * 8) 8 8) := by
    rw [hE6]
    rw [show (18 + 18 * n : Nat) = E5.length + 2 + 3 * n from by rw [hlen5]; try omega]
    exact getD_encLast _ _ _ _
  -- encoder stage 7
  rw [foldAcc_append] at hev
  rw [encSeg_eval ord hord (sh4 ord b in_ch 512 512) k2 n (nf * 8) 3 2 "same" E6 (18 + 18 * n) b (nf * 8) 8 8 4 4 hlen6 fe6_6 hs7 hs7] at hev
  set E7 := E6 ++ [some (sh4 ord b (nf * 8) 4 4), some (sh4 ord b (nf * 8) 4 4), some (sh4 ord b (nf * 8) 4 4)] ++ List.replicate (3 * n) (some (sh4 ord b (nf * 8) 4 4)) with hE7
  have hlen7 : E7.length = 21 + 21 * n + 1 := by
    rw [hE7]
    simp only [List.length_append, List.length_cons, List.length_nil,
      List.length_replicate, hlen6]
    omega
  have f0_7 : E7.getD (0) none = some (sh4 ord b in_ch 512 512) := by
    rw [hE7]
    exact getD_peel2 _ _ (by rw [hlen6]; try omega) f0_6
  have fe1_7 : E7.getD (3 + 3 * n) none = some (sh4 ord b (nf) 256 256) := by
    rw [hE7]
    exact getD_peel2 _ _ (by rw [hlen6]; try omega) fe1_6
  have fe2_7 : E7.getD (6 + 6 * n) none = some (sh4 ord b (nf * 2) 128 128) := by
    rw [hE7]
    exact getD_peel2 _ _ (by rw [hlen6]; try omega) fe2_6
  have fe3_7 : E7.getD (9 + 9 * n) none = some (sh4 ord b (nf * 4) 64 64) := by
    rw [hE7]
    exact getD_peel2 _ _ (by rw [hlen6]; try omega) fe3_6
  have fe4_7 : E7.getD (12 + 12 * n) none = some (sh4 ord b (nf * 8) 32 32) := by
    rw [hE7]
    exact getD_peel2 _ _ (by rw [hlen6]; try omega) fe4_6
  have fe5_7 : E7.getD (15 + 15 * n) none = some (sh4 ord b (nf * 8) 16 16) := by
    rw [hE7]
    exact getD_peel2 _ _ (by rw [hlen6]; try omega) fe5_6
  have fe6_7 : E7.getD (18 + 18 * n) none = some (sh4 ord b (nf * 8) 8 8) := by
    rw [hE7]
    exact getD_peel2 _ _ (by rw [hlen6]; try omega) fe6_6
  have fe7_7 : E7.getD (21 + 21 * n) none = some (sh4 ord b (nf * 8) 4 4) := by
    rw [hE7]
    rw [show (21 + 21 * n : Nat) = E6.length + 2 + 3 * n from by rw [hlen6]; try omega]
    exact getD_encLast _ _ _ _
  -- encoder stage 8
  rw [foldAcc_append] at hev
  rw [encSeg_eval ord hord (sh4 ord b in_ch 512 512) k2 n (nf * 8) 3 2 "same" E7 (21 + 21 * n) b (nf * 8) 4 4 2 2 hlen7 fe7_7 hs8 hs8] at hev
  set E8 := E7 ++ [some (sh4 ord b (nf * 8) 2 2), some (sh4 ord b (nf * 8) 2 2), some (sh4 ord b (nf * 8) 2 2)] ++ List.replicate (3 * n) (some (sh4 ord b (nf * 8) 2 2)) with hE8
  have hlen8 : E8.length = 24 + 24 * n + 1 := by
    rw [hE8]
    simp only [List.length_append, List.length_cons, List.length_nil,
      List.length_replicate, hlen7]
    omega
  have f0_8 : E8.getD (0) none = some (sh4 ord b in_ch 512 512) := by
    rw [hE8]
    exact getD_peel2 _ _ (by rw [hlen7]; try omega) f0_7
  have fe1_8 : E8.getD (3 + 3 * n) none = some (sh4 ord b (nf) 256 256) := by
    rw [hE8]
    exact getD_peel2 _ _ (by rw [hlen7]; try omega) fe1_7
  have fe2_8 : E8.getD (6 + 6 * n) none = some (sh4 ord b (nf * 2) 128 128) := by
    rw [hE8]
    exact getD_peel2 _ _ (by rw [hlen7]; try omega) fe2_7
  have fe3_8 : E8.getD (9 + 9 * n) none = some (sh4 ord b (nf * 4) 64 64) := by
    rw [hE8]
    exact getD_peel2 _ _ (by rw [hlen7]; try omega) fe3_7
  have fe4_8 : E8.getD (12 + 12 * n) none = some (sh4 ord b (nf * 8) 32 32) := by
    rw [hE8]
    exact getD_peel2 _ _ (by rw [hlen7]; try omega) fe4_7
  have fe5_8 : E8.getD (15 + 15 * n) none = some (sh4 ord b (nf * 8) 16 16) := by
    rw [hE8]
    exact getD_peel2 _ _ (by rw [hlen7]; try omega) fe5_7
  have fe6_8 : E8.getD (18 + 18 * n) none = some (sh4 ord b (nf * 8) 8 8) := by
    rw [hE8]
    exact getD_peel2 _ _ (by rw [hlen7]; try omega) fe6_7
  have fe7_8 : E8.getD (21 + 21 * n) none = some (sh4 ord b (nf * 8) 4 4) := by
    rw [hE8]
    exact getD_peel2 _ _ (by rw [hlen7]; try omega) fe7_7
  have fe8_8 : E8.getD (24 + 24 * n) none = some (sh4 ord b (nf * 8) 2 2) := by
    rw [hE8]
    rw [show (24 + 24 * n : Nat) = E7.length + 2 + 3 * n from by rw [hlen7]; try omega]
    exact getD_encLast _ _ _ _
  -- encoder stage 9
  rw [foldAcc_append] at hev
  rw [encSeg_eval ord hord (sh4 ord b in_ch 512 512) k2 0 (nf * 8) 2 1 "valid" E8 (24 + 24 * n) b (nf * 8) 2 2 1 1 hlen8 fe8_8 hs9 hs9] at hev
  set E9 := E8 ++ [some (sh4 ord b (nf * 8) 1 1), some (sh4 ord b (nf * 8) 1 1), some (sh4 ord b (nf * 8) 1 1)] ++ List.replicate (3 * 0) (some (sh4 ord b (nf * 8) 1 1)) with hE9
  have hlen9 : E9.length = 27 + 24 * n + 1 := by
    rw [hE9]
    simp only [List.length_append, List.length_cons, List.length_nil,
      List.length_replicate, hlen8]
    omega
  have f0_9 : E9.getD (0) none = some (sh4 ord b in_ch 512 512) := by
    rw [hE9]
    exact getD_peel2 _ _ (by rw [hlen8]; try omega) f0_8
  have fe1_9 : E9.getD (3 + 3 * n) none = some (sh4 ord b (nf) 256 256) := by
    rw [hE9]
    exact getD_peel2 _ _ (by rw [hlen8]; try omega) fe1_8
  have fe2_9 : E9.getD (6 + 6 * n) none = some (sh4 ord b (nf * 2) 128 128) := by
    rw [hE9]
    exact getD_peel2 _ _ (by rw [hlen8]; try omega) fe2_8
  have fe3_9 : E9.getD (9 + 9 * n) none = some (sh4 ord b (nf * 4) 64 64) := by
    rw [hE9]
    exact getD_peel2 _ _ (by rw [hlen8]; try omega) fe3_8
  have fe4_9 : E9.getD (12 + 12 * n) none = some (sh4 ord b (nf * 8) 32 32) := by
    rw [hE9]
    exact getD_peel2 _ _ (by rw [hlen8]; try omega) fe4_8
  have fe5_9 : E9.getD (15 + 15 * n) none = some (sh4 ord b (nf * 8) 16 16) := by
    rw [hE9]
    exact getD_peel2 _ _ (by rw [hlen8]; try omega) fe5_8
  have fe6_9 : E9.getD (18 + 18 * n) none = some (sh4 ord b (nf * 8) 8 8) := by
    rw [hE9]
    exact getD_peel2 _ _ (by rw [hlen8]; try omega) fe6_8
  have fe7_9 : E9.getD (21 + 21 * n) none = some (sh4 ord b (nf * 8) 4 4) := by
    rw [hE9]
    exact getD_peel2 _ _ (by rw [hlen8]; try omega) fe7_8
  have fe8_9 : E9.getD (24 + 24 * n) none = some (sh4 ord b (nf * 8) 2 2) := by
    rw [hE9]
    exact getD_peel2 _ _ (by rw [hlen8]; try omega) fe8_8
  have fe9_9 : E9.getD (27 + 24 * n) none = some (sh4 ord b (nf * 8) 1 1) := by
    rw [hE9]
    rw [show (27 + 24 * n : Nat) = E8.length + 2 + 3 * 0 from by rw [hlen8]; try omega]
    exact getD_encLast _ _ _ _
  -- decoder stage 1
  rw [foldAcc_append] at hev
  rw [decSegA_eval ord hord (sh4 ord b in_ch 512 512) k2 n (nf * 8) 2 1 E9 (27 + 24 * n) (24 + 24 * n) b (nf * 8) (nf * 8) 1 1 2 2 bs hlen9 fe9_9 (by omega) fe8_9 (by norm_num) (by norm_num)] at hev
  set E10 := E9 ++ [some (sh4 ord b (nf * 8) 2 2), some (sh4 ord b (nf * 8) 2 2), some (sh4 ord b (nf * 8) 2 2), some (sh4 ord b (nf * 8 + nf * 8) 2 2), some (sh4 ord b (nf * 8 + nf * 8) 2 2)] ++ List.replicate (3 * n) (some (sh4 ord b (nf * 8) 2 2)) with hE10
  have hlen10 : E10.length = 32 + 27 * n + 1 := by
    rw [hE10]
    simp only [List.length_append, List.length_cons, List.length_nil,
      List.length_replicate, hlen9]
    omega
  have f0_10 : E10.getD (0) none = some (sh4 ord b in_ch 512 512) := by
    rw [hE10]
    exact getD_peel2 _ _ (by rw [hlen9]; try omega) f0_9
  have fe1_10 : E10.getD (3 + 3 * n) none = some (sh4 ord b (nf) 256 256) := by
    rw [hE10]
    exact getD_peel2 _ _ (by rw [hlen9]; try omega) fe1_9
  have fe2_10 : E10.getD (6 + 6 * n) none = some (sh4 ord b (nf * 2) 128 128) := by
    rw [hE10]
    exact getD_peel2 _ _ (by rw [hlen9]; try omega) fe2_9
  have fe3_10 : E10.getD (9 + 9 * n) none = some (sh4 ord b (nf * 4) 64 64) := by
    rw [hE10]
    exact getD_peel2 _ _ (by rw [hlen9]; try omega) fe3_9
  have fe4_10 : E10.getD (12 + 12 * n) none = some (sh4 ord b (nf * 8) 32 32) := by
    rw [hE10]
    exact getD_peel2 _ _ (by rw [hlen9]; try omega) fe4_9
  have fe5_10 : E10.getD (15 + 15 * n) none = some (sh4 ord b (nf * 8) 16 16) := by
    rw [hE10]
    exact getD_peel2 _ _ (by rw [hlen9]; try omega) fe5_9
  have fe6_10 : E10.getD (18 + 18 * n) none = some (sh4 ord b (nf * 8) 8 8) := by
    rw [hE10]
    exact getD_peel2 _ _ (by rw [hlen9]; try omega) fe6_9
  have fe7_10 : E10.getD (21 + 21 * n) none = some (sh4 ord b (nf * 8) 4 4) := by
    rw [hE10]
    exact getD_peel2 _ _ (by rw [hlen9]; try omega) fe7_9
  have fe8_10 : E10.getD (24 + 24 * n) none = some (sh4 ord b (nf * 8) 2 2) := by
    rw [hE10]
    exact getD_peel2 _ _ (by rw [hlen9]; try omega) fe8_9
  have fe9_10 : E10.getD (27 + 24 * n) none = some (sh4 ord b (nf * 8) 1 1) := by
    rw [hE10]
    exact getD_peel2 _ _ (by rw [hlen9]; try omega) fe9_9
  have hlast10 : E10.getD (32 + 27 * n) none = some (sh4 ord b (if n = 0 then nf * 8 + nf * 8 else nf * 8) 2 2) := by
    rw [hE10]
    rw [show (32 + 27 * n : Nat) = E9.length + 4 + 3 * n from by rw [hlen9]; try omega]
    rw [getD_decALast, ite_some_sh4]
  have fd1_10 : E10.getD (28 + 24 * n) none = some (sh4 ord b (nf * 8) 2 2) := by
    rw [hE10]
    rw [show (28 + 24 * n : Nat) = E9.length + 0 from by rw [hlen9]; try omega]
    rw [getD_blockAt _ _ _ 0 none (by simp)]
    rfl
  have fc1_10 : E10.getD (31 + 24 * n) none = some (sh4 ord b (nf * 8 + nf * 8) 2 2) := by
    rw [hE10]
    rw [show (31 + 24 * n : Nat) = E9.length + 3 from by rw [hlen9]; try omega]
    rw [getD_blockAt _ _ _ 3 none (by simp)]
    rfl
  -- decoder stage 2
  rw [foldAcc_append] at hev
  rw [decSegA_eval ord hord (sh4 ord b in_ch 512 512) k2 n (nf * 8) 2 2 E10 (32 + 27 * n) (21 + 21 * n) b (if n = 0 then nf * 8 + nf * 8 else nf * 8) (nf * 8) 2 2 4 4 bs hlen10 hlast10 (by omega) fe7_10 (by norm_num) (by norm_num)] at hev
  set E11 := E10 ++ [some (sh4 ord b (nf * 8) 4 4), some (sh4 ord b (nf * 8) 4 4), some (sh4 ord b (nf * 8) 4 4), some (sh4 ord b (nf * 8 + nf * 8) 4 4), some (sh4 ord b (nf * 8 + nf * 8) 4 4)] ++ List.replicate (3 * n) (some (sh4 ord b (nf * 8) 4 4)) with hE11
  have hlen11 : E11.length = 37 + 30 * n + 1 := by
    rw [hE11]
    simp only [List.length_append, List.length_cons, List.length_nil,
      List.length_replicate, hlen10]
    omega
  have f0_11 : E11.getD (0) none = some (sh4 ord b in_ch 512 512) := by
    rw [hE11]
    exact getD_peel2 _ _ (by rw [hlen10]; try omega) f0_10
  have fe1_11 : E11.getD (3 + 3 * n) none = some (sh4 ord b (nf) 256 256) := by
    rw [hE11]
    exact getD_peel2 _ _ (by rw [hlen10]; try omega) fe1_10
  have fe2_11 : E11.getD (6 + 6 * n) none = some (sh4 ord b (nf * 2) 128 128) := by
    rw [hE11]
    exact getD_peel2 _ _ (by rw [hlen10]; try omega) fe2_10
  have fe3_11 : E11.getD (9 + 9 * n) none = some (sh4 ord b (nf * 4) 64 64) := by
    rw [hE11]
    exact getD_peel2 _ _ (by rw [hlen10]; try omega) fe3_10
  have fe4_11 : E11.getD (12 + 12 * n) none = some (sh4 ord b (nf * 8) 32 32) := by
    rw [hE11]
    exact getD_peel2 _ _ (by rw [hlen10]; try omega) fe4_10
  have fe5_11 : E11.getD (15 + 15 * n) none = some (sh4 ord b (nf * 8) 16 16) := by
    rw [hE11]
    exact getD_peel2 _ _ (by rw [hlen10]; try omega) fe5_10
  have fe6_11 : E11.getD (18 + 18 * n) none = some (sh4 ord b (nf * 8) 8 8) := by
    rw [hE11]
    exact getD_peel2 _ _ (by rw [hlen10]; try omega) fe6_10
  have fe7_11 : E11.getD (21 + 21 * n) none = some (sh4 ord b (nf * 8) 4 4) := by
    rw [hE11]
    exact getD_peel2 _ _ (by rw [hlen10]; try omega) fe7_10
  have fe8_11 : E11.getD (24 + 24 * n) none = some (sh4 ord b (nf * 8) 2 2) := by
    rw [hE11]
    exact getD_peel2 _ _ (by rw [hlen10]; try omega) fe8_10
  have fe9_11 : E11.getD (27 + 24 * n) none = some (sh4 ord b (nf * 8) 1 1) := by
    rw [hE11]
    exact getD_peel2 _ _ (by rw [hlen10]; try omega) fe9_10
  have fd1_11 : E11.getD (28 + 24 * n) none = some (sh4 ord b (nf * 8) 2 2) := by
    rw [hE11]
    exact getD_peel2 _ _ (by rw [hlen10]; try omega) fd1_10
  have fc1_11 : E11.getD (31 + 24 * n) none = some (sh4 ord b (nf * 8 + nf * 8) 2 2) := by
    rw [hE11]
    exact getD_peel2 _ _ (by rw [hlen10]; try omega) fc1_10
  have hlast11 : E11.getD (37 + 30 * n) none = some (sh4 ord b (if n = 0 then nf * 8 + nf * 8 else nf * 8) 4 4) := by
    rw [hE11]
    rw [show (37 + 30 * n : Nat) = E10.length + 4 + 3 * n from by rw [hlen10]; try omega]
    rw [getD_decALast, ite_some_sh4]
  have fd2_11 : E11.getD (33 + 27 * n) none = some (sh4 ord b (nf * 8) 4 4) := by
    rw [hE11]
    rw [show (33 + 27 * n : Nat) = E10.length + 0 from by rw [hlen10]; try omega]
    rw [getD_blockAt _ _ _ 0 none (by simp)]
    rfl
  have fc2_11 : E11.getD (36 + 27 * n) none = some (sh4 ord b (nf * 8 + nf * 8) 4 4) := by
    rw [hE11]
    rw [show (36 + 27 * n : Nat) = E10.length + 3 from by rw [hlen10]; try omega]
    rw [getD_blockAt _ _ _ 3 none (by simp)]
    rfl
  -- decoder stage 3
  rw [foldAcc_append] at hev
  rw [decSegA_eval ord hord (sh4 ord b in_ch 512 512) k2 n (nf * 8) 2 2 E11 (37 + 30 * n) (18 + 18 * n) b (if n = 0 then nf * 8 + nf * 8 else nf * 8) (nf * 8) 4 4 8 8 bs hlen11 hlast11 (by omega) fe6_11 (by norm_num) (by norm_num)] at hev
  set E12 := E11 ++ [some (sh4 ord b (nf * 8) 8 8), some (sh4 ord b (nf * 8) 8 8), some (sh4 ord b (nf * 8) 8 8), some (sh4 ord b (nf * 8 + nf * 8) 8 8), some (sh4 ord b (nf * 8 + nf * 8) 8 8)] ++ List.replicate (3 * n) (some (sh4 ord b (nf * 8) 8 8)) with hE12
  have hlen12 : E12.length = 42 + 33 * n + 1 := by
    rw [hE12]
    simp only [List.length_append, List.length_cons, List.length_nil,
      List.length_replicate, hlen11]
    omega
  have f0_12 : E12.getD (0) none = some (sh4 ord b in_ch 512 512) := by
    rw [hE12]
    exact getD_peel2 _ _ (by rw [hlen11]; try omega) f0_11
  have fe1_12 : E12.getD (3 + 3 * n) none = some (sh4 ord b (nf) 256 256) := by
    rw [hE12]
    exact getD_peel2 _ _ (by rw [hlen11]; try omega) fe1_11
  have fe2_12 : E12.getD (6 + 6 * n) none = some (sh4 ord b (nf * 2) 128 128) := by
    rw [hE12]
    exact getD_peel2 _ _ (by rw [hlen11]; try omega) fe2_11
  have fe3_12 : E12.getD (9 + 9 * n) none = some (sh4 ord b (nf * 4) 64 64) := by
    rw [hE12]
    exact getD_peel2 _ _ (by rw [hlen11]; try omega) fe3_11
  have fe4_12 : E12.getD (12 + 12 * n) none = some (sh4 ord b (nf * 8) 32 32) := by
    rw [hE12]
    exact getD_peel2 _ _ (by rw [hlen11]; try omega) fe4_11
  have fe5_12 : E12.getD (15 + 15 * n) none = some (sh4 ord b (nf * 8) 16 16) := by
    rw [hE12]
    exact getD_peel2 _ _ (by rw [hlen11]; try omega) fe5_11
  have fe6_12 : E12.getD (18 + 18 * n) none = some (sh4 ord b (nf * 8) 8 8) := by
    rw [hE12]
    exact getD_peel2 _ _ (by rw [hlen11]; try omega) fe6_11
  have fe7_12 : E12.getD (21 + 21 * n) none = some (sh4 ord b (nf * 8) 4 4) := by
    rw [hE12]
    exact getD_peel2 _ _ (by rw [hlen11]; try omega) fe7_11
  have fe8_12 : E12.getD (24 + 24 * n) none = some (sh4 ord b (nf * 8) 2 2) := by
    rw [hE12]
    exact getD_peel2 _ _ (by rw [hlen11]; try omega) fe8_11
  have fe9_12 : E12.getD (27 + 24 * n) none = some (sh4 ord b (nf * 8) 1 1) := by
    rw [hE12]
    exact getD_peel2 _ _ (by rw [hlen11]; try omega) fe9_11
  have fd1_12 : E12.getD (28 + 24 * n) none = some (sh4 ord b (nf * 8) 2 2) := by
    rw [hE12]
    exact getD_peel2 _ _ (by rw [hlen11]; try omega) fd1_11
  have fc1_12 : E12.getD (31 + 24 * n) none = some (sh4 ord b (nf * 8 + nf * 8) 2 2) := by
    rw [hE12]
    exact getD_peel2 _ _ (by rw [hlen11]; try omega) fc1_11
  have fd2_12 : E12.getD (33 + 27 * n) none = some (sh4 ord b (nf * 8) 4 4) := by
    rw [hE12]
    exact getD_peel2 _ _ (by rw [hlen11]; try omega) fd2_11
  have fc2_12 : E12.getD (36 + 27 * n) none = some (sh4 ord b (nf * 8 + nf * 8) 4 4) := by
    rw [hE12]
    exact getD_peel2 _ _ (by rw [hlen11]; try omega) fc2_11
  have hlast12 : E12.getD (42 + 33 * n) none = some (sh4 ord b (if n = 0 then nf * 8 + nf * 8 else nf * 8) 8 8) := by
    rw [hE12]
    rw [show (42 + 33 * n : Nat) = E11.length + 4 + 3 * n from by rw [hlen11]; try omega]
    rw [getD_decALast, ite_some_sh4]
  have fd3_12 : E12.getD (38 + 30 * n) none = some (sh4 ord b (nf * 8) 8 8) := by
    rw [hE12]
    rw [show (38 + 30 * n : Nat) = E11.length + 0 from by rw [hlen11]; try omega]
    rw [getD_blockAt _ _ _ 0 none (by simp)]
    rfl
  have fc3_12 : E12.getD (41 + 30 * n) none = some (sh4 ord b (nf * 8 + nf * 8) 8 8) := by
    rw [hE12]
    rw [show (41 + 30 * n : Nat) = E11.length + 3 from by rw [hlen11]; try omega]
    rw [getD_blockAt _ _ _ 3 none (by simp)]
    rfl
  -- decoder stage 4
  rw [foldAcc_append] at hev
  rw [decSegB_eval ord hord (sh4 ord b in_ch 512 512) k2 n (nf * 8) 2 2 E12 (42 + 33 * n) (15 + 15 * n) b (if n = 0 then nf * 8 + nf * 8 else nf * 8) (nf * 8) 8 8 16 16 bs hlen12 hlast12 (by omega) fe5_12 (by norm_num) (by norm_num)] at hev
  set E13 := E12 ++ [some (sh4 ord b (nf * 8) 16 16), some (sh4 ord b (nf * 8) 16 16), some (sh4 ord b (nf * 8 + nf * 8) 16 16), some (sh4 ord b (nf * 8 + nf * 8) 16 16)] ++ List.replicate (3 * n) (some (sh4 ord b (nf * 8) 16 16)) with hE13
  have hlen13 : E13.length = 46 + 36 * n + 1 := by
    rw [hE13]
    simp only [List.length_append, List.length_cons, List.length_nil,
      List.length_replicate, hlen12]
    omega
  have f0_13 : E13.getD (0) none = some (sh4 ord b in_ch 512 512) := by
    rw [hE13]
    exact getD_peel2 _ _ (by rw [hlen12]; try omega) f0_12
  have fe1_13 : E13.getD (3 + 3 * n) none = some (sh4 ord b (nf) 256 256) := by
    rw [hE13]
    exact getD_peel2 _ _ (by rw [hlen12]; try omega) fe1_12
  have fe2_13 : E13.getD (6 + 6 * n) none = some (sh4 ord b (nf * 2) 128 128) := by
    rw [hE13]
    exact getD_peel2 _ _ (by rw [hlen12]; try omega) fe2_12
  have fe3_13 : E13.getD (9 + 9 * n) none = some (sh4 ord b (nf * 4) 64 64) := by
    rw [hE13]
    exact getD_peel2 _ _ (by rw [hlen12]; try omega) fe3_12
  have fe4_13 : E13.getD (12 + 12 * n) none = some (sh4 ord b (nf * 8) 32 32) := by
    rw [hE13]
    exact getD_peel2 _ _ (by rw [hlen12]; try omega) fe4_12
  have fe5_13 : E13.getD (15 + 15 * n) none = some (sh4 ord b (nf * 8) 16 16) := by
    rw [hE13]
    exact getD_peel2 _ _ (by rw [hlen12]; try omega) fe5_12
  have fe6_13 : E13.getD (18 + 18 * n) none = some (sh4 ord b (nf * 8) 8 8) := by
    rw [hE13]
    exact getD_peel2 _ _ (by rw [hlen12]; try omega) fe6_12
  have fe7_13 : E13.getD (21 + 21 * n) none = some (sh4 ord b (nf * 8) 4 4) := by
    rw [hE13]
    exact getD_peel2 _ _ (by rw [hlen12]; try omega) fe7_12
  have fe8_13 : E13.getD (24 + 24 * n) none = some (sh4 ord b (nf * 8) 2 2) := by
    rw [hE13]
    exact getD_peel2 _ _ (by rw [hlen12]; try omega) fe8_12
  have fe9_13 : E13.getD (27 + 24 * n) none = some (sh4 ord b (nf * 8) 1 1) := by
    rw [hE13]
    exact getD_peel2 _ _ (by rw [hlen12]; try omega) fe9_12
  have fd1_13 : E13.getD (28 + 24 * n) none = some (sh4 ord b (nf * 8) 2 2) := by
    rw [hE13]
    exact getD_peel2 _ _ (by rw [hlen12]; try omega) fd1_12
  have fc1_13 : E13.getD (31 + 24 * n) none = some (sh4 ord b (nf * 8 + nf * 8) 2 2) := by
    rw [hE13]
    exact getD_peel2 _ _ (by rw [hlen12]; try omega) fc1_12
  have fd2_13 : E13.getD (33 + 27 * n) none = some (sh4 ord b (nf * 8) 4 4) := by
    rw [hE13]
    exact getD_peel2 _ _ (by rw [hlen12]; try omega) fd2_12
  have fc2_13 : E13.getD (36 + 27 * n) none = some (sh4 ord b (nf * 8 + nf * 8) 4 4) := by
    rw [hE13]
    exact getD_peel2 _ _ (by rw [hlen12]; try omega) fc2_12
  have fd3_13 : E13.getD (38 + 30 * n) none = some (sh4 ord b (nf * 8) 8 8) := by
    rw [hE13]
    exact getD_peel2 _ _ (by rw [hlen12]; try omega) fd3_12
  have fc3_13 : E13.getD (41 + 30 * n) none = some (sh4 ord b (nf * 8 + nf * 8) 8 8) := by
    rw [hE13]
    exact getD_peel2 _ _ (by rw [hlen12]; try omega) fc3_12
  have hlast13 : E13.getD (46 + 36 * n) none = some (sh4 ord b (if n = 0 then nf * 8 + nf * 8 else nf * 8) 16 16) := by
    rw [hE13]
    rw [show (46 + 36 * n : Nat) = E12.length + 3 + 3 * n from by rw [hlen12]; try omega]
    rw [getD_decBLast, ite_some_sh4]
  have fd4_13 : E13.getD (43 + 33 * n) none = some (sh4 ord b (nf * 8) 16 16) := by
    rw [hE13]
    rw [show (43 + 33 * n : Nat) = E12.length + 0 from by rw [hlen12]; try omega]
    rw [getD_blockAt _ _ _ 0 none (by simp)]
    rfl
  have fc4_13 : E13.getD (45 + 33 * n) none = some (sh4 ord b (nf * 8 + nf * 8) 16 16) := by
    rw [hE13]
    rw [show (45 + 33 * n : Nat) = E12.length + 2 from by rw [hlen12]; try omega]
    rw [getD_blockAt _ _ _ 2 none (by simp)]
    rfl
  -- decoder stage 5
  rw [foldAcc_append] at hev
  rw [decSegB_eval ord hord (sh4 ord b in_ch 512 512) k2 n (nf * 8) 2 2 E13 (46 + 36 * n) (12 + 12 * n) b (if n = 0 then nf * 8 + nf * 8 else nf * 8) (nf * 8) 16 16 32 32 bs hlen13 hlast13 (by omega) fe4_13 (by norm_num) (by norm_num)] at hev
  set E14 := E13 ++ [some (sh4 ord b (nf * 8) 32 32), some (sh4 ord b (nf * 8) 32 32), some (sh4 ord b (nf * 8 + nf * 8) 32 32), some (sh4 ord b (nf * 8 + nf * 8) 32 32)] ++ List.replicate (3 * n) (some (sh4 ord b (nf * 8) 32 32)) with hE14
  have hlen14 : E14.length = 50 + 39 * n + 1 := by
    rw [hE14]
    simp only [List.length_append, List.length_cons, List.length_nil,
      List.length_replicate, hlen13]
    omega
  have f0_14 : E14.getD (0) none = some (sh4 ord b in_ch 512 512) := by
    rw [hE14]
    exact getD_peel2 _ _ (by rw [hlen13]; try omega) f0_13
  have fe1_14 : E14.getD (3 + 3 * n) none = some (sh4 ord b (nf) 256 256) := by
    rw [hE14]
    exact getD_peel2 _ _ (by rw [hlen13]; try omega) fe1_13
  have fe2_14 : E14.getD (6 + 6 * n) none = some (sh4 ord b (nf * 2) 128 128) := by
    rw [hE14]
    exact getD_peel2 _ _ (by rw [hlen13]; try omega) fe2_13
  have fe3_14 : E14.getD (9 + 9 * n) none = some (sh4 ord b (nf * 4) 64 64) := by
    rw [hE14]
    exact getD_peel2 _ _ (by rw [hlen13]; try omega) fe3_13
  have fe4_14 : E14.getD (12 + 12 * n) none = some (sh4 ord b (nf * 8) 32 32) := by
    rw [hE14]
    exact getD_peel2 _ _ (by rw [hlen13]; try omega) fe4_13
  have fe5_14 : E14.getD (15 + 15 * n) none = some (sh4 ord b (nf * 8) 16 16) := by
    rw [hE14]
    exact getD_peel2 _ _ (by rw [hlen13]; try omega) fe5_13
  have fe6_14 : E14.getD (18 + 18 * n) none = some (sh4 ord b (nf * 8) 8 8) := by
    rw [hE14]
    exact getD_peel2 _ _ (by rw [hlen13]; try omega) fe6_13
  have fe7_14 : E14.getD (21 + 21 * n) none = some (sh4 ord b (nf * 8) 4 4) := by
    rw [hE14]
    exact getD_peel2 _ _ (by rw [hlen13]; try omega) fe7_13
  have fe8_14 : E14.getD (24 + 24 * n) none = some (sh4 ord b (nf * 8) 2 2) := by
    rw [hE14]
    exact getD_peel2 _ _ (by rw [hlen13]; try omega) fe8_13
  have fe9_14 : E14.getD (27 + 24 * n) none = some (sh4 ord b (nf * 8) 1 1) := by
    rw [hE14]
    exact getD_peel2 _ _ (by rw [hlen13]; try omega) fe9_13
  have fd1_14 : E14.getD (28 + 24 * n) none = some (sh4 ord b (nf * 8) 2 2) := by
    rw [hE14]
    exact getD_peel2 _ _ (by rw [hlen13]; try omega) fd1_13
  have fc1_14 : E14.getD (31 + 24 * n) none = some (sh4 ord b (nf * 8 + nf * 8) 2 2) := by
    rw [hE14]
    exact getD_peel2 _ _ (by rw [hlen13]; try omega) fc1_13
  have fd2_14 : E14.getD (33 + 27 * n) none = some (sh4 ord b (nf * 8) 4 4) := by
    rw [hE14]
    exact getD_peel2 _ _ (by rw [hlen13]; try omega) fd2_13
  have fc2_14 : E14.getD (36 + 27 * n) none = some (sh4 ord b (nf * 8 + nf * 8) 4 4) := by
    rw [hE14]
    exact getD_peel2 _ _ (by rw [hlen13]; try omega) fc2_13
  have fd3_14 : E14.getD (38 + 30 * n) none = some (sh4 ord b (nf * 8) 8 8) := by
    rw [hE14]
    exact getD_peel2 _ _ (by rw [hlen13]; try omega) fd3_13
  have fc3_14 : E14.getD (41 + 30 * n) none = some (sh4 ord b (nf * 8 + nf * 8) 8 8) := by
    rw [hE14]
    exact getD_peel2 _ _ (by rw [hlen13]; try omega) fc3_13
  have fd4_14 : E14.getD (43 + 33 * n) none = some (sh4 ord b (nf * 8) 16 16) := by
    rw [hE14]
    exact getD_peel2 _ _ (by rw [hlen13]; try omega) fd4_13
  have fc4_14 : E14.getD (45 + 33 * n) none = some (sh4 ord b (nf * 8 + nf * 8) 16 16) := by
    rw [hE14]
    exact getD_peel2 _ _ (by rw [hlen13]; try omega) fc4_13
  have hlast14 : E14.getD (50 + 39 * n) none = some (sh4 ord b (if n = 0 then nf * 8 + nf * 8 else nf * 8) 32 32) := by
    rw [hE14]
    rw [show (50 + 39 * n : Nat) = E13.length + 3 + 3 * n from by rw [hlen13]; try omega]
    rw [getD_decBLast, ite_some_sh4]
  have fd5_14 : E14.getD (47 + 36 * n) none = some (sh4 ord b (nf * 8) 32 32) := by
    rw [hE14]
    rw [show (47 + 36 * n : Nat) = E13.length + 0 from by rw [hlen13]; try omega]
    rw [getD_blockAt _ _ _ 0 none (by simp)]
    rfl
  have fc5_14 : E14.getD (49 + 36 * n) none = some (sh4 ord b (nf * 8 + nf * 8) 32 32) := by
    rw [hE14]
    rw [show (49 + 36 * n : Nat) = E13.length + 2 from by rw [hlen13]; try omega]
    rw [getD_blockAt _ _ _ 2 none (by simp)]
    rfl
  -- decoder stage 6
  rw [foldAcc_append] at hev
  rw [decSegB_eval ord hord (sh4 ord b in_ch 512 512) k2 n (nf * 4) 2 2 E14 (50 + 39 * n) (9 + 9 * n) b (if n = 0 then nf * 8 + nf * 8 else nf * 8) (nf * 4) 32 32 64 64 bs hlen14 hlast14 (by omega) fe3_14 (by norm_num) (by norm_num)] at hev
  set E15 := E14 ++ [some (sh4 ord b (nf * 4) 64 64), some (sh4 ord b (nf * 4) 64 64), some (sh4 ord b (nf * 4 + nf * 4) 64 64), some (sh4 ord b (nf * 4 + nf * 4) 64 64)] ++ List.replicate (3 * n) (some (sh4 ord b (nf * 4) 64 64)) with hE15
  have hlen15 : E15.length = 54 + 42 * n + 1 := by
    rw [hE15]
    simp only [List.length_append, List.length_cons, List.length_nil,
      List.length_replicate, hlen14]
    omega
  have f0_15 : E15.getD (0) none = some (sh4 ord b in_ch 512 512) := by
    rw [hE15]
    exact getD_peel2 _ _ (by rw [hlen14]; try omega) f0_14
  have fe1_15 : E15.getD (3 + 3 * n) none = some (sh4 ord b (nf) 256 256) := by
    rw [hE15]
    exact getD_peel2 _ _ (by rw [hlen14]; try omega) fe1_14
  have fe2_15 : E15.getD (6 + 6 * n) none = some (sh4 ord b (nf * 2) 128 128) := by
    rw [hE15]
    exact getD_peel2 _ _ (by rw [hlen14]; try omega) fe2_14
  have fe3_15 : E15.getD (9 + 9 * n) none = some (sh4 ord b (nf * 4) 64 64) := by
    rw [hE15]
    exact getD_peel2 _ _ (by rw [hlen14]; try omega) fe3_14
  have fe4_15 : E15.getD (12 + 12 * n) none = some (sh4 ord b (nf * 8) 32 32) := by
    rw [hE15]
    exact getD_peel2 _ _ (by rw [hlen14]; try omega) fe4_14
  have fe5_15 : E15.getD (15 + 15 * n) none = some (sh4 ord b (nf * 8) 16 16) := by
    rw [hE15]
    exact getD_peel2 _ _ (by rw [hlen14]; try omega) fe5_14
  have fe6_15 : E15.getD (18 + 18 * n) none = some (sh4 ord b (nf * 8) 8 8) := by
    rw [hE15]
    exact getD_peel2 _ _ (by rw [hlen14]; try omega) fe6_14
  have fe7_15 : E15.getD (21 + 21 * n) none = some (sh4 ord b (nf * 8) 4 4) := by
    rw [hE15]
    exact getD_peel2 _ _ (by rw [hlen14]; try omega) fe7_14
  have fe8_15 : E15.getD (24 + 24 * n) none = some (sh4 ord b (nf * 8) 2 2) := by
    rw [hE15]
    exact getD_peel2 _ _ (by rw [hlen14]; try omega) fe8_14
  have fe9_15 : E15.getD (27 + 24 * n) none = some (sh4 ord b (nf * 8) 1 1) := by
    rw [hE15]
    exact getD_peel2 _ _ (by rw [hlen14]; try omega) fe9_14
  have fd1_15 : E15.getD (28 + 24 * n) none = some (sh4 ord b (nf * 8) 2 2) := by
    rw [hE15]
    exact getD_peel2 _ _ (by rw [hlen14]; try omega) fd1_14
  have fc1_15 : E15.getD (31 + 24 * n) none = some (sh4 ord b (nf * 8 + nf * 8) 2 2) := by
    rw [hE15]
    exact getD_peel2 _ _ (by rw [hlen14]; try omega) fc1_14
  have fd2_15 : E15.getD (33 + 27 * n) none = some (sh4 ord b (nf * 8) 4 4) := by
    rw [hE15]
    exact getD_peel2 _ _ (by rw [hlen14]; try omega) fd2_14
  have fc2_15 : E15.getD (36 + 27 * n) none = some (sh4 ord b (nf * 8 + nf * 8) 4 4) := by
    rw [hE15]
    exact getD_peel2 _ _ (by rw [hlen14]; try omega) fc2_14
  have fd3_15 : E15.getD (38 + 30 * n) none = some (sh4 ord b (nf * 8) 8 8) := by
    rw [hE15]
    exact getD_peel2 _ _ (by rw [hlen14]; try omega) fd3_14
  have fc3_15 : E15.getD (41 + 30 * n) none = some (sh4 ord b (nf * 8 + nf * 8) 8 8) := by
    rw [hE15]
    exact getD_peel2 _ _ (by rw [hlen14]; try omega) fc3_14
  have fd4_15 : E15.getD (43 + 33 * n) none = some (sh4 ord b (nf * 8) 16 16) := by
    rw [hE15]
    exact getD_peel2 _ _ (by rw [hlen14]; try omega) fd4_14
  have fc4_15 : E15.getD (45 + 33 * n) none = some (sh4 ord b (nf * 8 + nf * 8) 16 16) := by
    rw [hE15]
    exact getD_peel2 _ _ (by rw [hlen14]; try omega) fc4_14
  have fd5_15 : E15.getD (47 + 36 * n) none = some (sh4 ord b (nf * 8) 32 32) := by
    rw [hE15]
    exact getD_peel2 _ _ (by rw [hlen14]; try omega) fd5_14
  have fc5_15 : E15.getD (49 + 36 * n) none = some (sh4 ord b (nf * 8 + nf * 8) 32 32) := by
    rw [hE15]
    exact getD_peel2 _ _ (by rw [hlen14]; try omega) fc5_14
  have hlast15 : E15.getD (54 + 42 * n) none = some (sh4 ord b (if n = 0 then nf * 4 + nf * 4 else nf * 4) 64 64) := by
    rw [hE15]
    rw [show (54 + 42 * n : Nat) = E14.length + 3 + 3 * n from by rw [hlen14]; try omega]
    rw [getD_decBLast, ite_some_sh4]
  have fd6_15 : E15.getD (51 + 39 * n) none = some (sh4 ord b (nf * 4) 64 64) := by
    rw [hE15]
    rw [show (51 + 39 * n : Nat) = E14.length + 0 from by rw [hlen14]; try omega]
    rw [getD_blockAt _ _ _ 0 none (by simp)]
    rfl
  have fc6_15 : E15.getD (53 + 39 * n) none = some (sh4 ord b (nf * 4 + nf * 4) 64 64) := by
    rw [hE15]
    rw [show (53 + 39 * n : Nat) = E14.length + 2 from by rw [hlen14]; try omega]
    rw [getD_blockAt _ _ _ 2 none (by simp)]
    rfl
  -- decoder stage 7
  rw [foldAcc_append] at hev
  rw [decSegB_eval ord hord (sh4 ord b in_ch 512 512) k2 n (nf * 2) 2 2 E15 (54 + 42 * n) (6 + 6 * n) b (if n = 0 then nf * 4 + nf * 4 else nf * 4) (nf * 2) 64 64 128 128 bs hlen15 hlast15 (by omega) fe2_15 (by norm_num) (by norm_num)] at hev
  set E16 := E15 ++ [some (sh4 ord b (nf * 2) 128 128), some (sh4 ord b (nf * 2) 128 128), some (sh4 ord b (nf * 2 + nf * 2) 128 128), some (sh4 ord b (nf * 2 + nf * 2) 128 128)] ++ List.replicate (3 * n) (some (sh4 ord b (nf * 2) 128 128)) with hE16
  have hlen16 : E16.length = 58 + 45 * n + 1 := by
    rw [hE16]
    simp only [List.length_append, List.length_cons, List.length_nil,
      List.length_replicate, hlen15]
    omega
  have f0_16 : E16.getD (0) none = some (sh4 ord b in_ch 512 512) := by
    rw [hE16]
    exact getD_peel2 _ _ (by rw [hlen15]; try omega) f0_15
  have fe1_16 : E16.getD (3 + 3 * n) none = some (sh4 ord b (nf) 256 256) := by
    rw [hE16]
    exact getD_peel2 _ _ (by rw [hlen15]; try omega) fe1_15
  have fe2_16 : E16.getD (6 + 6 * n) none = some (sh4 ord b (nf * 2) 128 128) := by
    rw [hE16]
    exact getD_peel2 _ _ (by rw [hlen15]; try omega) fe2_15
  have fe3_16 : E16.getD (9 + 9 * n) none = some (sh4 ord b (nf * 4) 64 64) := by
    rw [hE16]
    exact getD_peel2 _ _ (by rw [hlen15]; try omega) fe3_15
  have fe4_16 : E16.getD (12 + 12 * n) none = some (sh4 ord b (nf * 8) 32 32) := by
    rw [hE16]
    exact getD_peel2 _ _ (by rw [hlen15]; try omega) fe4_15
  have fe5_16 : E16.getD (15 + 15 * n) none = some (sh4 ord b (nf * 8) 16 16) := by
    rw [hE16]
    exact getD_peel2 _ _ (by rw [hlen15]; try omega) fe5_15
  have fe6_16 : E16.getD (18 + 18 * n) none = some (sh4 ord b (nf * 8) 8 8) := by
    rw [hE16]
    exact getD_peel2 _ _ (by rw [hlen15]; try omega) fe6_15
  have fe7_16 : E16.getD (21 + 21 * n) none = some (sh4 ord b (nf * 8) 4 4) := by
    rw [hE16]
    exact getD_peel2 _ _ (by rw [hlen15]; try omega) fe7_15
  have fe8_16 : E16.getD (24 + 24 * n) none = some (sh4 ord b (nf * 8) 2 2) := by
    rw [hE16]
    exact getD_peel2 _ _ (by rw [hlen15]; try omega) fe8_15
  have fe9_16 : E16.getD (27 + 24 * n) none = some (sh4 ord b (nf * 8) 1 1) := by
    rw [hE16]
    exact getD_peel2 _ _ (by rw [hlen15]; try omega) fe9_15
  have fd1_16 : E16.getD (28 + 24 * n) none = some (sh4 ord b (nf * 8) 2 2) := by
    rw [hE16]
    exact getD_peel2 _ _ (by rw [hlen15]; try omega) fd1_15
  have fc1_16 : E16.getD (31 + 24 * n) none = some (sh4 ord b (nf * 8 + nf * 8) 2 2) := by
    rw [hE16]
    exact getD_peel2 _ _ (by rw [hlen15]; try omega) fc1_15
  have fd2_16 : E16.getD (33 + 27 * n) none = some (sh4 ord b (nf * 8) 4 4) := by
    rw [hE16]
    exact getD_peel2 _ _ (by rw [hlen15]; try omega) fd2_15
  have fc2_16 : E16.getD (36 + 27 * n) none = some (sh4 ord b (nf * 8 + nf * 8) 4 4) := by
    rw [hE16]
    exact getD_peel2 _ _ (by rw [hlen15]; try omega) fc2_15
  have fd3_16 : E16.getD (38 + 30 * n) none = some (sh4 ord b (nf * 8) 8 8) := by
    rw [hE16]
    exact getD_peel2 _ _ (by rw [hlen15]; try omega) fd3_15
  have fc3_16 : E16.getD (41 + 30 * n) none = some (sh4 ord b (nf * 8 + nf * 8) 8 8) := by
    rw [hE16]
    exact getD_peel2 _ _ (by rw [hlen15]; try omega) fc3_15
  have fd4_16 : E16.getD (43 + 33 * n) none = some (sh4 ord b (nf * 8) 16 16) := by
    rw [hE16]
    exact getD_peel2 _ _ (by rw [hlen15]; try omega) fd4_15
  have fc4_16 : E16.getD (45 + 33 * n) none = some (sh4 ord b (nf * 8 + nf * 8) 16 16) := by
    rw [hE16]
    exact getD_peel2 _ _ (by rw [hlen15]; try omega) fc4_15
  have fd5_16 : E16.getD (47 + 36 * n) none = some (sh4 ord b (nf * 8) 32 32) := by
    rw [hE16]
    exact getD_peel2 _ _ (by rw [hlen15]; try omega) fd5_15
  have fc5_16 : E16.getD (49 + 36 * n) none = some (sh4 ord b (nf * 8 + nf * 8) 32 32) := by
    rw [hE16]
    exact getD_peel2 _ _ (by rw [hlen15]; try omega) fc5_15
  have fd6_16 : E16.getD (51 + 39 * n) none = some (sh4 ord b (nf * 4) 64 64) := by
    rw [hE16]
    exact getD_peel2 _ _ (by rw [hlen15]; try omega) fd6_15
  have fc6_16 : E16.getD (53 + 39 * n) none = some (sh4 ord b (nf * 4 + nf * 4) 64 64) := by
    rw [hE16]
    exact getD_peel2 _ _ (by rw [hlen15]; try omega) fc6_15
  have hlast16 : E16.getD (58 + 45 * n) none = some (sh4 ord b (if n = 0 then nf * 2 + nf * 2 else nf * 2) 128 128) := by
    rw [hE16]
    rw [show (58 + 45 * n : Nat) = E15.length + 3 + 3 * n from by rw [hlen15]; try omega]
    rw [getD_decBLast, ite_some_sh4]
  have fd7_16 : E16.getD (55 + 42 * n) none = some (sh4 ord b (nf * 2) 128 128) := by
    rw [hE16]
    rw [show (55 + 42 * n : Nat) = E15.length + 0 from by rw [hlen15]; try omega]
    rw [getD_blockAt _ _ _ 0 none (by simp)]
    rfl
  have fc7_16 : E16.getD (57 + 42 * n) none = some (sh4 ord b (nf * 2 + nf * 2) 128 128) := by
    rw [hE16]
    rw [show (57 + 42 * n : Nat) = E15.length + 2 from by rw [hlen15]; try omega]
    rw [getD_blockAt _ _ _ 2 none (by simp)]
    rfl
  -- decoder stage 8
  rw [foldAcc_append] at hev
  rw [decSegB_eval ord hord (sh4 ord b in_ch 512 512) k2 n (nf) 2 2 E16 (58 + 45 * n) (3 + 3 * n) b (if n = 0 then nf * 2 + nf * 2 else nf * 2) (nf) 128 128 256 256 bs hlen16 hlast16 (by omega) fe1_16 (by norm_num) (by norm_num)] at hev
  set E17 := E16 ++ [some (sh4 ord b (nf) 256 256), some (sh4 ord b (nf) 256 256), some (sh4 ord b (nf + nf) 256 256), some (sh4 ord b (nf + nf) 256 256)] ++ List.replicate (3 * n) (some (sh4 ord b (nf) 256 256)) with hE17
  have hlen17 : E17.length = 62 + 48 * n + 1 := by
    rw [hE17]
    simp only [List.length_append, List.length_cons, List.length_nil,
      List.length_replicate, hlen16]
    omega
  have f0_17 : E17.getD (0) none = some (sh4 ord b in_ch 512 512) := by
    rw [hE17]
    exact getD_peel2 _ _ (by rw [hlen16]; try omega) f0_16
  have fe1_17 : E17.getD (3 + 3 * n) none = some (sh4 ord b (nf) 256 256) := by
    rw [hE17]
    exact getD_peel2 _ _ (by rw [hlen16]; try omega) fe1_16
  have fe2_17 : E17.getD (6 + 6 * n) none = some (sh4 ord b (nf * 2) 128 128) := by
    rw [hE17]
    exact getD_peel2 _ _ (by rw [hlen16]; try omega) fe2_16
  have fe3_17 : E17.getD (9 + 9 * n) none = some (sh4 ord b (nf * 4) 64 64) := by
    rw [hE17]
    exact getD_peel2 _ _ (by rw [hlen16]; try omega) fe3_16
  have fe4_17 : E17.getD (12 + 12 * n) none = some (sh4 ord b (nf * 8) 32 32) := by
    rw [hE17]
    exact getD_peel2 _ _ (by rw [hlen16]; try omega) fe4_16
  have fe5_17 : E17.getD (15 + 15 * n) none = some (sh4 ord b (nf * 8) 16 16) := by
    rw [hE17]
    exact getD_peel2 _ _ (by rw [hlen16]; try omega) fe5_16
  have fe6_17 : E17.getD (18 + 18 * n) none = some (sh4 ord b (nf * 8) 8 8) := by
    rw [hE17]
    exact getD_peel2 _ _ (by rw [hlen16]; try omega) fe6_16
  have fe7_17 : E17.getD (21 + 21 * n) none = some (sh4 ord b (nf * 8) 4 4) := by
    rw [hE17]
    exact getD_peel2 _ _ (by rw [hlen16]; try omega) fe7_16
  have fe8_17 : E17.getD (24 + 24 * n) none = some (sh4 ord b (nf * 8) 2 2) := by
    rw [hE17]
    exact getD_peel2 _ _ (by rw [hlen16]; try omega) fe8_16
  have fe9_17 : E17.getD (27 + 24 * n) none = some (sh4 ord b (nf * 8) 1 1) := by
    rw [hE17]
    exact getD_peel2 _ _ (by rw [hlen16]; try omega) fe9_16
  have fd1_17 : E17.getD (28 + 24 * n) none = some (sh4 ord b (nf * 8) 2 2) := by
    rw [hE17]
    exact getD_peel2 _ _ (by rw [hlen16]; try omega) fd1_16
  have fc1_17 : E17.getD (31 + 24 * n) none = some (sh4 ord b (nf * 8 + nf * 8) 2 2) := by
    rw [hE17]
    exact getD_peel2 _ _ (by rw [hlen16]; try omega) fc1_16
  have fd2_17 : E17.getD (33 + 27 * n) none = some (sh4 ord b (nf * 8) 4 4) := by
    rw [hE17]
    exact getD_peel2 _ _ (by rw [hlen16]; try omega) fd2_16
  have fc2_17 : E17.getD (36 + 27 * n) none = some (sh4 ord b (nf * 8 + nf * 8) 4 4) := by
    rw [hE17]
    exact getD_peel2 _ _ (by rw [hlen16]; try omega) fc2_16
  have fd3_17 : E17.getD (38 + 30 * n) none = some (sh4 ord b (nf * 8) 8 8) := by
    rw [hE17]
    exact getD_peel2 _ _ (by rw [hlen16]; try omega) fd3_16
  have fc3_17 : E17.getD (41 + 30 * n) none = some (sh4 ord b (nf * 8 + nf * 8) 8 8) := by
    rw [hE17]
    exact getD_peel2 _ _ (by rw [hlen16]; try omega) fc3_16
  have fd4_17 : E17.getD (43 + 33 * n) none = some (sh4 ord b (nf * 8) 16 16) := by
    rw [hE17]
    exact getD_peel2 _ _ (by rw [hlen16]; try omega) fd4_16
  have fc4_17 : E17.getD (45 + 33 * n) none = some (sh4 ord b (nf * 8 + nf * 8) 16 16) := by
    rw [hE17]
    exact getD_peel2 _ _ (by rw [hlen16]; try omega) fc4_16
  have fd5_17 : E17.getD (47 + 36 * n) none = some (sh4 ord b (nf * 8) 32 32) := by
    rw [hE17]
    exact getD_peel2 _ _ (by rw [hlen16]; try omega) fd5_16
  have fc5_17 : E17.getD (49 + 36 * n) none = some (sh4 ord b (nf * 8 + nf * 8) 32 32) := by
    rw [hE17]
    exact getD_peel2 _ _ (by rw [hlen16]; try omega) fc5_16
  have fd6_17 : E17.getD (51 + 39 * n) none = some (sh4 ord b (nf * 4) 64 64) := by
    rw [hE17]
    exact getD_peel2 _ _ (by rw [hlen16]; try omega) fd6_16
  have fc6_17 : E17.getD (53 + 39 * n) none = some (sh4 ord b (nf * 4 + nf * 4) 64 64) := by
    rw [hE17]
    exact getD_peel2 _ _ (by rw [hlen16]; try omega) fc6_16
  have fd7_17 : E17.getD (55 + 42 * n) none = some (sh4 ord b (nf * 2) 128 128) := by
    rw [hE17]
    exact getD_peel2 _ _ (by rw [hlen16]; try omega) fd7_16
  have fc7_17 : E17.getD (57 + 42 * n) none = some (sh4 ord b (nf * 2 + nf * 2) 128 128) := by
    rw [hE17]
    exact getD_peel2 _ _ (by rw [hlen16]; try omega) fc7_16
  have hlast17 : E17.getD (62 + 48 * n) none = some (sh4 ord b (if n = 0 then nf + nf else nf) 256 256) := by
    rw [hE17]
    rw [show (62 + 48 * n : Nat) = E16.length + 3 + 3 * n from by rw [hlen16]; try omega]
    rw [getD_decBLast, ite_some_sh4]
  have fd8_17 : E17.getD (59 + 45 * n) none = some (sh4 ord b (nf) 256 256) := by
    rw [hE17]
    rw [show (59 + 45 * n : Nat) = E16.length + 0 from by rw [hlen16]; try omega]
    rw [getD_blockAt _ _ _ 0 none (by simp)]
    rfl
  have fc8_17 : E17.getD (61 + 45 * n) none = some (sh4 ord b (nf + nf) 256 256) := by
    rw [hE17]
    rw [show (61 + 45 * n : Nat) = E16.length + 2 from by rw [hlen16]; try omega]
    rw [getD_blockAt _ _ _ 2 none (by simp)]
    rfl
  -- final stage
  rw [finSeg_eval ord hord (sh4 ord b in_ch 512 512) k2 out_ch E17 (62 + 48 * n) b (if n = 0 then nf + nf else nf) 256 256 512 512 bs (if ib = true then "sigmoid" else "tanh") hlen17 hlast17 (by norm_num) (by norm_num)] at hev
  set E18 := E17 ++ [some (sh4 ord b out_ch 512 512), some (sh4 ord b out_ch 512 512)] with hE18
  have hlen18 : E18.length = 64 + 48 * n + 1 := by
    rw [hE18]
    simp only [List.length_append, List.length_cons, List.length_nil,
      List.length_replicate, hlen17]
    omega
  have f0_18 : E18.getD (0) none = some (sh4 ord b in_ch 512 512) := by
    rw [hE18]
    exact getD_peel1 _ (by rw [hlen17]; try omega) f0_17
  have fe1_18 : E18.getD (3 + 3 * n) none = some (sh4 ord b (nf) 256 256) := by
    rw [hE18]
    exact getD_peel1 _ (by rw [hlen17]; try omega) fe1_17
  have fe2_18 : E18.getD (6 + 6 * n) none = some (sh4 ord b (nf * 2) 128 128) := by
    rw [hE18]
    exact getD_peel1 _ (by rw [hlen17]; try omega) fe2_17
  have fe3_18 : E18.getD (9 + 9 * n) none = some (sh4 ord b (nf * 4) 64 64) := by
    rw [hE18]
    exact getD_peel1 _ (by rw [hlen17]; try omega) fe3_17
  have fe4_18 : E18.getD (12 + 12 * n) none = some (sh4 ord b (nf * 8) 32 32) := by
    rw [hE18]
    exact getD_peel1 _ (by rw [hlen17]; try omega) fe4_17
  have fe5_18 : E18.getD (15 + 15 * n) none = some (sh4 ord b (nf * 8) 16 16) := by
    rw [hE18]
    exact getD_peel1 _ (by rw [hlen17]; try omega) fe5_17
  have fe6_18 : E18.getD (18 + 18 * n) none = some (sh4 ord b (nf * 8) 8 8) := by
    rw [hE18]
    exact getD_peel1 _ (by rw [hlen17]; try omega) fe6_17
  have fe7_18 : E18.getD (21 + 21 * n) none = some (sh4 ord b (nf * 8) 4 4) := by
    rw [hE18]
    exact getD_peel1 _ (by rw [hlen17]; try omega) fe7_17
  have fe8_18 : E18.getD (24 + 24 * n) none = some (sh4 ord b (nf * 8) 2 2) := by
    rw [hE18]
    exact getD_peel1 _ (by rw [hlen17]; try omega) fe8_17
  have fe9_18 : E18.getD (27 + 24 * n) none = some (sh4 ord b (nf * 8) 1 1) := by
    rw [hE18]
    exact getD_peel1 _ (by rw [hlen17]; try omega) fe9_17
  have fd1_18 : E18.getD (28 + 24 * n) none = some (sh4 ord b (nf * 8) 2 2) := by
    rw [hE18]
    exact getD_peel1 _ (by rw [hlen17]; try omega) fd1_17
  have fc1_18 : E18.getD (31 + 24 * n) none = some (sh4 ord b (nf * 8 + nf * 8) 2 2) := by
    rw [hE18]
    exact getD_peel1 _ (by rw [hlen17]; try omega) fc1_17
  have fd2_18 : E18.getD (33 + 27 * n) none = some (sh4 ord b (nf * 8) 4 4) := by
    rw [hE18]
    exact getD_peel1 _ (by rw [hlen17]; try omega) fd2_17
  have fc2_18 : E18.getD (36 + 27 * n) none = some (sh4 ord b (nf * 8 + nf * 8) 4 4) := by
    rw [hE18]
    exact getD_peel1 _ (by rw [hlen17]; try omega) fc2_17
  have fd3_18 : E18.getD (38 + 30 * n) none = some (sh4 ord b (nf * 8) 8 8) := by
    rw [hE18]
    exact getD_peel1 _ (by rw [hlen17]; try omega) fd3_17
  have fc3_18 : E18.getD (41 + 30 * n) none = some (sh4 ord b (nf * 8 + nf * 8) 8 8) := by
    rw [hE18]
    exact getD_peel1 _ (by rw [hlen17]; try omega) fc3_17
  have fd4_18 : E18.getD (43 + 33 * n) none = some (sh4 ord b (nf * 8) 16 16) := by
    rw [hE18]
    exact getD_peel1 _ (by rw [hlen17]; try omega) fd4_17
  have fc4_18 : E18.getD (45 + 33 * n) none = some (sh4 ord b (nf * 8 + nf * 8) 16 16) := by
    rw [hE18]
    exact getD_peel1 _ (by rw [hlen17]; try omega) fc4_17
  have fd5_18 : E18.getD (47 + 36 * n) none = some (sh4 ord b (nf * 8) 32 32) := by
    rw [hE18]
    exact getD_peel1 _ (by rw [hlen17]; try omega) fd5_17
  have fc5_18 : E18.getD (49 + 36 * n) none = some (sh4 ord b (nf * 8 + nf * 8) 32 32) := by
    rw [hE18]
    exact getD_peel1 _ (by rw [hlen17]; try omega) fc5_17
  have fd6_18 : E18.getD (51 + 39 * n) none = some (sh4 ord b (nf * 4) 64 64) := by
    rw [hE18]
    exact getD_peel1 _ (by rw [hlen17]; try omega) fd6_17
  have fc6_18 : E18.getD (53 + 39 * n) none = some (sh4 ord b (nf * 4 + nf * 4) 64 64) := by
    rw [hE18]
    exact getD_peel1 _ (by rw [hlen17]; try omega) fc6_17
  have fd7_18 : E18.getD (55 + 42 * n) none = some (sh4 ord b (nf * 2) 128 128) := by
    rw [hE18]
    exact getD_peel1 _ (by rw [hlen17]; try omega) fd7_17
  have fc7_18 : E18.getD (57 + 42 * n) none = some (sh4 ord b (nf * 2 + nf * 2) 128 128) := by
    rw [hE18]
    exact getD_peel1 _ (by rw [hlen17]; try omega) fc7_17
  have fd8_18 : E18.getD (59 + 45 * n) none = some (sh4 ord b (nf) 256 256) := by
    rw [hE18]
    exact getD_peel1 _ (by rw [hlen17]; try omega) fd8_17
  have fc8_18 : E18.getD (61 + 45 * n) none = some (sh4 ord b (nf + nf) 256 256) := by
    rw [hE18]
    exact getD_peel1 _ (by rw [hlen17]; try omega) fc8_17
  have fd9_18 : E18.getD (63 + 48 * n) none = some (sh4 ord b out_ch 512 512) := by
    rw [hE18]
    rw [show (63 + 48 * n : Nat) = E17.length + 0 from by rw [hlen17]; try omega]
    rw [getD_appAt _ _ 0 none (by simp)]
    rfl
  have fout_18 : E18.getD (64 + 48 * n) none = some (sh4 ord b out_ch 512 512) := by
    rw [hE18]
    rw [show (64 + 48 * n : Nat) = E17.length + 1 from by rw [hlen17]; try omega]
    rw [getD_appAt _ _ 1 none (by simp)]
    rfl
  have hev2 : evalShapes ord (sh4 ord b in_ch 512 512)
      (unetNodes k2 ord (inDecl ord in_ch) out_ch nf bs ib n) = E18 := by
    rw [unetNodes, unetSegments]
    simp only [List.flatten_cons, List.flatten_nil, List.append_nil]
    exact hev
  exact ⟨by rw [hev2]; exact f0_18,
    by rw [hev2]; exact fe1_18,
    by rw [hev2]; exact fe2_18,
    by rw [hev2]; exact fe3_18,
    by rw [hev2]; exact fe4_18,
    by rw [hev2]; exact fe5_18,
    by rw [hev2]; exact fe6_18,
    by rw [hev2]; exact fe7_18,
    by rw [hev2]; exact fe8_18,
    by rw [hev2]; exact fe9_18,
    by rw [hev2]; exact fd1_18,
    by rw [hev2]; exact fd2_18,
    by rw [hev2]; exact fd3_18,
    by rw [hev2]; exact fd4_18,
    by rw [hev2]; exact fd5_18,
    by rw [hev2]; exact fd6_18,
    by rw [hev2]; exact fd7_18,
    by rw [hev2]; exact fd8_18,
    by rw [hev2]; exact fd9_18,
    by rw [hev2]; exact fc1_18,
    by rw [hev2]; exact fc2_18,
    by rw [hev2]; exact fc3_18,
    by rw [hev2]; exact fc4_18,
    by rw [hev2]; exact fc5_18,
    by rw [hev2]; exact fc6_18,
    by rw [hev2]; exact fc7_18,
    by rw [hev2]; exact fc8_18,
    by rw [hev2]; exact fout_18⟩

/-! ### Activation semantics (real-valued) -/

/-- The sigmoid activation as a real function. -/
noncomputable def sigmoid (x : ℝ) : ℝ := 1 / (1 + Real.exp (-x))

theorem sigmoid_mem_Icc (x : ℝ) : sigmoid x ∈ Set.Icc (0 : ℝ) 1 := by
  have h1 : (0 : ℝ) < Real.exp (-x) := Real.exp_pos _
  constructor
  · exact div_nonneg zero_le_one (by linarith)
  · rw [sigmoid, div_le_one (by linarith)]
    linarith

theorem tanh_mem_Icc (x : ℝ) : Real.tanh x ∈ Set.Icc (-1 : ℝ) 1 := by
  have hc : (0 : ℝ) < Real.cosh x := Real.cosh_pos x
  have h1 : Real.cosh x - Real.sinh x = Real.exp (-x) := Real.cosh_sub_sinh x
  have h2 : Real.cosh x + Real.sinh x = Real.exp x := Real.cosh_add_sinh x
  have he1 : (0 : ℝ) < Real.exp (-x) := Real.exp_pos _
  have he2 : (0 : ℝ) < Real.exp x := Real.exp_pos _
  rw [Real.tanh_eq_sinh_div_cosh]
  constructor
  · rw [le_div_iff₀ hc]
    linarith
  · rw [div_le_one hc]
    linarith

/-! ### Structural predicates on the graph -/

/-- Filter count of a downsampling or bottleneck convolution (stride 2, or
valid padding); refinement convolutions (stride 1, same padding) and all
other layers are excluded. -/
def isDownConv (nd : BuiltNode) : Option Nat :=
  match nd.layer with
  | .conv2D f _ _ pad s1 _ => if s1 = 2 ∨ pad = "valid" then some f else none
  | _ => none

/-- Filter count of a transposed convolution (either Keras version). -/
def isDeconv (nd : BuiltNode) : Option Nat :=
  match nd.layer with
  | .conv2DTranspose f _ _ _ _ _ => some f
  | .deconv2D f _ _ _ _ _ => some f
  | _ => none

/-- The filter counts of the downsampling and bottleneck convolutions of a
graph, in construction order. -/
def downConvFilters (g : Graph) : List Nat := g.filterMap isDownConv

/-- The filter counts of the transposed convolutions of a graph, in
construction order. -/
def deconvFilters (g : Graph) : List Nat := g.filterMap isDeconv

/-- Whether a node is a resolution-preserving refinement convolution
(stride 1, same padding), the convolution opening each padded_conv block. -/
def isRefConv (nd : BuiltNode) : Bool :=
  match nd.layer with
  | .conv2D _ _ _ pad s1 _ => pad == "same" && s1 == 1
  | _ => false

/-- The number of refinement blocks in a stage segment, counted by their
opening convolutions. -/
def refinementCount (l : List BuiltNode) : Nat := l.countP isRefConv

/-- Whether a node is a Dropout layer. -/
def isDropoutNode (nd : BuiltNode) : Bool :=
  match nd.layer with
  | .dropout _ => true
  | _ => false

/-- Whether a stage segment applies dropout. -/
def hasDropout (l : List BuiltNode) : Bool := l.any isDropoutNode

theorem pcSeg_filterMap_down (k2 : Bool) (num f x base : Nat) :
    (pcSeg k2 num f x base).filterMap isDownConv = [] := by
  induction num generalizing x base with
  | zero => rfl
  | succ m ih =>
    cases k2 <;>
      simp [pcSeg, isDownConv, Convolution, BatchNorm, List.filterMap_cons, ih]

theorem pcSeg_filterMap_deconv (k2 : Bool) (num f x base : Nat) :
    (pcSeg k2 num f x base).filterMap isDeconv = [] := by
  induction num generalizing x base with
  | zero => rfl
  | succ m ih =>
    cases k2 <;>
      simp [pcSeg, isDeconv, Convolution, BatchNorm, List.filterMap_cons, ih]

theorem pcSeg_refinementCount (k2 : Bool) (num f x base : Nat) :
    refinementCount (pcSeg k2 num f x base) = num := by
  induction num generalizing x base with
  | zero => rfl
  | succ m ih =>
    have h := ih (base + 2) (base + 3)
    have h1 : isRefConv ⟨Convolution k2 f 3 1, [x]⟩ = true := by
      cases k2 <;> rfl
    have h2 : isRefConv ⟨BatchNorm k2, [base]⟩ = false := by
      cases k2 <;> rfl
    have h3 : isRefConv ⟨Layer.leakyReLU 0.2, [base + 1]⟩ = false := rfl
    rw [pcSeg]
    simp only [refinementCount, List.countP_cons] at h ⊢
    rw [h1, h2, h3]
    simp
    omega

theorem pcSeg_hasDropout (k2 : Bool) (num f x base : Nat) :
    hasDropout (pcSeg k2 num f x base) = false := by
  induction num generalizing x base with
  | zero => rfl
  | succ m ih =>
    have h := ih (base + 2) (base + 3)
    have h1 : isDropoutNode ⟨Convolution k2 f 3 1, [x]⟩ = false := by
      cases k2 <;> rfl
    have h2 : isDropoutNode ⟨BatchNorm k2, [base]⟩ = false := by
      cases k2 <;> rfl
    rw [pcSeg]
    simp only [hasDropout, List.any_cons] at h ⊢
    rw [h1, h2]
    simp [isDropoutNode, h]

theorem downConvFilters_unetNodes (k2 : Bool) (ord : String)
    (decl : List Nat) (out_ch nf bs : Nat) (ib : Bool) (n : Nat) :
    downConvFilters (unetNodes k2 ord decl out_ch nf bs ib n) =
      [nf, nf * 2, nf * 4, nf * 8, nf * 8, nf * 8, nf * 8, nf * 8, nf * 8] := by
  cases k2 <;>
    simp [downConvFilters, unetNodes, unetSegments, encSeg, decSegA, decSegB,
      finSeg, concatNode, List.filterMap_append, List.filterMap_cons,
      pcSeg_filterMap_down, isDownConv, Convolution, BatchNorm, Deconvolution]

theorem deconvFilters_unetNodes (k2 : Bool) (ord : String)
    (decl : List Nat) (out_ch nf bs : Nat) (ib : Bool) (n : Nat) :
    deconvFilters (unetNodes k2 ord decl out_ch nf bs ib n) =
      [nf * 8, nf * 8, nf * 8, nf * 8, nf * 8, nf * 4, nf * 2, nf, out_ch] := by
  cases k2 <;>
    simp [deconvFilters, unetNodes, unetSegments, encSeg, decSegA, decSegB,
      finSeg, concatNode, List.filterMap_append, List.filterMap_cons,
      pcSeg_filterMap_deconv, isDeconv, Convolution, BatchNorm, Deconvolution]

theorem refinementCount_encSeg_strided (k2 : Bool) (npc f x : Nat) :
    refinementCount (encSeg k2 npc f 3 2 "same" x) = npc := by
  have h := pcSeg_refinementCount k2 npc f (x + 3) (x + 4)
  cases k2 <;>
    · simp only [encSeg, refinementCount, List.countP_cons] at h ⊢
      simp [isRefConv, Convolution, BatchNorm]
      omega

theorem refinementCount_encSeg_valid (k2 : Bool) (f x : Nat) :
    refinementCount (encSeg k2 0 f 2 1 "valid" x) = 0 := by
  cases k2 <;> rfl

theorem refinementCount_decSegA (k2 : Bool) (ord : String) (npc f : Nat)
    (os : List Nat) (k s cax skip x : Nat) :
    refinementCount (decSegA k2 ord npc f os k s cax skip x) = npc := by
  have h := pcSeg_refinementCount k2 npc f (x + 5) (x + 6)
  cases k2 <;>
    · simp only [decSegA, refinementCount, List.countP_cons, concatNode] at h ⊢
      simp [isRefConv, Convolution, BatchNorm, Deconvolution]
      omega

theorem refinementCount_decSegB (k2 : Bool) (ord : String) (npc f : Nat)
    (os : List Nat) (k s cax skip x : Nat) :
    refinementCount (decSegB k2 ord npc f os k s cax skip x) = npc := by
  have h := pcSeg_refinementCount k2 npc f (x + 4) (x + 5)
  cases k2 <;>
    · simp only [decSegB, refinementCount, List.countP_cons, concatNode] at h ⊢
      simp [isRefConv, Convolution, BatchNorm, Deconvolution]
      omega

theorem refinementCount_finSeg (k2 : Bool) (ord : String) (out_ch : Nat)
    (os : List Nat) (act : String) (x : Nat) :
    refinementCount (finSeg k2 ord out_ch os act x) = 0 := by
  cases k2 <;> rfl

theorem hasDropout_decSegA (k2 : Bool) (ord : String) (npc f : Nat)
    (os : List Nat) (k s cax skip x : Nat) :
    hasDropout (decSegA k2 ord npc f os k s cax skip x) = true := by
  cases k2 <;> simp [decSegA, hasDropout, List.any_cons, isDropoutNode]

theorem hasDropout_decSegB (k2 : Bool) (ord : String) (npc f : Nat)
    (os : List Nat) (k s cax skip x : Nat) :
    hasDropout (decSegB k2 ord npc f os k s cax skip x) = false := by
  have h := pcSeg_hasDropout k2 npc f (x + 4) (x + 5)
  cases k2 <;>
    · simp only [decSegB, hasDropout, List.any_cons, concatNode] at h ⊢
      simp [isDropoutNode, Convolution, BatchNorm, Deconvolution, h]

theorem hasDropout_finSeg (k2 : Bool) (ord : String) (out_ch : Nat)
    (os : List Nat) (act : String) (x : Nat) :
    hasDropout (finSeg k2 ord out_ch os act x) = false := by
  cases k2 <;> rfl

/-! ### Claim theorems -/

/-- C7: an image dimension ordering other than th and tf makes g_unet raise
the descriptive ValueError naming the unsupported ordering; the error branch
runs before any layer construction, so no graph is produced. -/
theorem c7_unsupported_ordering_error (k2 : Bool) (ordering : String)
    (in_ch out_ch nf bs : Nat) (ib : Bool) (n : Nat) (nm : String)
    (h1 : ordering ≠ "th") (h2 : ordering ≠ "tf") :
    g_unet k2 ordering in_ch out_ch nf bs ib n nm =
      .error ("Keras dimension ordering not supported: " ++ ordering) := by
  unfold g_unet
  rw [if_neg h1, if_neg h2]

theorem c7_witness :
    g_unet false "channels_first" 1 1 1 1 false 0 "unet" =
      .error ("Keras dimension ordering not supported: " ++ "channels_first") :=
  c7_unsupported_ordering_error false "channels_first" 1 1 1 1 false 0 "unet"
    (by decide) (by decide)

/-- C9: the module sets the global ordering to th at import time, so a call
reading that configuration takes the th branch (prints the Theano
diagnostic); the tf branch and the unsupported-ordering error are not
reached. -/
theorem c9_import_sets_th (k2 : Bool) (in_ch out_ch nf bs : Nat) (ib : Bool)
    (n : Nat) (nm : String) :
    module_image_dim_ordering = "th" ∧
    ∃ u, g_unet k2 module_image_dim_ordering in_ch out_ch nf bs ib n nm =
        .ok u ∧
      u.diag = "TheanoShapedU-NET" ∧ u.diag ≠ "TensorflowShapedU-NET" := by
  refine ⟨rfl,
    ⟨⟨unetNodes k2 "th" [in_ch, 512, 512] out_ch nf bs ib n, 0, 64 + 48 * n,
      nm, "TheanoShapedU-NET"⟩,
      g_unet_th_eq k2 in_ch out_ch nf bs ib n nm, rfl, ?_⟩⟩
  simp

/-- C1: for positive channel counts, filter width and batch size, the model
built under the th ordering maps an input of shape
(batch_size, in_ch, 512, 512) to an output of shape
(batch_size, out_ch, 512, 512), and under the tf ordering the axis-permuted
equivalent holds. -/
theorem c1_output_shape (k2 : Bool) (in_ch out_ch nf bs : Nat) (ib : Bool)
    (n : Nat) (nm : String) (hpin : 0 < in_ch) (hpout : 0 < out_ch)
    (hpnf : 0 < nf) (hpbs : 0 < bs) :
    (∃ u, g_unet k2 "th" in_ch out_ch nf bs ib n nm = .ok u ∧ u.input = 0 ∧
      (evalShapes "th" [bs, in_ch, 512, 512] u.graph).getD u.output none =
        some [bs, out_ch, 512, 512]) ∧
    (∃ u, g_unet k2 "tf" in_ch out_ch nf bs ib n nm = .ok u ∧ u.input = 0 ∧
      (evalShapes "tf" [bs, 512, 512, in_ch] u.graph).getD u.output none =
        some [bs, 512, 512, out_ch]) := by
  constructor
  · obtain ⟨-, -, -, -, -, -, -, -, -, -, -, -, -, -, -, -, -, -, -, -, -, -,
      -, -, -, -, -, hout0⟩ :=
      unetNodes_eval_facts "th" (Or.inl rfl) k2 in_ch out_ch nf bs bs ib n
    exact ⟨_, g_unet_th_eq k2 in_ch out_ch nf bs ib n nm, rfl, hout0⟩
  · obtain ⟨-, -, -, -, -, -, -, -, -, -, -, -, -, -, -, -, -, -, -, -, -, -,
      -, -, -, -, -, hout0⟩ :=
      unetNodes_eval_facts "tf" (Or.inr rfl) k2 in_ch out_ch nf bs bs ib n
    exact ⟨_, g_unet_tf_eq k2 in_ch out_ch nf bs ib n nm, rfl, hout0⟩

theorem c1_witness :
    (∃ u, g_unet false "th" 1 1 1 1 false 0 "unet" = .ok u ∧ u.input = 0 ∧
      (evalShapes "th" [1, 1, 512, 512] u.graph).getD u.output none =
        some [1, 1, 512, 512]) ∧
    (∃ u, g_unet false "tf" 1 1 1 1 false 0 "unet" = .ok u ∧ u.input = 0 ∧
      (evalShapes "tf" [1, 512, 512, 1] u.graph).getD u.output none =
        some [1, 512, 512, 1]) :=
  c1_output_shape false 1 1 1 1 false 0 "unet" (by decide) (by decide)
    (by decide) (by decide)

theorem unetNodes_keras2_batch (ord : String) (decl : List Nat)
    (out_ch nf b1 b2 : Nat) (ib : Bool) (n : Nat) :
    unetNodes true ord decl out_ch nf b1 ib n =
      unetNodes true ord decl out_ch nf b2 ib n := by
  simp [unetNodes, unetSegments, encSeg, decSegA, decSegB, finSeg,
    Deconvolution]

/-- C10: under Keras 2 the Deconvolution wrapper discards its output_shape
argument, so two calls of g_unet differing only in batch_size build the same
model. -/
theorem c10_keras2_batch_independent (in_ch out_ch nf b1 b2 : Nat) (ib : Bool)
    (n : Nat) (nm : String) :
    (∀ (ordering : String) (f : Nat) (os1 os2 : List Nat) (k s : Nat),
      Deconvolution true ordering f os1 k s =
        Deconvolution true ordering f os2 k s) ∧
    g_unet true "th" in_ch out_ch nf b1 ib n nm =
      g_unet true "th" in_ch out_ch nf b2 ib n nm ∧
    g_unet true "tf" in_ch out_ch nf b1 ib n nm =
      g_unet true "tf" in_ch out_ch nf b2 ib n nm := by
  refine ⟨fun ordering f os1 os2 k s => rfl, ?_, ?_⟩
  · rw [g_unet_th_eq, g_unet_th_eq,
      unetNodes_keras2_batch "th" [in_ch, 512, 512] out_ch nf b1 b2 ib n]
  · rw [g_unet_tf_eq, g_unet_tf_eq,
      unetNodes_keras2_batch "tf" [512, 512, in_ch] out_ch nf b1 b2 ib n]

/-- C5: in the built graph the spatial extents halve at each of the nine
encoder stages, from 512 x 512 down to 1 x 1 at the bottleneck (whose
valid-padding convolution takes 2 x 2 to 1 x 1), and double at each of the
nine decoder transposed convolutions, ending at 512 x 512. -/
theorem c5_spatial_schedule (ord : String) (hord : ord = "th" ∨ ord = "tf")
    (k2 : Bool) (in_ch out_ch nf bs : Nat) (ib : Bool) (n : Nat)
    (nm : String) :
    ∃ u, g_unet k2 ord in_ch out_ch nf bs ib n nm = .ok u ∧
      (evalShapes ord (sh4 ord bs in_ch 512 512) u.graph).getD u.input none =
        some (sh4 ord bs in_ch 512 512) ∧
      [(evalShapes ord (sh4 ord bs in_ch 512 512) u.graph).getD (3 + 3 * n) none,
       (evalShapes ord (sh4 ord bs in_ch 512 512) u.graph).getD (6 + 6 * n) none,
       (evalShapes ord (sh4 ord bs in_ch 512 512) u.graph).getD (9 + 9 * n) none,
       (evalShapes ord (sh4 ord bs in_ch 512 512) u.graph).getD (12 + 12 * n) none,
       (evalShapes ord (sh4 ord bs in_ch 512 512) u.graph).getD (15 + 15 * n) none,
       (evalShapes ord (sh4 ord bs in_ch 512 512) u.graph).getD (18 + 18 * n) none,
       (evalShapes ord (sh4 ord bs in_ch 512 512) u.graph).getD (21 + 21 * n) none,
       (evalShapes ord (sh4 ord bs in_ch 512 512) u.graph).getD (24 + 24 * n) none,
       (evalShapes ord (sh4 ord bs in_ch 512 512) u.graph).getD (27 + 24 * n) none] =
      [some (sh4 ord bs nf 256 256),
       some (sh4 ord bs (nf * 2) 128 128),
       some (sh4 ord bs (nf * 4) 64 64),
       some (sh4 ord bs (nf * 8) 32 32),
       some (sh4 ord bs (nf * 8) 16 16),
       some (sh4 ord bs (nf * 8) 8 8),
       some (sh4 ord bs (nf * 8) 4 4),
       some (sh4 ord bs (nf * 8) 2 2),
       some (sh4 ord bs (nf * 8) 1 1)] ∧
      [(evalShapes ord (sh4 ord bs in_ch 512 512) u.graph).getD (28 + 24 * n) none,
       (evalShapes ord (sh4 ord bs in_ch 512 512) u.graph).getD (33 + 27 * n) none,
       (evalShapes ord (sh4 ord bs in_ch 512 512) u.graph).getD (38 + 30 * n) none,
       (evalShapes ord (sh4 ord bs in_ch 512 512) u.graph).getD (43 + 33 * n) none,
       (evalShapes ord (sh4 ord bs in_ch 512 512) u.graph).getD (47 + 36 * n) none,
       (evalShapes ord (sh4 ord bs in_ch 512 512) u.graph).getD (51 + 39 * n) none,
       (evalShapes ord (sh4 ord bs in_ch 512 512) u.graph).getD (55 + 42 * n) none,
       (evalShapes ord (sh4 ord bs in_ch 512 512) u.graph).getD (59 + 45 * n) none,
       (evalShapes ord (sh4 ord bs in_ch 512 512) u.graph).getD (63 + 48 * n) none] =
      [some (sh4 ord bs (nf * 8) 2 2),
       some (sh4 ord bs (nf * 8) 4 4),
       some (sh4 ord bs (nf * 8) 8 8),
       some (sh4 ord bs (nf * 8) 16 16),
       some (sh4 ord bs (nf * 8) 32 32),
       some (sh4 ord bs (nf * 4) 64 64),
       some (sh4 ord bs (nf * 2) 128 128),
       some (sh4 ord bs nf 256 256),
       some (sh4 ord bs out_ch 512 512)] ∧
      (evalShapes ord (sh4 ord bs in_ch 512 512) u.graph).getD u.output none =
        some (sh4 ord bs out_ch 512 512) := by
  obtain ⟨f0, fe1, fe2, fe3, fe4, fe5, fe6, fe7, fe8, fe9, fd1, fd2, fd3, fd4,
    fd5, fd6, fd7, fd8, fd9, fc1, fc2, fc3, fc4, fc5, fc6, fc7, fc8, fout⟩ :=
    unetNodes_eval_facts ord hord k2 in_ch out_ch nf bs bs ib n
  rcases hord with h | h <;> subst h
  · refine ⟨⟨unetNodes k2 "th" (inDecl "th" in_ch) out_ch nf bs ib n, 0,
        64 + 48 * n, nm, "TheanoShapedU-NET"⟩,
      g_unet_th_eq k2 in_ch out_ch nf bs ib n nm, f0, ?_, ?_, fout⟩
    · rw [fe1, fe2, fe3, fe4, fe5, fe6, fe7, fe8, fe9]
    · rw [fd1, fd2, fd3, fd4, fd5, fd6, fd7, fd8, fd9]
  · refine ⟨⟨unetNodes k2 "tf" (inDecl "tf" in_ch) out_ch nf bs ib n, 0,
        64 + 48 * n, nm, "TensorflowShapedU-NET"⟩,
      g_unet_tf_eq k2 in_ch out_ch nf bs ib n nm, f0, ?_, ?_, fout⟩
    · rw [fe1, fe2, fe3, fe4, fe5, fe6, fe7, fe8, fe9]
    · rw [fd1, fd2, fd3, fd4, fd5, fd6, fd7, fd8, fd9]

theorem c5_witness :
    ∃ u, g_unet false "th" 1 1 1 1 false 0 "unet" = .ok u ∧
      (evalShapes "th" (sh4 "th" 1 1 512 512) u.graph).getD u.input none =
        some (sh4 "th" 1 1 512 512) ∧
      [(evalShapes "th" (sh4 "th" 1 1 512 512) u.graph).getD (3 + 3 * 0) none,
       (evalShapes "th" (sh4 "th" 1 1 512 512) u.graph).getD (6 + 6 * 0) none,
       (evalShapes "th" (sh4 "th" 1 1 512 512) u.graph).getD (9 + 9 * 0) none,
       (evalShapes "th" (sh4 "th" 1 1 512 512) u.graph).getD (12 + 12 * 0) none,
       (evalShapes "th" (sh4 "th" 1 1 512 512) u.graph).getD (15 + 15 * 0) none,
       (evalShapes "th" (sh4 "th" 1 1 512 512) u.graph).getD (18 + 18 * 0) none,
       (evalShapes "th" (sh4 "th" 1 1 512 512) u.graph).getD (21 + 21 * 0) none,
       (evalShapes "th" (sh4 "th" 1 1 512 512) u.graph).getD (24 + 24 * 0) none,
       (evalShapes "th" (sh4 "th" 1 1 512 512) u.graph).getD (27 + 24 * 0) none] =
      [some (sh4 "th" 1 1 256 256),
       some (sh4 "th" 1 (1 * 2) 128 128),
       some (sh4 "th" 1 (1 * 4) 64 64),
       some (sh4 "th" 1 (1 * 8) 32 32),
       some (sh4 "th" 1 (1 * 8) 16 16),
       some (sh4 "th" 1 (1 * 8) 8 8),
       some (sh4 "th" 1 (1 * 8) 4 4),
       some (sh4 "th" 1 (1 * 8) 2 2),
       some (sh4 "th" 1 (1 * 8) 1 1)] ∧
      [(evalShapes "th" (sh4 "th" 1 1 512 512) u.graph).getD (28 + 24 * 0) none,
       (evalShapes "th" (sh4 "th" 1 1 512 512) u.graph).getD (33 + 27 * 0) none,
       (evalShapes "th" (sh4 "th" 1 1 512 512) u.graph).getD (38 + 30 * 0) none,
       (evalShapes "th" (sh4 "th" 1 1 512 512) u.graph).getD (43 + 33 * 0) none,
       (evalShapes "th" (sh4 "th" 1 1 512 512) u.graph).getD (47 + 36 * 0) none,
       (evalShapes "th" (sh4 "th" 1 1 512 512) u.graph).getD (51 + 39 * 0) none,
       (evalShapes "th" (sh4 "th" 1 1 512 512) u.graph).getD (55 + 42 * 0) none,
       (evalShapes "th" (sh4 "th" 1 1 512 512) u.graph).getD (59 + 45 * 0) none,
       (evalShapes "th" (sh4 "th" 1 1 512 512) u.graph).getD (63 + 48 * 0) none] =
      [some (sh4 "th" 1 (1 * 8) 2 2),
       some (sh4 "th" 1 (1 * 8) 4 4),
       some (sh4 "th" 1 (1 * 8) 8 8),
       some (sh4 "th" 1 (1 * 8) 16 16),
       some (sh4 "th" 1 (1 * 8) 32 32),
       some (sh4 "th" 1 (1 * 4) 64 64),
       some (sh4 "th" 1 (1 * 2) 128 128),
       some (sh4 "th" 1 1 256 256),
       some (sh4 "th" 1 1 512 512)] ∧
      (evalShapes "th" (sh4 "th" 1 1 512 512) u.graph).getD u.output none =
        some (sh4 "th" 1 1 512 512) :=
  c5_spatial_schedule "th" (Or.inl rfl) false 1 1 1 1 false 0 "unet"

/-- The literal claim of C6: the encoder channel counts follow the
eight-entry schedule (1, 2, 4, 8, 8, 8, 8, 8) times nf and the decoder
filter counts follow the mirrored schedule ended by out_ch. -/
def C6Claim : Prop :=
  ∀ (k2 : Bool) (in_ch out_ch nf bs : Nat) (ib : Bool) (n : Nat)
    (nm : String) (u : UNet),
    g_unet k2 "th" in_ch out_ch nf bs ib n nm = .ok u →
    downConvFilters u.graph = [1, 2, 4, 8, 8, 8, 8, 8].map (fun m => m * nf) ∧
    deconvFilters u.graph =
      [8, 8, 8, 8, 8, 4, 2, 1].map (fun m => m * nf) ++ [out_ch]

/-- C6 as stated is false: the encoder has nine strided or valid
convolutions, so their filter list has nine entries, one more than the
stated schedule. -/
theorem c6_counterexample : ¬ C6Claim := by
  intro h
  have h2 := (h false 1 1 1 1 false 0 "unet" _
    (g_unet_th_eq false 1 1 1 1 false 0 "unet")).1
  rw [downConvFilters_unetNodes] at h2
  exact absurd h2 (by decide)

/-- C6 amended: the encoder filter counts follow the nine-entry schedule
(1, 2, 4, 8, 8, 8, 8, 8, 8) times nf, with the repeated 8 for the
bottleneck stage; the decoder filter counts follow the mirrored schedule
(8, 8, 8, 8, 8, 4, 2, 1) times nf ended by the requested out_ch. -/
theorem c6_channel_schedule (k2 : Bool) (in_ch out_ch nf bs : Nat) (ib : Bool)
    (n : Nat) (nm : String) :
    (∃ u, g_unet k2 "th" in_ch out_ch nf bs ib n nm = .ok u ∧
      downConvFilters u.graph =
        [1, 2, 4, 8, 8, 8, 8, 8, 8].map (fun m => m * nf) ∧
      deconvFilters u.graph =
        [8, 8, 8, 8, 8, 4, 2, 1].map (fun m => m * nf) ++ [out_ch]) ∧
    (∃ u, g_unet k2 "tf" in_ch out_ch nf bs ib n nm = .ok u ∧
      downConvFilters u.graph =
        [1, 2, 4, 8, 8, 8, 8, 8, 8].map (fun m => m * nf) ∧
      deconvFilters u.graph =
        [8, 8, 8, 8, 8, 4, 2, 1].map (fun m => m * nf) ++ [out_ch]) := by
  constructor
  · refine ⟨_, g_unet_th_eq k2 in_ch out_ch nf bs ib n nm, ?_, ?_⟩
    · rw [downConvFilters_unetNodes]
      simp [Nat.mul_comm]
    · rw [deconvFilters_unetNodes]
      simp [Nat.mul_comm]
  · refine ⟨_, g_unet_tf_eq k2 in_ch out_ch nf bs ib n nm, ?_, ?_⟩
    · rw [downConvFilters_unetNodes]
      simp [Nat.mul_comm]
    · rw [deconvFilters_unetNodes]
      simp [Nat.mul_comm]

/-- Refinement-block counts of the eight strided encoder stages and the
eight concatenating decoder stages: each holds exactly n refinement
blocks. -/
theorem refinementCount_stages (k2 : Bool) (in_ch out_ch nf bs : Nat)
    (ib : Bool) (n j : Nat) (hj : j < 8) :
    refinementCount
      ((unetSegments k2 "th" (inDecl "th" in_ch) out_ch nf bs ib n).getD
        (1 + j) []) = n ∧
    refinementCount
      ((unetSegments k2 "th" (inDecl "th" in_ch) out_ch nf bs ib n).getD
        (10 + j) []) = n := by
  interval_cases j <;>
    exact ⟨refinementCount_encSeg_strided k2 n _ _,
      by first
        | exact refinementCount_decSegA k2 "th" n _ _ _ _ _ _ _
        | exact refinementCount_decSegB k2 "th" n _ _ _ _ _ _ _⟩

/-- The literal claim of C2: raising num_padded_conv from n to n + k adds k
refinement blocks to every one of the nine encoder stages and every one of
the nine decoder stages. -/
def C2Claim : Prop :=
  ∀ (k2 : Bool) (in_ch out_ch nf bs : Nat) (ib : Bool) (n k : Nat)
    (nm : String) (u : UNet),
    g_unet k2 "th" in_ch out_ch nf bs ib n nm = .ok u →
    ∀ j, j < 9 →
      refinementCount
        ((unetSegments k2 "th" (inDecl "th" in_ch) out_ch nf bs ib
          (n + k)).getD (1 + j) []) =
        refinementCount
          ((unetSegments k2 "th" (inDecl "th" in_ch) out_ch nf bs ib n).getD
            (1 + j) []) + k ∧
      refinementCount
        ((unetSegments k2 "th" (inDecl "th" in_ch) out_ch nf bs ib
          (n + k)).getD (10 + j) []) =
        refinementCount
          ((unetSegments k2 "th" (inDecl "th" in_ch) out_ch nf bs ib n).getD
            (10 + j) []) + k

/-- C2 as stated is false: the bottleneck stage conv9 (the ninth encoder
stage) is never followed by padded_conv, so its refinement count stays 0
however large num_padded_conv is; likewise the ninth decoder stage. -/
theorem c2_counterexample : ¬ C2Claim := by
  intro h
  have h2 := (h false 1 1 1 1 false 0 1 "unet" _
    (g_unet_th_eq false 1 1 1 1 false 0 "unet") 8 (by decide)).1
  exact absurd h2 (by decide)

/-- C2 amended: raising num_padded_conv from n to n + k adds exactly k
refinement blocks to each of the first eight encoder stages and each of the
first eight decoder stages, while the bottleneck stage conv9 and the final
decoder stage dconv9 carry no refinement blocks at any setting; the output
shape is unchanged at (bs, out_ch, 512, 512). -/
theorem c2_refinement_blocks (k2 : Bool) (in_ch out_ch nf bs : Nat)
    (ib : Bool) (n k j : Nat) (hj : j < 8) (nm : String) :
    ∃ u, g_unet k2 "th" in_ch out_ch nf bs ib (n + k) nm = .ok u ∧
      u.graph =
        (unetSegments k2 "th" (inDecl "th" in_ch) out_ch nf bs ib
          (n + k)).flatten ∧
      refinementCount
        ((unetSegments k2 "th" (inDecl "th" in_ch) out_ch nf bs ib
          (n + k)).getD (1 + j) []) =
        refinementCount
          ((unetSegments k2 "th" (inDecl "th" in_ch) out_ch nf bs ib n).getD
            (1 + j) []) + k ∧
      refinementCount
        ((unetSegments k2 "th" (inDecl "th" in_ch) out_ch nf bs ib
          (n + k)).getD (10 + j) []) =
        refinementCount
          ((unetSegments k2 "th" (inDecl "th" in_ch) out_ch nf bs ib n).getD
            (10 + j) []) + k ∧
      refinementCount
        ((unetSegments k2 "th" (inDecl "th" in_ch) out_ch nf bs ib
          (n + k)).getD 9 []) = 0 ∧
      refinementCount
        ((unetSegments k2 "th" (inDecl "th" in_ch) out_ch nf bs ib
          (n + k)).getD 18 []) = 0 ∧
      (evalShapes "th" (sh4 "th" bs in_ch 512 512) u.graph).getD u.output
        none = some (sh4 "th" bs out_ch 512 512) := by
  obtain ⟨-, -, -, -, -, -, -, -, -, -, -, -, -, -, -, -, -, -, -, -, -, -,
    -, -, -, -, -, fout⟩ :=
    unetNodes_eval_facts "th" (Or.inl rfl) k2 in_ch out_ch nf bs bs ib (n + k)
  obtain ⟨h1, h2⟩ := refinementCount_stages k2 in_ch out_ch nf bs ib (n + k) j hj
  obtain ⟨h3, h4⟩ := refinementCount_stages k2 in_ch out_ch nf bs ib n j hj
  refine ⟨⟨unetNodes k2 "th" (inDecl "th" in_ch) out_ch nf bs ib (n + k), 0,
      64 + 48 * (n + k), nm, "TheanoShapedU-NET"⟩,
    g_unet_th_eq k2 in_ch out_ch nf bs ib (n + k) nm, rfl, ?_, ?_, ?_, ?_,
    fout⟩
  · rw [h1, h3]
  · rw [h2, h4]
  · exact refinementCount_encSeg_valid k2 _ _
  · exact refinementCount_finSeg k2 "th" out_ch _ _ _

theorem c2_witness :
    ∃ u, g_unet false "th" 1 1 1 1 false (0 + 1) "unet" = .ok u ∧
      u.graph =
        (unetSegments false "th" (inDecl "th" 1) 1 1 1 false
          (0 + 1)).flatten ∧
      refinementCount
        ((unetSegments false "th" (inDecl "th" 1) 1 1 1 false (0 + 1)).getD
          (1 + 0) []) =
        refinementCount
          ((unetSegments false "th" (inDecl "th" 1) 1 1 1 false 0).getD
            (1 + 0) []) + 1 ∧
      refinementCount
        ((unetSegments false "th" (inDecl "th" 1) 1 1 1 false (0 + 1)).getD
          (10 + 0) []) =
        refinementCount
          ((unetSegments false "th" (inDecl "th" 1) 1 1 1 false 0).getD
            (10 + 0) []) + 1 ∧
      refinementCount
        ((unetSegments false "th" (inDecl "th" 1) 1 1 1 false (0 + 1)).getD
          9 []) = 0 ∧
      refinementCount
        ((unetSegments false "th" (inDecl "th" 1) 1 1 1 false (0 + 1)).getD
          18 []) = 0 ∧
      (evalShapes "th" (sh4 "th" 1 1 512 512) u.graph).getD u.output none =
        some (sh4 "th" 1 1 512 512) :=
  c2_refinement_blocks false 1 1 1 1 false 0 1 0 (by decide) "unet"

/-- The literal claim of C3: among the nine decoder stages exactly the
first two apply dropout. -/
def C3Claim : Prop :=
  ∀ (k2 : Bool) (in_ch out_ch nf bs : Nat) (ib : Bool) (n : Nat)
    (nm : String) (u : UNet),
    g_unet k2 "th" in_ch out_ch nf bs ib n nm = .ok u →
    [hasDropout
       ((unetSegments k2 "th" (inDecl "th" in_ch) out_ch nf bs ib n).getD
         10 []),
     hasDropout
       ((unetSegments k2 "th" (inDecl "th" in_ch) out_ch nf bs ib n).getD
         11 []),
     hasDropout
       ((unetSegments k2 "th" (inDecl "th" in_ch) out_ch nf bs ib n).getD
         12 []),
     hasDropout
       ((unetSegments k2 "th" (inDecl "th" in_ch) out_ch nf bs ib n).getD
         13 []),
     hasDropout
       ((unetSegments k2 "th" (inDecl "th" in_ch) out_ch nf bs ib n).getD
         14 []),
     hasDropout
       ((unetSegments k2 "th" (inDecl "th" in_ch) out_ch nf bs ib n).getD
         15 []),
     hasDropout
       ((unetSegments k2 "th" (inDecl "th" in_ch) out_ch nf bs ib n).getD
         16 []),
     hasDropout
       ((unetSegments k2 "th" (inDecl "th" in_ch) out_ch nf bs ib n).getD
         17 []),
     hasDropout
       ((unetSegments k2 "th" (inDecl "th" in_ch) out_ch nf bs ib n).getD
         18 [])] =
    [true, true, false, false, false, false, false, false, false]

/-- C3 as stated is false: the third decoder stage dconv3 also applies
Dropout(0.5) after its batch normalization. -/
theorem c3_counterexample : ¬ C3Claim := by
  intro h
  have h2 := h false 1 1 1 1 false 0 "unet" _
    (g_unet_th_eq false 1 1 1 1 false 0 "unet")
  exact absurd h2 (by decide)

/-- C3 amended: among the nine decoder stages exactly the first three
(dconv1, dconv2 and dconv3) apply dropout after their normalization; the
remaining six decoder stages apply no dropout. -/
theorem c3_dropout_schedule (k2 : Bool) (in_ch out_ch nf bs : Nat)
    (ib : Bool) (n : Nat) (nm : String) :
    ∃ u, g_unet k2 "th" in_ch out_ch nf bs ib n nm = .ok u ∧
      u.graph =
        (unetSegments k2 "th" (inDecl "th" in_ch) out_ch nf bs ib n).flatten ∧
      [hasDropout
         ((unetSegments k2 "th" (inDecl "th" in_ch) out_ch nf bs ib n).getD
           10 []),
       hasDropout
         ((unetSegments k2 "th" (inDecl "th" in_ch) out_ch nf bs ib n).getD
           11 []),
       hasDropout
         ((unetSegments k2 "th" (inDecl "th" in_ch) out_ch nf bs ib n).getD
           12 []),
       hasDropout
         ((unetSegments k2 "th" (inDecl "th" in_ch) out_ch nf bs ib n).getD
           13 []),
       hasDropout
         ((unetSegments k2 "th" (inDecl "th" in_ch) out_ch nf bs ib n).getD
           14 []),
       hasDropout
         ((unetSegments k2 "th" (inDecl "th" in_ch) out_ch nf bs ib n).getD
           15 []),
       hasDropout
         ((unetSegments k2 "th" (inDecl "th" in_ch) out_ch nf bs ib n).getD
           16 []),
       hasDropout
         ((unetSegments k2 "th" (inDecl "th" in_ch) out_ch nf bs ib n).getD
           17 []),
       hasDropout
         ((unetSegments k2 "th" (inDecl "th" in_ch) out_ch nf bs ib n).getD
           18 [])] =
      [true, true, true, false, false, false, false, false, false] := by
  refine ⟨⟨unetNodes k2 "th" (inDecl "th" in_ch) out_ch nf bs ib n, 0,
      64 + 48 * n, nm, "TheanoShapedU-NET"⟩,
    g_unet_th_eq k2 in_ch out_ch nf bs ib n nm, rfl, ?_⟩
  show
    [hasDropout (decSegA k2 "th" n (nf * 8) (sh4 "th" bs (nf * 8) 2 2) 2 1
       (caxOf "th") (24 + 24 * n) (27 + 24 * n)),
     hasDropout (decSegA k2 "th" n (nf * 8) (sh4 "th" bs (nf * 8) 4 4) 2 2
       (caxOf "th") (21 + 21 * n) (32 + 27 * n)),
     hasDropout (decSegA k2 "th" n (nf * 8) (sh4 "th" bs (nf * 8) 8 8) 2 2
       (caxOf "th") (18 + 18 * n) (37 + 30 * n)),
     hasDropout (decSegB k2 "th" n (nf * 8) (sh4 "th" bs (nf * 8) 16 16) 2 2
       (caxOf "th") (15 + 15 * n) (42 + 33 * n)),
     hasDropout (decSegB k2 "th" n (nf * 8) (sh4 "th" bs (nf * 8) 32 32) 2 2
       (caxOf "th") (12 + 12 * n) (46 + 36 * n)),
     hasDropout (decSegB k2 "th" n (nf * 4) (sh4 "th" bs (nf * 4) 64 64) 2 2
       (caxOf "th") (9 + 9 * n) (50 + 39 * n)),
     hasDropout (decSegB k2 "th" n (nf * 2) (sh4 "th" bs (nf * 2) 128 128) 2 2
       (caxOf "th") (6 + 6 * n) (54 + 42 * n)),
     hasDropout (decSegB k2 "th" n nf (sh4 "th" bs nf 256 256) 2 2
       (caxOf "th") (3 + 3 * n) (58 + 45 * n)),
     hasDropout (finSeg k2 "th" out_ch (sh4 "th" bs out_ch 512 512)
       (if ib then "sigmoid" else "tanh") (62 + 48 * n))] =
    [true, true, true, false, false, false, false, false, false]
  rw [hasDropout_decSegA, hasDropout_decSegA, hasDropout_decSegA,
    hasDropout_decSegB, hasDropout_decSegB, hasDropout_decSegB,
    hasDropout_decSegB, hasDropout_decSegB, hasDropout_finSeg]

/-- C4: each decoder stage j in 1..8 concatenates its upsampled tensor
(through its batch-norm and, for the first three stages, dropout node)
with the final node of encoder stage 9 - j along channel axis 1, and the
concatenated tensor carries the sum of the two channel counts at the
matching spatial size. -/
theorem c4_skip_connections (k2 : Bool) (in_ch out_ch nf bs : Nat)
    (ib : Bool) (n : Nat) (nm : String) :
    ∃ u, g_unet k2 "th" in_ch out_ch nf bs ib n nm = .ok u ∧
      u.graph = (unetSegments k2 "th" (inDecl "th" in_ch) out_ch nf bs ib n).flatten ∧
      [((unetSegments k2 "th" (inDecl "th" in_ch) out_ch nf bs ib n).getD 10 []).getD 3 (⟨Layer.inputL [], []⟩ : BuiltNode),
       ((unetSegments k2 "th" (inDecl "th" in_ch) out_ch nf bs ib n).getD 11 []).getD 3 (⟨Layer.inputL [], []⟩ : BuiltNode),
       ((unetSegments k2 "th" (inDecl "th" in_ch) out_ch nf bs ib n).getD 12 []).getD 3 (⟨Layer.inputL [], []⟩ : BuiltNode),
       ((unetSegments k2 "th" (inDecl "th" in_ch) out_ch nf bs ib n).getD 13 []).getD 2 (⟨Layer.inputL [], []⟩ : BuiltNode),
       ((unetSegments k2 "th" (inDecl "th" in_ch) out_ch nf bs ib n).getD 14 []).getD 2 (⟨Layer.inputL [], []⟩ : BuiltNode),
       ((unetSegments k2 "th" (inDecl "th" in_ch) out_ch nf bs ib n).getD 15 []).getD 2 (⟨Layer.inputL [], []⟩ : BuiltNode),
       ((unetSegments k2 "th" (inDecl "th" in_ch) out_ch nf bs ib n).getD 16 []).getD 2 (⟨Layer.inputL [], []⟩ : BuiltNode),
       ((unetSegments k2 "th" (inDecl "th" in_ch) out_ch nf bs ib n).getD 17 []).getD 2 (⟨Layer.inputL [], []⟩ : BuiltNode)] =
      [concatNode k2 1 [27 + 24 * n + 3, 24 + 24 * n],
       concatNode k2 1 [32 + 27 * n + 3, 21 + 21 * n],
       concatNode k2 1 [37 + 30 * n + 3, 18 + 18 * n],
       concatNode k2 1 [42 + 33 * n + 2, 15 + 15 * n],
       concatNode k2 1 [46 + 36 * n + 2, 12 + 12 * n],
       concatNode k2 1 [50 + 39 * n + 2, 9 + 9 * n],
       concatNode k2 1 [54 + 42 * n + 2, 6 + 6 * n],
       concatNode k2 1 [58 + 45 * n + 2, 3 + 3 * n]] ∧
      [(evalShapes "th" (sh4 "th" bs in_ch 512 512) u.graph).getD (28 + 24 * n) none,
       (evalShapes "th" (sh4 "th" bs in_ch 512 512) u.graph).getD (33 + 27 * n) none,
       (evalShapes "th" (sh4 "th" bs in_ch 512 512) u.graph).getD (38 + 30 * n) none,
       (evalShapes "th" (sh4 "th" bs in_ch 512 512) u.graph).getD (43 + 33 * n) none,
       (evalShapes "th" (sh4 "th" bs in_ch 512 512) u.graph).getD (47 + 36 * n) none,
       (evalShapes "th" (sh4 "th" bs in_ch 512 512) u.graph).getD (51 + 39 * n) none,
       (evalShapes "th" (sh4 "th" bs in_ch 512 512) u.graph).getD (55 + 42 * n) none,
       (evalShapes "th" (sh4 "th" bs in_ch 512 512) u.graph).getD (59 + 45 * n) none] =
      [some (sh4 "th" bs (nf * 8) 2 2),
       some (sh4 "th" bs (nf * 8) 4 4),
       some (sh4 "th" bs (nf * 8) 8 8),
       some (sh4 "th" bs (nf * 8) 16 16),
       some (sh4 "th" bs (nf * 8) 32 32),
       some (sh4 "th" bs (nf * 4) 64 64),
       some (sh4 "th" bs (nf * 2) 128 128),
       some (sh4 "th" bs (nf) 256 256)] ∧
      [(evalShapes "th" (sh4 "th" bs in_ch 512 512) u.graph).getD (24 + 24 * n) none,
       (evalShapes "th" (sh4 "th" bs in_ch 512 512) u.graph).getD (21 + 21 * n) none,
       (evalShapes "th" (sh4 "th" bs in_ch 512 512) u.graph).getD (18 + 18 * n) none,
       (evalShapes "th" (sh4 "th" bs in_ch 512 512) u.graph).getD (15 + 15 * n) none,
       (evalShapes "th" (sh4 "th" bs in_ch 512 512) u.graph).getD (12 + 12 * n) none,
       (evalShapes "th" (sh4 "th" bs in_ch 512 512) u.graph).getD (9 + 9 * n) none,
       (evalShapes "th" (sh4 "th" bs in_ch 512 512) u.graph).getD (6 + 6 * n) none,
       (evalShapes "th" (sh4 "th" bs in_ch 512 512) u.graph).getD (3 + 3 * n) none] =
      [some (sh4 "th" bs (nf * 8) 2 2),
       some (sh4 "th" bs (nf * 8) 4 4),
       some (sh4 "th" bs (nf * 8) 8 8),
       some (sh4 "th" bs (nf * 8) 16 16),
       some (sh4 "th" bs (nf * 8) 32 32),
       some (sh4 "th" bs (nf * 4) 64 64),
       some (sh4 "th" bs (nf * 2) 128 128),
       some (sh4 "th" bs (nf) 256 256)] ∧
      [(evalShapes "th" (sh4 "th" bs in_ch 512 512) u.graph).getD (31 + 24 * n) none,
       (evalShapes "th" (sh4 "th" bs in_ch 512 512) u.graph).getD (36 + 27 * n) none,
       (evalShapes "th" (sh4 "th" bs in_ch 512 512) u.graph).getD (41 + 30 * n) none,
       (evalShapes "th" (sh4 "th" bs in_ch 512 512) u.graph).getD (45 + 33 * n) none,
       (evalShapes "th" (sh4 "th" bs in_ch 512 512) u.graph).getD (49 + 36 * n) none,
       (evalShapes "th" (sh4 "th" bs in_ch 512 512) u.graph).getD (53 + 39 * n) none,
       (evalShapes "th" (sh4 "th" bs in_ch 512 512) u.graph).getD (57 + 42 * n) none,
       (evalShapes "th" (sh4 "th" bs in_ch 512 512) u.graph).getD (61 + 45 * n) none] =
      [some (sh4 "th" bs (nf * 8 + nf * 8) 2 2),
       some (sh4 "th" bs (nf * 8 + nf * 8) 4 4),
       some (sh4 "th" bs (nf * 8 + nf * 8) 8 8),
       some (sh4 "th" bs (nf * 8 + nf * 8) 16 16),
       some (sh4 "th" bs (nf * 8 + nf * 8) 32 32),
       some (sh4 "th" bs (nf * 4 + nf * 4) 64 64),
       some (sh4 "th" bs (nf * 2 + nf * 2) 128 128),
       some (sh4 "th" bs (nf + nf) 256 256)] := by
  obtain ⟨-, fe1, fe2, fe3, fe4, fe5, fe6, fe7, fe8, -, fd1, fd2, fd3, fd4,
    fd5, fd6, fd7, fd8, -, fc1, fc2, fc3, fc4, fc5, fc6, fc7, fc8, -⟩ :=
    unetNodes_eval_facts "th" (Or.inl rfl) k2 in_ch out_ch nf bs bs ib n
  refine ⟨⟨unetNodes k2 "th" (inDecl "th" in_ch) out_ch nf bs ib n, 0,
      64 + 48 * n, nm, "TheanoShapedU-NET"⟩,
    g_unet_th_eq k2 in_ch out_ch nf bs ib n nm, rfl, rfl, ?_, ?_, ?_⟩
  · rw [fd1, fd2, fd3, fd4, fd5, fd6, fd7, fd8]
  · rw [fe8, fe7, fe6, fe5, fe4, fe3, fe2, fe1]
  · rw [fc1, fc2, fc3, fc4, fc5, fc6, fc7, fc8]

/-- The graph built by g_unet with the final activation node removed: the
eighteen leading segments followed by the dconv9 transposed convolution.
It does not depend on is_binary. -/
def unetPrefix (keras2 : Bool) (ord : String) (decl : List Nat)
    (out_ch nf bs : Nat) (n : Nat) : List BuiltNode :=
  (unetSegments keras2 ord decl out_ch nf bs false n).dropLast.flatten ++
    [⟨Deconvolution keras2 ord out_ch (sh4 ord bs out_ch 512 512) 2 2,
      [62 + 48 * n]⟩]

/-- The real function named by an activation string. -/
noncomputable def actFun (s : String) : ℝ → ℝ :=
  match s with
  | "sigmoid" => sigmoid
  | "tanh" => Real.tanh
  | _ => id

theorem unetNodes_split (k2 : Bool) (ord : String) (decl : List Nat)
    (out_ch nf bs : Nat) (ib : Bool) (n : Nat) :
    unetNodes k2 ord decl out_ch nf bs ib n =
      unetPrefix k2 ord decl out_ch nf bs n ++
        [⟨Layer.activation (if ib then "sigmoid" else "tanh"),
          [63 + 48 * n]⟩] := by
  simp [unetNodes, unetPrefix, unetSegments, finSeg, List.flatten_cons,
    List.flatten_nil, List.append_assoc]
  omega

/-- C8: for any arguments, the graphs built with is_binary true and false
share the whole prefix up to and including the dconv9 transposed
convolution and the same input and output indices, and differ only in the
final activation node, sigmoid when is_binary is true and tanh otherwise;
the sigmoid function maps into [0, 1] and tanh maps into [-1, 1]. -/
theorem c8_final_activation (k2 : Bool) (in_ch out_ch nf bs : Nat)
    (n : Nat) (nm : String) :
    (∃ u1 u2, g_unet k2 "th" in_ch out_ch nf bs true n nm = .ok u1 ∧
      g_unet k2 "th" in_ch out_ch nf bs false n nm = .ok u2 ∧
      u1.graph = unetPrefix k2 "th" (inDecl "th" in_ch) out_ch nf bs n ++
        [⟨Layer.activation "sigmoid", [63 + 48 * n]⟩] ∧
      u2.graph = unetPrefix k2 "th" (inDecl "th" in_ch) out_ch nf bs n ++
        [⟨Layer.activation "tanh", [63 + 48 * n]⟩] ∧
      u1.input = u2.input ∧ u1.output = u2.output ∧
      u1.name = u2.name) ∧
    (∀ x : ℝ, actFun "sigmoid" x ∈ Set.Icc (0 : ℝ) 1) ∧
    (∀ x : ℝ, actFun "tanh" x ∈ Set.Icc (-1 : ℝ) 1) := by
  refine ⟨⟨⟨unetNodes k2 "th" (inDecl "th" in_ch) out_ch nf bs true n, 0,
      64 + 48 * n, nm, "TheanoShapedU-NET"⟩,
    ⟨unetNodes k2 "th" (inDecl "th" in_ch) out_ch nf bs false n, 0,
      64 + 48 * n, nm, "TheanoShapedU-NET"⟩,
    g_unet_th_eq k2 in_ch out_ch nf bs true n nm,
    g_unet_th_eq k2 in_ch out_ch nf bs false n nm, ?_, ?_, rfl, rfl, rfl⟩,
    fun x => sigmoid_mem_Icc x, fun x => tanh_mem_Icc x⟩
  · exact unetNodes_split k2 "th" (inDecl "th" in_ch) out_ch nf bs true n
  · exact unetNodes_split k2 "th" (inDecl "th" in_ch) out_ch nf bs false n

end GUnet
